import Mathlib

/-!
# ArduinoASRChat: streaming speech-recognition client

A shallow embedding of `src/src/ArduinoASRChat.cpp`.  The controller object and
the devices it talks to (secure byte stream, microphone, millisecond clock,
random source) are one record; every member function is a function on that
record.  Bytes are natural numbers below 256, `unsigned long` values are
natural numbers taken modulo `2^32`, `int` values are integers.  Everything the
controller emits (frames written to the transport, callbacks, the error report
of `parseResponse`) is appended to the `events` field in the order of emission.
Progress messages printed on the serial console are left out.
-/

/-! ## Protocol constants -/

/-- Modelled from the spec: the message-type nibble of the initial config message; the
declaration of this constant is not among the sources. -/
def CLIENT_FULL_REQUEST : Nat := 1

/-- Modelled from the spec: the message-type nibble of audio messages (also used by the end
marker); the declaration of this constant is not among the sources. -/
def CLIENT_AUDIO_ONLY_REQUEST : Nat := 2

/-- Modelled from the spec: the message-type nibble of a server result; the declaration of this
constant is not among the sources. -/
def SERVER_FULL_RESPONSE : Nat := 9

/-- Modelled from the spec: the message-type nibble of a server acknowledgement; the declaration
of this constant is not among the sources. -/
def SERVER_ACK : Nat := 11

/-- Modelled from the spec: the message-type nibble of a server error; the declaration of this
constant is not among the sources. -/
def SERVER_ERROR_RESPONSE : Nat := 15

/-- Modelled from the spec: the flags nibble of config and audio messages; the declaration of
this constant is not among the sources. -/
def NO_SEQUENCE : Nat := 0

/-- Modelled from the spec: the flags nibble of the end marker; the declaration of this constant
is not among the sources. -/
def NEG_SEQUENCE : Nat := 2

/-- Member `_wsHost` (constant). -/
def _wsHost : String := "api.elevenlabs.io"

/-- Member `_wsPort` (constant). -/
def _wsPort : Nat := 443

/-- Member `_wsPath` (constant). -/
def _wsPath : String := "/v1/speech-to-text/stream-input"

/-- Member `_samplesPerRead`: initialised in the class body and never assigned. -/
def _samplesPerRead : Int := 800

/-- Member `_sendBatchSize`: initialised in the class body and never assigned. -/
def _sendBatchSize : Int := 3200

/-! ## JSON documents (ArduinoJson) -/

/-- A JSON value as held by an ArduinoJson document. -/
inductive JsonVariant where
  | null
  | bool (b : Bool)
  | int (n : Int)
  | str (s : String)
  | arr (xs : List JsonVariant)
  | obj (kvs : List (String × JsonVariant))

namespace JsonVariant

/-- The `containsKey(key)` query: true exactly on an object holding the key. -/
def containsKey (v : JsonVariant) (key : String) : Bool :=
  match v with
  | obj kvs => kvs.any (fun kv => kv.1 == key)
  | _ => false

/-- The `v[key]` access: the member of an object, null otherwise. -/
def getMember (v : JsonVariant) (key : String) : JsonVariant :=
  match v with
  | obj kvs => (kvs.lookup key).getD null
  | _ => null

/-- The `is<JsonArray>()` query. -/
def isArray (v : JsonVariant) : Bool :=
  match v with
  | arr _ => true
  | _ => false

/-- The `size()` query: number of elements of an array or members of an object. -/
def size (v : JsonVariant) : Nat :=
  match v with
  | arr xs => xs.length
  | obj kvs => kvs.length
  | _ => 0

/-- The `v[i]` access: the element of an array, null otherwise. -/
def getElement (v : JsonVariant) (i : Nat) : JsonVariant :=
  match v with
  | arr xs => xs.getD i null
  | _ => null

end JsonVariant

/-- The library routines the controller calls and whose code is outside the repository
(ArduinoJson and mbedtls).  `deserializeJson` returns `none` on a `DeserializationError`. -/
structure Libraries where
  deserializeJson : List Nat → Option JsonVariant
  serializeJson : JsonVariant → List Nat
  asInt : JsonVariant → Int
  asString : JsonVariant → String
  base64_encode : List Nat → String

/-! ## Observable events and the controller record -/

/-- What the controller does to the outside, in order of occurrence.  `sent header data` stands
for the two consecutive `_client.write` calls of one pass through `sendWebSocketFrame`. -/
inductive Event where
  | connect
  | print (text : String)
  | sent (header : List Nat) (data : List Nat)
  | stop
  | resultCallback (text : String)
  | timeoutNoSpeechCallback
  | serialError (json : List Nat)
deriving DecidableEq, Repr

/-- What the network answers to one connection attempt of `connectWebSocket`: the TLS connect
fails, no answer arrives within five seconds, or the header lines accumulated in `response`. -/
inductive ConnectOutcome where
  | sslFailed
  | timeout
  | response (text : String)
deriving DecidableEq, Repr

/-- The members of class `ArduinoASRChat` (leading underscore, as in the source) together with the
devices: `clock` is `millis()`, `clientConnected` is `_client.connected()`, `inbound` the bytes
`_client` can read, `mic` the values `_I2S.read()` will return, `rng`/`randCalls` the random
source, `efuseMac` the device identifier, `overShift x n` what the target makes of `x >> n` for
a 32-bit `x` and a count `n` of 32 or more, which the language leaves undefined.
`_resultCallback` and `_timeoutNoSpeechCallback` tell whether a callback is registered.
`_sendBuffer` gives the staging array by index, and `bufferOverrun` records a store outside
`0 .. _sendBatchSize / 2 - 1`. -/
structure ArduinoASRChat where
  _apiKey : String
  _cluster : String
  _sampleRate : Int
  _bitsPerSample : Int
  _channels : Int
  _silenceDuration : Nat
  _maxSeconds : Int
  _wsConnected : Bool
  _isRecording : Bool
  _shouldStop : Bool
  _hasSpeech : Bool
  _hasNewResult : Bool
  _endMarkerSent : Bool
  _lastResultText : String
  _recognizedText : String
  _recordingStartTime : Nat
  _lastSpeechTime : Nat
  _sameResultCount : Int
  _lastDotTime : Nat
  _sendBuffer : Int → Int
  _sendBufferPos : Int
  _resultCallback : Bool
  _timeoutNoSpeechCallback : Bool
  clock : Nat
  clientConnected : Bool
  inbound : List Nat
  mic : List Int
  rng : Nat → Nat
  randCalls : Nat
  efuseMac : Nat
  overShift : Nat → Nat → Nat
  bufferOverrun : Bool
  events : List Event

namespace ArduinoASRChat

/-- The constructor, with the in-class member initialisers. -/
def new (apiKey cluster : String) (rng : Nat → Nat) (efuseMac clock : Nat)
    (overShift : Nat → Nat → Nat) : ArduinoASRChat where
  _apiKey := apiKey
  _cluster := cluster
  _sampleRate := 16000
  _bitsPerSample := 16
  _channels := 1
  _silenceDuration := 1000
  _maxSeconds := 50
  _wsConnected := false
  _isRecording := false
  _shouldStop := false
  _hasSpeech := false
  _hasNewResult := false
  _endMarkerSent := false
  _lastResultText := ""
  _recognizedText := ""
  _recordingStartTime := 0
  _lastSpeechTime := 0
  _sameResultCount := 0
  _lastDotTime := 0
  _sendBuffer := fun _ => 0
  _sendBufferPos := 0
  _resultCallback := false
  _timeoutNoSpeechCallback := false
  clock := clock % 2 ^ 32
  clientConnected := false
  inbound := []
  mic := []
  rng := rng
  randCalls := 0
  efuseMac := efuseMac
  overShift := overShift
  bufferOverrun := false
  events := []

/-! ### Devices -/

/-- The `millis()` clock. -/
def millis (s : ArduinoASRChat) : Nat := s.clock

/-- A `delay(ms)`: the clock advances. -/
def delay (ms : Nat) (s : ArduinoASRChat) : ArduinoASRChat :=
  { s with clock := (s.clock + ms) % 2 ^ 32 }

/-- Difference of two `unsigned long` values. -/
def subU32 (a b : Nat) : Nat := (a % 2 ^ 32 + 2 ^ 32 - b % 2 ^ 32) % 2 ^ 32

/-- Conversion of an `int` to `unsigned long`. -/
def toU32 (x : Int) : Nat := (x % 2 ^ 32).toNat

/-- One call of `random(lo, hi)`. -/
def random (lo hi : Nat) (s : ArduinoASRChat) : Nat × ArduinoASRChat :=
  (lo + s.rng s.randCalls % (hi - lo), { s with randCalls := s.randCalls + 1 })

/-- The loop `for i < n: bytes[i] = random(0, 256)`. -/
def randomBytes : Nat → ArduinoASRChat → List Nat × ArduinoASRChat
  | 0, s => ([], s)
  | n + 1, s =>
    let r := random 0 256 s
    let rs := randomBytes n r.2
    (r.1 :: rs.1, rs.2)

/-- Appends one event to the record of what happened. -/
def emit (e : Event) (s : ArduinoASRChat) : ArduinoASRChat :=
  { s with events := s.events ++ [e] }

/-- The call `_client.stop()`. -/
def clientStop (s : ArduinoASRChat) : ArduinoASRChat :=
  emit .stop { s with clientConnected := false, inbound := [] }

/-! ### Configuration -/

/-- Source: `setApiConfig`; `none` is a null pointer. -/
def setApiConfig (apiKey cluster : Option String) (s : ArduinoASRChat) : ArduinoASRChat :=
  { s with _apiKey := apiKey.getD s._apiKey, _cluster := cluster.getD s._cluster }

/-- Source: `setAudioParams`. -/
def setAudioParams (sampleRate bitsPerSample channels : Int) (s : ArduinoASRChat) :
    ArduinoASRChat :=
  { s with _sampleRate := sampleRate, _bitsPerSample := bitsPerSample, _channels := channels }

/-- Source: `setSilenceDuration`. -/
def setSilenceDuration (duration : Nat) (s : ArduinoASRChat) : ArduinoASRChat :=
  { s with _silenceDuration := duration % 2 ^ 32 }

/-- Source: `setMaxRecordingSeconds`. -/
def setMaxRecordingSeconds (seconds : Int) (s : ArduinoASRChat) : ArduinoASRChat :=
  { s with _maxSeconds := seconds }

/-- Source: `setResultCallback`; the argument tells whether the pointer is non-null. -/
def setResultCallback (callback : Bool) (s : ArduinoASRChat) : ArduinoASRChat :=
  { s with _resultCallback := callback }

/-- Source: `setTimeoutNoSpeechCallback`; the argument tells whether the pointer is non-null. -/
def setTimeoutNoSpeechCallback (callback : Bool) (s : ArduinoASRChat) : ArduinoASRChat :=
  { s with _timeoutNoSpeechCallback := callback }

/-- Source: `getRecognizedText`. -/
def getRecognizedText (s : ArduinoASRChat) : String := s._recognizedText

/-- Source: `hasNewResult`. -/
def hasNewResult (s : ArduinoASRChat) : Bool := s._hasNewResult

/-- Source: `clearResult`. -/
def clearResult (s : ArduinoASRChat) : ArduinoASRChat := { s with _hasNewResult := false }

/-- Source: `isRecording`. -/
def isRecording (s : ArduinoASRChat) : Bool := s._isRecording

/-- Source: `isWebSocketConnected`. -/
def isWebSocketConnected (s : ArduinoASRChat) : Bool := s._wsConnected && s.clientConnected

/-! ### Outbound frames -/

/-- Source: `len >> n` for a `size_t len`, 32 bits wide on the ESP32 the code is written for.
A count of 32 or more is undefined in the language: `overShift len n` stands for what the target
makes of it. -/
def shiftRightSize (overShift : Nat → Nat → Nat) (len n : Nat) : Nat :=
  if n < 32 then (len % 2 ^ 32) >>> n else overShift len n

/-- Source: `sendWebSocketFrame`, lines 444-464: the bytes of `header` before the mask key, for a
payload of `len` bytes.  The loop of the third length form shifts `len` by 56, 48, ..., 0 bits. -/
def wsFrameHeader (overShift : Nat → Nat → Nat) (len opcode : Nat) : List Nat :=
  if len < 126 then
    [(0x80 ||| opcode) % 256, (0x80 ||| len) % 256]
  else if len < 65536 then
    [(0x80 ||| opcode) % 256, 0x80 ||| 126, (len >>> 8) &&& 0xFF, len &&& 0xFF]
  else
    [(0x80 ||| opcode) % 256, 0x80 ||| 127] ++
      (List.range 8).map (fun i => shiftRightSize overShift len (56 - i * 8) &&& 0xFF)

/-- The loop `for i: data[i] ^= mask_key[i % 4]` of `sendWebSocketFrame` and
`handleWebSocketData`, from index `i` on. -/
def maskFrom (mask_key : List Nat) : Nat → List Nat → List Nat
  | _, [] => []
  | i, b :: bs => (b ^^^ mask_key.getD (i % 4) 0) :: maskFrom mask_key (i + 1) bs

/-- The masking loop over a whole payload. -/
def maskData (mask_key : List Nat) (data : List Nat) : List Nat := maskFrom mask_key 0 data

/-- Source: `sendWebSocketFrame`; `data` is the `len` bytes handed over. -/
def sendWebSocketFrame (data : List Nat) (opcode : Nat) (s : ArduinoASRChat) : ArduinoASRChat :=
  if !s._wsConnected || !s.clientConnected then s
  else
    let header := wsFrameHeader s.overShift data.length opcode
    let k := randomBytes 4 s
    emit (.sent (header ++ k.1) (maskData k.1 data)) k.2

/-- The four bytes `(len >> 24) & 0xFF, ..., len & 0xFF`. -/
def lenBytes (len : Nat) : List Nat :=
  [(len >>> 24) &&& 0xFF, (len >>> 16) &&& 0xFF, (len >>> 8) &&& 0xFF, len &&& 0xFF]

/-- The JSON document built by `sendFullRequest`. -/
def configDocument (reqid : String) (s : ArduinoASRChat) : JsonVariant :=
  .obj [
    ("app", .obj [("cluster", .str s._cluster)]),
    ("user", .obj [("uid", .str (String.mk (Nat.toDigits 16 s.efuseMac)))]),
    ("request", .obj [
      ("reqid", .str reqid),
      ("nbest", .int 1),
      ("workflow", .str "audio_in,resample,partition,vad,fe,decode,itn,nlu_punctuate"),
      ("result_type", .str "full"),
      ("sequence", .int 1)]),
    ("audio", .obj [
      ("format", .str "raw"),
      ("rate", .int s._sampleRate),
      ("bits", .int s._bitsPerSample),
      ("channel", .int s._channels),
      ("codec", .str "raw")])]

/-- Source: `sendFullRequest`. -/
def sendFullRequest (lib : Libraries) (s : ArduinoASRChat) : ArduinoASRChat :=
  let r := random 10000 99999 s
  let reqid := toString (millis s) ++ "_" ++ toString r.1
  let json_str := lib.serializeJson (configDocument reqid r.2)
  let header := [0x11, (CLIENT_FULL_REQUEST <<< 4) ||| NO_SEQUENCE, 0x10, 0x00]
  sendWebSocketFrame (header ++ lenBytes json_str.length ++ json_str) 0x02 r.2

/-- Source: `sendAudioChunk`; `data` is the `len` bytes handed over. -/
def sendAudioChunk (data : List Nat) (s : ArduinoASRChat) : ArduinoASRChat :=
  let header := [0x11, (CLIENT_AUDIO_ONLY_REQUEST <<< 4) ||| NO_SEQUENCE, 0x10, 0x00]
  sendWebSocketFrame (header ++ lenBytes data.length ++ data) 0x02 s

/-- Source: `sendEndMarker`. -/
def sendEndMarker (s : ArduinoASRChat) : ArduinoASRChat :=
  let header := [0x11, (CLIENT_AUDIO_ONLY_REQUEST <<< 4) ||| NEG_SEQUENCE, 0x10, 0x00]
  sendWebSocketFrame (header ++ [0x00, 0x00, 0x00, 0x00]) 0x02 s

/-- Source: `sendPong`: a frame of length 0. -/
def sendPong (s : ArduinoASRChat) : ArduinoASRChat :=
  sendWebSocketFrame [] 0x0A s

/-! ### Recording control -/

/-- The assignment `(int16_t)sample`. -/
def toInt16 (x : Int) : Int := (x + 32768) % 65536 - 32768

/-- The two bytes of a 16-bit sample in memory (low byte first). -/
def sampleBytes (v : Int) : List Nat :=
  [(v % 65536).toNat % 256, (v % 65536).toNat / 256]

/-- The bytes `(uint8_t*)_sendBuffer` of the first `_sendBufferPos` staged samples, as handed to
`sendAudioChunk` with length `_sendBufferPos * 2`. -/
def stagedBytes (s : ArduinoASRChat) : List Nat :=
  (List.range s._sendBufferPos.toNat).flatMap (fun i => sampleBytes (s._sendBuffer i))

/-- Source: `stopRecording`. -/
def stopRecording (s : ArduinoASRChat) : ArduinoASRChat :=
  if !s._isRecording then s
  else
    let s1 : ArduinoASRChat :=
      if s._sendBufferPos > 0 then { sendAudioChunk (stagedBytes s) s with _sendBufferPos := 0 }
      else s
    let s2 : ArduinoASRChat := { s1 with
      _isRecording := false, _shouldStop := true,
      _recognizedText := s1._lastResultText, _hasNewResult := true }
    let s3 : ArduinoASRChat := { sendEndMarker s2 with _endMarkerSent := true }
    if s3._resultCallback ∧ s3._recognizedText.length > 0 then
      emit (.resultCallback s3._recognizedText) s3
    else s3

/-- The statement `_sendBuffer[_sendBufferPos++] = v`. -/
def storeSample (v : Int) (s : ArduinoASRChat) : ArduinoASRChat :=
  { s with
    _sendBuffer := Function.update s._sendBuffer s._sendBufferPos v,
    bufferOverrun :=
      s.bufferOverrun || !decide (0 ≤ s._sendBufferPos ∧ s._sendBufferPos < _sendBatchSize / 2),
    _sendBufferPos := s._sendBufferPos + 1 }

/-- Source: `processAudioSending`, the loop over at most `n` further samples. -/
def readSamples : Nat → ArduinoASRChat → ArduinoASRChat
  | 0, s => s
  | n + 1, s =>
    match s.mic with
    | [] => s
    | sample :: rest =>
      let s1 : ArduinoASRChat := { s with mic := rest }
      if sample ≠ 0 ∧ sample ≠ -1 ∧ sample ≠ 1 then
        let s2 : ArduinoASRChat := storeSample (toInt16 sample) s1
        if s2._sendBufferPos ≥ _sendBatchSize / 2 then
          readSamples n { sendAudioChunk (stagedBytes s2) s2 with _sendBufferPos := 0 }
        else readSamples n s2
      else readSamples n s1

/-- Source: `processAudioSending`. -/
def processAudioSending (s : ArduinoASRChat) : ArduinoASRChat :=
  let s1 : ArduinoASRChat :=
    if subU32 (millis s) s._lastDotTime > 1000 then { s with _lastDotTime := millis s } else s
  readSamples _samplesPerRead.toNat s1

/-- Source: `checkRecordingTimeout`. -/
def checkRecordingTimeout (s : ArduinoASRChat) : ArduinoASRChat :=
  if subU32 (millis s) s._recordingStartTime > toU32 (s._maxSeconds * 1000) then
    if !s._hasSpeech ∧ s._timeoutNoSpeechCallback then
      emit .timeoutNoSpeechCallback (stopRecording s)
    else stopRecording s
  else s

/-- Source: `checkSilence`. -/
def checkSilence (s : ArduinoASRChat) : ArduinoASRChat :=
  if s._hasSpeech ∧ s._lastSpeechTime > 0 then
    if subU32 (millis s) s._lastSpeechTime ≥ s._silenceDuration then stopRecording s else s
  else s

/-! ### Inbound messages -/

/-- Source: `parseResponse`, lines 546-565: the bytes handed to `deserializeJson`, or `none`
when the function returns before. -/
def responsePayload (data : List Nat) : Option (List Nat) :=
  if data.length < 4 then none
  else
    let msg_type := data.getD 1 0 >>> 4
    let header_size := data.getD 0 0 &&& 0x0f
    if data.length < header_size * 4 then none
    else
      let payload := data.drop (header_size * 4)
      let payload_len := data.length - header_size * 4
      if msg_type = SERVER_FULL_RESPONSE ∧ payload_len > 4 then some (payload.drop 4)
      else if msg_type = SERVER_ACK ∧ payload_len ≥ 8 then some (payload.drop 8)
      else if msg_type = SERVER_ERROR_RESPONSE ∧ payload_len ≥ 8 then some (payload.drop 8)
      else some payload

/-- Source: `parseResponse`, lines 574-582: the handling of `code`. -/
def reportCode (lib : Libraries) (doc : JsonVariant) (s : ArduinoASRChat) : ArduinoASRChat :=
  if doc.containsKey "code" then
    if lib.asInt (doc.getMember "code") ≠ 1000 ∧ lib.asInt (doc.getMember "code") ≠ 1013 then
      emit (.serialError (lib.serializeJson doc)) s
    else s
  else s

/-- Source: `parseResponse`, lines 585-592: the value of `current_text`. -/
def currentText (lib : Libraries) (doc : JsonVariant) : String :=
  if (doc.getMember "result").isArray ∧ (doc.getMember "result").size > 0 then
    if ((doc.getMember "result").getElement 0).containsKey "text" then
      lib.asString (((doc.getMember "result").getElement 0).getMember "text")
    else ""
  else ""

/-- Source: `parseResponse`, lines 594-621: the handling of `current_text`. -/
def updateResult (current_text : String) (s : ArduinoASRChat) : ArduinoASRChat :=
  if current_text.length > 0 ∧ current_text ≠ " " then
    let s1 : ArduinoASRChat := if !s._hasSpeech then { s with _hasSpeech := true } else s
    let s2 : ArduinoASRChat := { s1 with _lastSpeechTime := millis s1 }
    if current_text = s2._lastResultText then
      let s3 : ArduinoASRChat := { s2 with _sameResultCount := s2._sameResultCount + 1 }
      if s3._sameResultCount ≥ 10 ∧ s3._isRecording ∧ !s3._shouldStop then stopRecording s3
      else s3
    else { s2 with _sameResultCount := 1, _lastResultText := current_text }
  else s

/-- Source: `parseResponse`, lines 574-622: what is done with a decoded document. -/
def handleDocument (lib : Libraries) (doc : JsonVariant) (s : ArduinoASRChat) : ArduinoASRChat :=
  let s1 : ArduinoASRChat := reportCode lib doc s
  if doc.containsKey "result" then updateResult (currentText lib doc) s1 else s1

/-- Source: `parseResponse`. -/
def parseResponse (lib : Libraries) (data : List Nat) (s : ArduinoASRChat) : ArduinoASRChat :=
  match responsePayload data with
  | none => s
  | some payload =>
    match lib.deserializeJson payload with
    | none => s
    | some doc => handleDocument lib doc s

/-- The fields `handleWebSocketData` decodes before it reads the payload. -/
structure FrameHeader where
  fin : Bool
  opcode : Nat
  masked : Bool
  payload_len : Nat
  mask_key : List Nat
deriving DecidableEq, Repr

/-- A `readBytes` into a buffer holding `buffer`: the bytes read replace its first bytes. -/
def readInto (buffer bytes : List Nat) : List Nat :=
  bytes ++ buffer.drop bytes.length

/-- Source: `handleWebSocketData`, lines 486-514: the header decoded from the readable bytes
`input`, and the bytes left, or `none` when fewer than two bytes can be read.  A length byte that
cannot be read counts as 0: the input is then exhausted and no payload is read either. -/
def readFrameHeader (input : List Nat) : Option (FrameHeader × List Nat) :=
  let header := input.take 2
  if header.length ≠ 2 then none
  else
    let in1 := input.drop 2
    let fin := decide (header.getD 0 0 &&& 0x80 ≠ 0)
    let opcode := header.getD 0 0 &&& 0x0F
    let masked := decide (header.getD 1 0 &&& 0x80 ≠ 0)
    let len7 := header.getD 1 0 &&& 0x7F
    let ext : Nat × List Nat :=
      if len7 = 126 then
        (((in1.take 2).getD 0 0 <<< 8) ||| (in1.take 2).getD 1 0, in1.drop 2)
      else if len7 = 127 then
        ((List.range 8).foldl
          (fun payload_len i => ((payload_len <<< 8) % 2 ^ 64) ||| (in1.take 8).getD i 0) 0,
          in1.drop 8)
      else (len7, in1)
    let key : List Nat × List Nat :=
      if masked then (readInto [0, 0, 0, 0] (ext.2.take 4), ext.2.drop 4)
      else ([0, 0, 0, 0], ext.2)
    some (⟨fin, opcode, masked, ext.1, key.1⟩, key.2)

/-- Source: `handleWebSocketData`. -/
def handleWebSocketData (lib : Libraries) (s : ArduinoASRChat) : ArduinoASRChat :=
  match readFrameHeader s.inbound with
  | none => { s with inbound := s.inbound.drop 2 }
  | some (h, rest) =>
    if h.payload_len > 0 ∧ h.payload_len < 100000 then
      let payload := rest.take h.payload_len
      let s1 : ArduinoASRChat := { s with inbound := rest.drop h.payload_len }
      if payload.length = h.payload_len then
        let data := if h.masked then maskData h.mask_key payload else payload
        if h.opcode = 0x01 ∨ h.opcode = 0x02 then parseResponse lib data s1
        else if h.opcode = 0x08 then clientStop { s1 with _wsConnected := false }
        else if h.opcode = 0x09 then sendPong s1
        else s1
      else s1
    else { s with inbound := rest }

/-- Source: `loop`, lines 272-275: `while (_client.available())`, for at most `fuel` rounds. -/
def drainInbound (lib : Libraries) : Nat → ArduinoASRChat → ArduinoASRChat
  | 0, s => s
  | fuel + 1, s =>
    if s.inbound ≠ [] then drainInbound lib fuel (delay 10 (handleWebSocketData lib s)) else s

/-- Source: `loop`.  Every round of the draining loop reads at least one byte, so the number of
readable bytes is enough fuel. -/
def loop (lib : Libraries) (s : ArduinoASRChat) : ArduinoASRChat :=
  if !s._wsConnected then s
  else if !s.clientConnected then { s with _wsConnected := false, _isRecording := false }
  else
    let s1 : ArduinoASRChat :=
      if s._isRecording ∧ !s._shouldStop then
        checkSilence (checkRecordingTimeout (processAudioSending s))
      else s
    if s1.inbound ≠ [] then
      if s1._isRecording then handleWebSocketData lib s1
      else drainInbound lib s1.inbound.length s1
    else s1

/-! ### Connection -/

/-- Source: `generateWebSocketKey`. -/
def generateWebSocketKey (lib : Libraries) (s : ArduinoASRChat) : String × ArduinoASRChat :=
  let r := randomBytes 16 s
  (lib.base64_encode r.1, r.2)

/-- Whether `pattern` starts the text. -/
def startsWithChars : List Char → List Char → Bool
  | _, [] => true
  | [], _ :: _ => false
  | c :: cs, p :: ps => c == p && startsWithChars cs ps

/-- The test `text.indexOf(pattern) >= 0`. -/
def indexOfFound : List Char → List Char → Bool
  | [], pattern => startsWithChars [] pattern
  | c :: cs, pattern => startsWithChars (c :: cs) pattern || indexOfFound cs pattern

/-- The text of the upgrade request built by `connectWebSocket`. -/
def upgradeRequest (ws_key : String) (s : ArduinoASRChat) : String :=
  "GET " ++ _wsPath ++ " HTTP/1.1\r\n" ++ "Host: " ++ _wsHost ++ "\r\n" ++
    "Upgrade: websocket\r\n" ++ "Connection: Upgrade\r\n" ++
    "Sec-WebSocket-Key: " ++ ws_key ++ "\r\n" ++ "Sec-WebSocket-Version: 13\r\n" ++
    "x-api-key: " ++ s._apiKey ++ "\r\n" ++ "\r\n"

/-- Source: `connectWebSocket`, lines 96-115, when the TLS connect succeeds: the client is
connected afresh, the key is drawn and the upgrade request is printed. -/
def sendUpgradeRequest (lib : Libraries) (s : ArduinoASRChat) : ArduinoASRChat :=
  let k := generateWebSocketKey lib
    (emit .connect { s with clientConnected := true, inbound := [] })
  emit (.print (upgradeRequest k.1 s)) k.2

/-- Source: `connectWebSocket`, with the answer of the network given by `net`.  A failing TLS
connect leaves the client closed; the wait for the answer is not timed. -/
def connectWebSocket (lib : Libraries) (net : ConnectOutcome) (s : ArduinoASRChat) :
    Bool × ArduinoASRChat :=
  match net with
  | .sslFailed => (false, { s with clientConnected := false, inbound := [] })
  | .timeout => (false, clientStop (sendUpgradeRequest lib s))
  | .response text =>
    let s1 : ArduinoASRChat := sendUpgradeRequest lib s
    if indexOfFound text.data "101".data ∧ indexOfFound text.data "Switching Protocols".data then
      (true, { s1 with _wsConnected := true, _endMarkerSent := false })
    else (false, clientStop s1)

/-- Source: `disconnectWebSocket`. -/
def disconnectWebSocket (s : ArduinoASRChat) : ArduinoASRChat :=
  if s._wsConnected then { clientStop s with _wsConnected := false } else s

/-- Source: `startRecording`, lines 177-207: after the reconnection step. -/
def beginSession (lib : Libraries) (s : ArduinoASRChat) : Bool × ArduinoASRChat :=
  if !s._wsConnected then (false, s)
  else if s._isRecording then (false, s)
  else
    let s1 : ArduinoASRChat := { s with
      _isRecording := true, _shouldStop := false, _hasSpeech := false, _hasNewResult := false,
      _lastResultText := "", _recognizedText := "", _lastSpeechTime := 0,
      _recordingStartTime := millis s, _sendBufferPos := 0, _sameResultCount := 0,
      _lastDotTime := millis s }
    (true, delay 50 (sendFullRequest lib s1))

/-- Source: `startRecording`; `net` is what the network answers should a reconnection be made. -/
def startRecording (lib : Libraries) (net : ConnectOutcome) (s : ArduinoASRChat) :
    Bool × ArduinoASRChat :=
  if s._endMarkerSent then
    let c := connectWebSocket lib net (delay 100 (disconnectWebSocket s))
    if !c.1 then (false, c.2)
    else beginSession lib { c.2 with _endMarkerSent := false }
  else beginSession lib s

/-! ### The host and the environment -/

/-- One thing that happens to the controller: a call of the host (first group) or a change of
its environment (time passes, bytes arrive from the server, the microphone delivers values,
the transport is lost). -/
inductive HostOp where
  | connectWebSocket (net : ConnectOutcome)
  | disconnectWebSocket
  | startRecording (net : ConnectOutcome)
  | stopRecording
  | loop
  | clearResult
  | setApiConfig (apiKey cluster : Option String)
  | setAudioParams (sampleRate bitsPerSample channels : Int)
  | setSilenceDuration (duration : Nat)
  | setMaxRecordingSeconds (seconds : Int)
  | setResultCallback (callback : Bool)
  | setTimeoutNoSpeechCallback (callback : Bool)
  | tick (ms : Nat)
  | receive (bytes : List Nat)
  | capture (samples : List Int)
  | linkDown

/-- The effect of one operation. -/
def step (lib : Libraries) (op : HostOp) (s : ArduinoASRChat) : ArduinoASRChat :=
  match op with
  | .connectWebSocket net => (connectWebSocket lib net s).2
  | .disconnectWebSocket => disconnectWebSocket s
  | .startRecording net => (startRecording lib net s).2
  | .stopRecording => stopRecording s
  | .loop => loop lib s
  | .clearResult => clearResult s
  | .setApiConfig apiKey cluster => setApiConfig apiKey cluster s
  | .setAudioParams sampleRate bitsPerSample channels =>
    setAudioParams sampleRate bitsPerSample channels s
  | .setSilenceDuration duration => setSilenceDuration duration s
  | .setMaxRecordingSeconds seconds => setMaxRecordingSeconds seconds s
  | .setResultCallback callback => setResultCallback callback s
  | .setTimeoutNoSpeechCallback callback => setTimeoutNoSpeechCallback callback s
  | .tick ms => delay ms s
  | .receive bytes =>
    if s.clientConnected then { s with inbound := s.inbound ++ bytes.map (· % 256) } else s
  | .capture samples => { s with mic := s.mic ++ samples }
  | .linkDown => { s with clientConnected := false }

/-- The effect of a sequence of operations. -/
def run (lib : Libraries) : List HostOp → ArduinoASRChat → ArduinoASRChat
  | [], s => s
  | op :: ops, s => run lib ops (step lib op s)

/-- Whether the operation is a `startRecording` that returns true in state `s`. -/
def startsSession (lib : Libraries) (op : HostOp) (s : ArduinoASRChat) : Bool :=
  match op with
  | .startRecording net => (startRecording lib net s).1
  | _ => false

/-- The operations of one recording session: the run ends before the next `startRecording`
that returns true. -/
def runSession (lib : Libraries) : List HostOp → ArduinoASRChat → ArduinoASRChat
  | [], s => s
  | op :: ops, s => if startsSession lib op s then s else runSession lib ops (step lib op s)

/-- Inbound messages handed to `parseResponse` one after the other, each at its own clock
value. -/
def feedResponses (lib : Libraries) : List (Nat × List Nat) → ArduinoASRChat → ArduinoASRChat
  | [], s => s
  | m :: rest, s => feedResponses lib rest (parseResponse lib m.2 { s with clock := m.1 % 2 ^ 32 })

/-- The state after a `startRecording` from `s` and the handling of the first `k` of the
messages `msgs`. -/
def afterResponses (lib : Libraries) (net : ConnectOutcome) (s : ArduinoASRChat)
    (msgs : List (Nat × List Nat)) (k : Nat) : ArduinoASRChat :=
  feedResponses lib (msgs.take k) (startRecording lib net s).2

/-- The message is a SERVER_FULL_RESPONSE whose JSON decodes and has `result[0].text = T`. -/
def IsFullResponseWithText (lib : Libraries) (T : String) (data : List Nat) : Prop :=
  data.getD 1 0 >>> 4 = SERVER_FULL_RESPONSE ∧
  ∃ payload doc, responsePayload data = some payload ∧
    lib.deserializeJson payload = some doc ∧
    doc.containsKey "result" = true ∧ currentText lib doc = T

end ArduinoASRChat

/-! ## Reading the record of events -/

namespace Event

/-- The application message carried by a transmitted frame: the data unmasked with the key,
which is the last four bytes of the header. -/
def message : Event → Option (List Nat)
  | sent header data => some (ArduinoASRChat.maskData (header.drop (header.length - 4)) data)
  | _ => none

/-- The opcode of a transmitted frame. -/
def opcode : Event → Option Nat
  | sent header _ => some (header.getD 0 0 &&& 0x0F)
  | _ => none

/-- A transmitted config message: a frame whose message has type CLIENT_FULL_REQUEST. -/
def isConfigMessage (e : Event) : Bool :=
  match e.message with
  | some m => decide (m.getD 1 0 >>> 4 = CLIENT_FULL_REQUEST)
  | none => false

/-- A transmitted end marker: a frame whose message has type CLIENT_AUDIO_ONLY_REQUEST and
flags NEG_SEQUENCE. -/
def isEndMarker (e : Event) : Bool :=
  match e.message with
  | some m =>
    decide (m.getD 1 0 >>> 4 = CLIENT_AUDIO_ONLY_REQUEST ∧ m.getD 1 0 &&& 0x0F = NEG_SEQUENCE)
  | none => false

/-- A transmission to the server: a frame or the text of the upgrade request. -/
def isTransmission : Event → Bool
  | sent _ _ => true
  | print _ => true
  | _ => false

/-- The report of `parseResponse` on the serial console. -/
def isLog : Event → Bool
  | serialError _ => true
  | _ => false

/-- The argument of an invocation of the ResultCallback. -/
def resultText : Event → Option String
  | resultCallback text => some text
  | _ => none

/-- An invocation of the NoSpeechTimeout callback. -/
def isTimeoutCallback : Event → Bool
  | timeoutNoSpeechCallback => true
  | _ => false

end Event

/-- The arguments of the invocations of the ResultCallback, in order. -/
def resultCalls (events : List Event) : List String := events.filterMap Event.resultText

/-- Everything in the record except the serial reports. -/
def actions (events : List Event) : List Event := events.filter (fun e => !e.isLog)

/-- The frames and upgrade requests in the record. -/
def transmissions (events : List Event) : List Event := events.filter Event.isTransmission

/-- Number of invocations of the NoSpeechTimeout callback in the record. -/
def timeoutCallCount (events : List Event) : Nat := events.countP Event.isTimeoutCallback

/-- Number of config messages in the record. -/
def configCount (events : List Event) : Nat := events.countP Event.isConfigMessage

/-- Number of end markers in the record. -/
def endMarkerCount (events : List Event) : Nat := events.countP Event.isEndMarker

/-- From `s` to `t` the record only grows, by no config message, and by an end marker only if
`s` was recording and `t` no longer is. -/
def Quiet (s t : ArduinoASRChat) : Prop :=
  ∃ new, t.events = s.events ++ new ∧ configCount new = 0 ∧
    endMarkerCount new + (if t._isRecording then 1 else 0) ≤ (if s._isRecording then 1 else 0)

/-! ## Closed forms of what the sending functions add to the record -/

namespace ArduinoASRChat

/-- The mask key drawn when `n` random values have been drawn before. -/
def maskKeyAt (s : ArduinoASRChat) (n : Nat) : List Nat :=
  (List.range 4).map (fun i => s.rng (n + i) % 256)

/-- Whether `sendWebSocketFrame` passes its guard. -/
def live (s : ArduinoASRChat) : Bool := s._wsConnected && s.clientConnected

/-- The record of one `sendWebSocketFrame` whose key is drawn after `n` earlier draws. -/
def frameAt (s : ArduinoASRChat) (n : Nat) (data : List Nat) (opcode : Nat) : List Event :=
  if live s then
    [.sent (wsFrameHeader s.overShift data.length opcode ++ maskKeyAt s n)
      (maskData (maskKeyAt s n) data)]
  else []

/-- The application message of an audio chunk. -/
def audioMessage (data : List Nat) : List Nat :=
  [0x11, (CLIENT_AUDIO_ONLY_REQUEST <<< 4) ||| NO_SEQUENCE, 0x10, 0x00] ++ lenBytes data.length ++
    data

/-- The application message of the end marker. -/
def endMarkerMessage : List Nat :=
  [0x11, (CLIENT_AUDIO_ONLY_REQUEST <<< 4) ||| NEG_SEQUENCE, 0x10, 0x00, 0x00, 0x00, 0x00, 0x00]

/-- The number of random values one frame draws. -/
def draws (s : ArduinoASRChat) : Nat := if live s then 4 else 0

/-- The record of the handling of `code` in `parseResponse`. -/
def codeLog (lib : Libraries) (doc : JsonVariant) : List Event :=
  if doc.containsKey "code" = true ∧
      lib.asInt (doc.getMember "code") ≠ 1000 ∧ lib.asInt (doc.getMember "code") ≠ 1013 then
    [.serialError (lib.serializeJson doc)]
  else []

/-- The application message of the config request sent from state `s`. -/
def configMessage (lib : Libraries) (s : ArduinoASRChat) : List Nat :=
  [0x11, (CLIENT_FULL_REQUEST <<< 4) ||| NO_SEQUENCE, 0x10, 0x00] ++
    lenBytes (lib.serializeJson (configDocument
      (toString s.clock ++ "_" ++ toString (10000 + s.rng s.randCalls % (99999 - 10000)))
      s)).length ++
    lib.serializeJson (configDocument
      (toString s.clock ++ "_" ++ toString (10000 + s.rng s.randCalls % (99999 - 10000))) s)

/-- The members a successful `startRecording` resets, and the clock value it records. -/
def Fresh (now : Nat) (s : ArduinoASRChat) : Prop :=
  s._isRecording = true ∧ s._shouldStop = false ∧ s._hasSpeech = false ∧
  s._hasNewResult = false ∧ s._lastResultText = "" ∧ s._recognizedText = "" ∧
  s._lastSpeechTime = 0 ∧ s._recordingStartTime = now ∧ s._sendBufferPos = 0 ∧
  s._sameResultCount = 0

/-- The state of a recording in which exactly `k` accepted results, all with text `T`, have been
handled since `startRecording`: `A` are the actions recorded so far and `c` tells whether a
ResultCallback is registered. -/
def Counting (T : String) (A : List Event) (c : Bool) (k : Nat) (s : ArduinoASRChat) : Prop :=
  s._isRecording = true ∧ s._shouldStop = false ∧ s._sameResultCount = k ∧
  s._lastResultText = (if k = 0 then "" else T) ∧ actions s.events = A ∧ s._resultCallback = c

/-- The state after the stable-result stop: not recording, with `T` published. -/
def Published (T : String) (A : List Event) (s : ArduinoASRChat) : Prop :=
  s._isRecording = false ∧ s._lastResultText = T ∧ s._recognizedText = T ∧
  actions s.events = A

/-- The record of the flush at the start of `stopRecording`. -/
def flushEvents (s : ArduinoASRChat) : List Event :=
  if s._sendBufferPos > 0 then frameAt s s.randCalls (audioMessage (stagedBytes s)) 0x02 else []

/-- The record of one `stopRecording` in a recording state. -/
def stopEvents (s : ArduinoASRChat) : List Event :=
  flushEvents s ++
  frameAt s (s.randCalls + if s._sendBufferPos > 0 then draws s else 0) endMarkerMessage 0x02 ++
  if s._resultCallback = true ∧ s._lastResultText.length > 0 then
    [.resultCallback s._lastResultText] else []

end ArduinoASRChat

/-! ## Reachable states and what holds of them -/

namespace ArduinoASRChat

/-- The samples staged in the buffer: the entries below the write cursor. -/
def stagedSamples (s : ArduinoASRChat) : List Int :=
  (List.range s._sendBufferPos.toNat).map (fun i : Nat => s._sendBuffer (i : Int))

/-- The filter of `processAudioSending`: the value is none of 0, -1 and 1. -/
def keptSample (v : Int) : Bool := decide (v ≠ 0 ∧ v ≠ -1 ∧ v ≠ 1)

/-- The value is a 16-bit sample. -/
abbrev IsInt16 (v : Int) : Prop := -32768 ≤ v ∧ v ≤ 32767

/-- One pass through the body of the loop of `processAudioSending`, for the value `sample`
read and the values `rest` still to come. -/
def sampleStep (sample : Int) (rest : List Int) (s : ArduinoASRChat) : ArduinoASRChat :=
  if sample ≠ 0 ∧ sample ≠ -1 ∧ sample ≠ 1 then
    if (storeSample (toInt16 sample) { s with mic := rest })._sendBufferPos ≥
        _sendBatchSize / 2 then
      { sendAudioChunk (stagedBytes (storeSample (toInt16 sample) { s with mic := rest }))
          (storeSample (toInt16 sample) { s with mic := rest }) with _sendBufferPos := 0 }
    else storeSample (toInt16 sample) { s with mic := rest }
  else { s with mic := rest }

/-- The capacity of the staging buffer, in samples. -/
def capacity : Int := _sendBatchSize / 2

/-- What holds of the controller between any two operations: the write cursor lies inside the
staging buffer and no store has left it, a recording has no end marker behind it, without
speech there is neither a result text nor a speech time, and a result text has been counted. -/
def WellFormed (s : ArduinoASRChat) : Prop :=
  0 ≤ s._sendBufferPos ∧ s._sendBufferPos < capacity ∧ s.bufferOverrun = false ∧
  (s._isRecording = true → s._endMarkerSent = false) ∧
  (s._hasSpeech = false → s._lastResultText = "" ∧ s._lastSpeechTime = 0) ∧
  (s._lastResultText ≠ "" → 1 ≤ s._sameResultCount)

/-- The states the controller can be in: the constructed object, and whatever an operation of
the host or a change of the environment makes of a reachable state. -/
inductive Reachable (lib : Libraries) : ArduinoASRChat → Prop
  | init (apiKey cluster : String) (rng : Nat → Nat) (efuseMac clock : Nat)
    (overShift : Nat → Nat → Nat) :
    Reachable lib (new apiKey cluster rng efuseMac clock overShift)
  | step (op : HostOp) (s : ArduinoASRChat) : Reachable lib s → Reachable lib (step lib op s)

end ArduinoASRChat

/-! ## Inbound messages, once more -/

namespace ArduinoASRChat

/-- The message decodes to a document with a `result` key and `result[0].text = T`. -/
def CarriesText (lib : Libraries) (T : String) (data : List Nat) : Prop :=
  ∃ payload doc, responsePayload data = some payload ∧
    lib.deserializeJson payload = some doc ∧
    doc.containsKey "result" = true ∧ currentText lib doc = T

/-- Source: `parseResponse`, lines 546-549: the indices of `data` the function reads itself,
`data[1]` for `msg_type` and `data[0]` for `header_size`. -/
def headerReads (data : List Nat) : List Nat :=
  if data.length < 4 then [] else [1, 0]

/-- Source: `parseResponse`, lines 546-565, as arithmetic on the pointer and the length: the
offset of `payload` from `data` and the value of `payload_len` handed to `deserializeJson`, the
subtractions taken modulo 2^32 as for `size_t`; `none` when the function returns before. -/
def responseRegion (data : List Nat) : Option (Nat × Nat) :=
  if data.length < 4 then none
  else
    let msg_type := data.getD 1 0 >>> 4
    let header_size := data.getD 0 0 &&& 0x0f
    if data.length < header_size * 4 then none
    else
      let payload := header_size * 4
      let payload_len := subU32 data.length (header_size * 4)
      if msg_type = SERVER_FULL_RESPONSE ∧ payload_len > 4 then
        some (payload + 4, subU32 payload_len 4)
      else if msg_type = SERVER_ACK ∧ payload_len ≥ 8 then
        some (payload + 8, subU32 payload_len 8)
      else if msg_type = SERVER_ERROR_RESPONSE ∧ payload_len ≥ 8 then
        some (payload + 8, subU32 payload_len 8)
      else some (payload, payload_len)

end ArduinoASRChat

/-! ## A stand-in for the libraries, to evaluate the functions on concrete inputs -/

/-- A toy decoder: the first byte is `code - 1000`; the bytes after it, when there are any, are
the characters of `result[0].text`. -/
def demoDeserialize : List Nat → Option JsonVariant
  | [] => none
  | [c] => some (.obj [("code", .int (1000 + c))])
  | c :: text =>
    some (.obj [("code", .int (1000 + c)),
      ("result", .arr [.obj [("text", .str (String.mk (text.map Char.ofNat)))]])])

/-- The stand-in: integers and strings convert to themselves, everything else to 0 and "". -/
def demoLibraries : Libraries where
  deserializeJson := demoDeserialize
  serializeJson := fun _ => [123, 125]
  asInt := fun v => match v with
    | .int n => n
    | _ => 0
  asString := fun v => match v with
    | .str s => s
    | _ => ""
  base64_encode := fun _ => "AAAAAAAAAAAAAAAAAAAAAA=="

/-- An over-wide shift as a shifter that takes the count modulo 32 performs it. -/
def countModulo32 (x n : Nat) : Nat := (x % 2 ^ 32) >>> (n % 32)

/-- A connected controller that is not recording. -/
def demoIdle : ArduinoASRChat :=
  { ArduinoASRChat.new "key" "cluster" (fun i => i) 0 0 countModulo32 with
    _wsConnected := true, clientConnected := true, _resultCallback := true }

/-- A connected controller in the middle of a recording, with the text "hi" received. -/
def demoRecording : ArduinoASRChat :=
  { demoIdle with
    _isRecording := true, _hasSpeech := true, _lastResultText := "hi", _sameResultCount := 1,
    _lastSpeechTime := 500, clock := 600 }

/-- A SERVER_FULL_RESPONSE for the stand-in decoder: code 1001 and result text "hello". -/
def demoErrorWithText : List Nat :=
  [0x11, 0x90, 0x10, 0x00, 0, 0, 0, 6, 1, 104, 101, 108, 108, 111]

/-- A SERVER_FULL_RESPONSE for the stand-in decoder: code 1001 and no result. -/
def demoErrorOnly : List Nat := [0x11, 0x90, 0x10, 0x00, 0, 0, 0, 1, 1]

/-- A SERVER_FULL_RESPONSE for the stand-in decoder: code 1000 and result text "ok". -/
def demoOkResponse : List Nat := [0x11, 0x90, 0x10, 0x00, 0, 0, 0, 3, 0, 111, 107]

/-- Twelve such responses, all handled at clock value 700. -/
def demoTwelve : List (Nat × List Nat) := List.replicate 12 (700, demoOkResponse)

/-- A short session: the microphone delivers three values, then one `loop` and two calls of
`stopRecording`. -/
def demoSession : List ArduinoASRChat.HostOp :=
  [.capture [5, 0, 7], .loop, .stopRecording, .stopRecording]

/-- The constructed controller. -/
def demoBoot : ArduinoASRChat :=
  ArduinoASRChat.new "key" "cluster" (fun i => i) 0 0 countModulo32

/-- An answer of the server that accepts the upgrade. -/
def demoAccept : ConnectOutcome := .response "HTTP/1.1 101 Switching Protocols"

/-- Registration of a ResultCallback, a connection that succeeds and a start. -/
def demoStartOps : List ArduinoASRChat.HostOp :=
  [.setResultCallback true, .connectWebSocket demoAccept, .startRecording .timeout]

/-- The recording state these operations lead to. -/
def demoStarted : ArduinoASRChat := ArduinoASRChat.run demoLibraries demoStartOps demoBoot

/-- Registration of a NoSpeechTimeout callback, a connection, a start and sixty seconds without
any result. -/
def demoSilentOps : List ArduinoASRChat.HostOp :=
  [.setTimeoutNoSpeechCallback true, .connectWebSocket demoAccept, .startRecording .timeout,
    .tick 60000]

/-- The recording state these operations lead to. -/
def demoSilent : ArduinoASRChat := ArduinoASRChat.run demoLibraries demoSilentOps demoBoot

/-- A connection, a start and a stop. -/
def demoFinishedOps : List ArduinoASRChat.HostOp :=
  [.connectWebSocket demoAccept, .startRecording .timeout, .stopRecording]

/-- The state these operations lead to: a session is over and its end marker is sent. -/
def demoFinished : ArduinoASRChat := ArduinoASRChat.run demoLibraries demoFinishedOps demoBoot

/-- A recording whose elapsed time equals the maximum duration of 50 seconds. -/
def demoAtMaxDuration : ArduinoASRChat := { demoRecording with clock := 50000 }

/-- The state a finished session leaves: the recording with text "hi", stopped. -/
def demoAfterSession : ArduinoASRChat := ArduinoASRChat.stopRecording demoRecording

/-- A recording with two samples staged. -/
def demoStaged : ArduinoASRChat :=
  { demoRecording with
    _sendBuffer := fun i => if i = 0 then 5 else if i = 1 then -2 else 0, _sendBufferPos := 2 }

/-- A recording with six values waiting at the microphone. -/
def demoListening : ArduinoASRChat := { demoRecording with mic := [5, 0, -1, 7, 1, -3] }

/-- The controller constructed 100 ms before the 32-bit millisecond clock wraps. -/
def demoBootBeforeWrap : ArduinoASRChat :=
  ArduinoASRChat.new "key" "cluster" (fun i => i) 0 4294967196 countModulo32

/-- A connection and a start, a result "ok" handled by `loop` at the moment the clock reads 0,
and a `loop` five seconds later. -/
def demoWrapOps : List ArduinoASRChat.HostOp :=
  [.connectWebSocket demoAccept, .startRecording .timeout, .tick 50,
    .receive ([0x82, 11] ++ demoOkResponse), .loop, .tick 5000, .loop]

/-- The state these operations lead to. -/
def demoWrapped : ArduinoASRChat :=
  ArduinoASRChat.run demoLibraries demoWrapOps demoBootBeforeWrap

/-- An unmasked close frame with the two-byte status 1000. -/
def demoCloseFrame : List Nat := [0x88, 2, 3, 232]

/-- A start, then a result "ok" from the server handled by `loop`. -/
def demoHeardOps : List ArduinoASRChat.HostOp :=
  demoStartOps ++ [.receive ([0x82, 11] ++ demoOkResponse), .loop]

/-- The recording state these operations lead to. -/
def demoHeard : ArduinoASRChat := ArduinoASRChat.run demoLibraries demoHeardOps demoBoot

/-- A SERVER_FULL_RESPONSE with a header of 4 bytes and a payload of exactly 4 bytes. -/
def demoShortFullResponse : List Nat := [0x11, 0x90, 0x10, 0x00, 0, 0, 0, 0]

/-- A SERVER_ACK with a header of 4 bytes and a payload of 3 bytes. -/
def demoShortAck : List Nat := [0x11, 0xB0, 0x10, 0x00, 1, 2, 3]

/-- A SERVER_FULL_RESPONSE for the stand-in decoder: code 1000 and a text of two spaces. -/
def demoTwoSpaces : List Nat := [0x11, 0x90, 0x10, 0x00, 0, 0, 0, 3, 0, 32, 32]

/-- A SERVER_FULL_RESPONSE for the stand-in decoder: code 1000 and a text of one tab. -/
def demoTab : List Nat := [0x11, 0x90, 0x10, 0x00, 0, 0, 0, 2, 0, 9]

/-- A SERVER_FULL_RESPONSE for the stand-in decoder: code 1000 and a text of one space. -/
def demoOneSpace : List Nat := [0x11, 0x90, 0x10, 0x00, 0, 0, 0, 2, 0, 32]

/-! ## Vocabulary of the specification -/

/-- The `k` bytes of `n` as a big-endian integer, most significant byte first. -/
def bigEndian : Nat → Nat → List Nat
  | 0, _ => []
  | k + 1, n => bigEndian k (n / 256) ++ [n % 256]

/-- The length field of an outbound frame as the specification words it: `0x80 | len` below
126, `0x80 | 126` and two big-endian bytes below 65536, `0x80 | 127` and eight big-endian bytes
otherwise. -/
def specLengthField (len : Nat) : List Nat :=
  if len < 126 then [0x80 ||| len]
  else if len < 65536 then [0x80 ||| 126] ++ bigEndian 2 len
  else [0x80 ||| 127] ++ bigEndian 8 len

/-- The value of a list of bytes read as a big-endian integer. -/
def bigEndianValue (bytes : List Nat) : Nat := bytes.foldl (fun acc b => acc * 256 + b) 0

/-! ## Theorems -/

namespace ArduinoASRChat

/-! ### Bytes and bits -/

theorem and_255 (x : Nat) : x &&& 255 = x % 256 := Nat.and_pow_two_sub_one_eq_mod x 8

theorem shl8_or (a b : Nat) (h : b < 256) : (a <<< 8) ||| b = a * 256 + b := by
  rw [Nat.shiftLeft_eq, Nat.mul_comm a (2 ^ 8),
    ← Nat.mul_add_lt_is_or (i := 8) (b := b) (by simpa using h) a]

theorem shl8_mod_or (a b : Nat) (h : b < 256) :
    ((a <<< 8) % 2 ^ 64) ||| b = (a % 2 ^ 56) * 256 + b := by
  have h1 : (a <<< 8) % 2 ^ 64 = (a % 2 ^ 56) <<< 8 := by
    simp only [Nat.shiftLeft_eq]
    omega
  rw [h1, shl8_or _ _ h]

theorem shl8_mod_or_mod (a x : Nat) :
    ((a <<< 8) % 18446744073709551616) ||| (x % 256) = (a % 72057594037927936) * 256 + x % 256 :=
  shl8_mod_or a (x % 256) (Nat.mod_lt _ (by norm_num))

theorem or_128_lt : ∀ n < 128, (128 ||| n) % 256 = 128 ||| n := by decide

theorem opcode_bits : ∀ o < 16,
    ((128 ||| o) % 256) &&& 128 ≠ 0 ∧ ((128 ||| o) % 256) &&& 15 = o := by decide

theorem len7_bits : ∀ n < 126,
    ((128 ||| n) % 256) &&& 128 ≠ 0 ∧ ((128 ||| n) % 256) &&& 127 = n := by decide

/-! ### Outbound frames -/

theorem wsFrameHeader_eq (overShift : Nat → Nat → Nat) (len opcode : Nat) (hop : opcode < 16)
    (hlen : len < 65536) :
    wsFrameHeader overShift len opcode = [0x80 ||| opcode] ++ specLengthField len := by
  have h0 : (128 ||| opcode) % 256 = 128 ||| opcode := or_128_lt opcode (by omega)
  unfold wsFrameHeader specLengthField
  split
  · rw [h0, or_128_lt len (by omega)]; rfl
  · simp only [h0, and_255, Nat.shiftRight_eq_div_pow, bigEndian]
    simp

theorem maskFrom_length (key : List Nat) (data : List Nat) (i : Nat) :
    (maskFrom key i data).length = data.length := by
  induction data generalizing i with
  | nil => rfl
  | cons b bs ih => simp [maskFrom, ih]

theorem maskFrom_getD (key : List Nat) (data : List Nat) (i j : Nat) (hj : j < data.length) :
    (maskFrom key i data).getD j 0 = data.getD j 0 ^^^ key.getD ((i + j) % 4) 0 := by
  induction data generalizing i j with
  | nil => simp at hj
  | cons b bs ih =>
    cases j with
    | zero => simp [maskFrom]
    | succ j =>
      simp only [maskFrom, List.getD_cons_succ]
      rw [ih (i + 1) j (by simpa using hj)]
      congr 3
      omega

theorem maskFrom_involutive (key : List Nat) (data : List Nat) (i : Nat) :
    maskFrom key i (maskFrom key i data) = data := by
  induction data generalizing i with
  | nil => rfl
  | cons b bs ih => simp [maskFrom, ih, Nat.xor_cancel_right]

theorem maskData_eq_map (key data : List Nat) :
    maskData key data =
      (List.range data.length).map (fun i => data.getD i 0 ^^^ key.getD (i % 4) 0) := by
  apply List.ext_getElem
  · simp [maskData, maskFrom_length]
  · intro n h1 h2
    have hn : n < data.length := by simpa [maskData, maskFrom_length] using h1
    have := maskFrom_getD key data 0 n hn
    have h3 : n < (maskFrom key 0 data).length := by simpa [maskFrom_length] using hn
    rw [List.getD_eq_getElem _ _ h3] at this
    simp [maskData, this, List.getD_eq_getElem _ _ hn]

theorem randomBytes_fst (n : Nat) (s : ArduinoASRChat) :
    (randomBytes n s).1 = (List.range n).map (fun i => s.rng (s.randCalls + i) % 256) := by
  induction n generalizing s with
  | zero => rfl
  | succ n ih =>
    simp only [randomBytes, ih, random, List.range_succ_eq_map, List.map_cons, List.map_map]
    simp [Function.comp_def, Nat.add_assoc, Nat.add_comm 1]

theorem randomBytes_snd (n : Nat) (s : ArduinoASRChat) :
    (randomBytes n s).2 = { s with randCalls := s.randCalls + n } := by
  induction n generalizing s with
  | zero => rfl
  | succ n ih =>
    simp only [randomBytes, ih, random]
    simp [Nat.add_assoc, Nat.add_comm 1]

theorem randomBytes_length (n : Nat) (s : ArduinoASRChat) : (randomBytes n s).1.length = n := by
  simp [randomBytes_fst]

theorem sendWebSocketFrame_live (data : List Nat) (opcode : Nat) (s : ArduinoASRChat)
    (h1 : s._wsConnected = true) (h2 : s.clientConnected = true) :
    sendWebSocketFrame data opcode s =
      { s with
        randCalls := s.randCalls + 4,
        events := s.events ++
          [.sent (wsFrameHeader s.overShift data.length opcode ++ (randomBytes 4 s).1)
            (maskData (randomBytes 4 s).1 data)] } := by
  simp [sendWebSocketFrame, h1, h2, emit, randomBytes_snd]

theorem sendWebSocketFrame_dead (data : List Nat) (opcode : Nat) (s : ArduinoASRChat)
    (h : s._wsConnected = false ∨ s.clientConnected = false) :
    sendWebSocketFrame data opcode s = s := by
  rcases h with h | h <;> simp [sendWebSocketFrame, h]

theorem readInto_four (key rest : List Nat) (h : key.length = 4) :
    readInto [0, 0, 0, 0] ((key ++ rest).take 4) = key ∧ (key ++ rest).drop 4 = rest := by
  have h1 : (key ++ rest).take 4 = key := by
    rw [← h]; simp
  have h2 : (key ++ rest).drop 4 = rest := by
    rw [← h]; simp
  rw [h1, h2]
  simp [readInto, h]

theorem readFrameHeader_wsFrameHeader (overShift : Nat → Nat → Nat) (len opcode : Nat)
    (key rest : List Nat)
    (hop : opcode < 16) (hlen : len < 65536) (hkey : key.length = 4) :
    readFrameHeader (wsFrameHeader overShift len opcode ++ key ++ rest) =
      some (⟨true, opcode, true, len, key⟩, rest) := by
  obtain ⟨ho1, ho2⟩ := opcode_bits opcode hop
  obtain ⟨hk1, hk2⟩ := readInto_four key rest hkey
  unfold wsFrameHeader
  split
  · rename_i h
    obtain ⟨hl1, hl2⟩ := len7_bits len h
    have hl3 : ¬ len = 126 := by omega
    have hl4 : ¬ len = 127 := by omega
    simp [readFrameHeader, ho1, ho2, hl1, hl2, hl3, hl4, hk1, hk2]
  · have e : ((len >>> 8 &&& 255) <<< 8) ||| (len &&& 255) = len := by
      rw [and_255, and_255, shl8_or _ _ (Nat.mod_lt _ (by norm_num)),
        Nat.shiftRight_eq_div_pow]
      omega
    have b1 : (254 : Nat) &&& 127 = 126 := by decide
    have b2 : (254 : Nat) &&& 128 = 128 := by decide
    simp [readFrameHeader, ho1, ho2, hk1, hk2, e, b1, b2]

theorem sendWebSocketFrame_eq (data : List Nat) (opcode : Nat) (s : ArduinoASRChat) :
    sendWebSocketFrame data opcode s =
      { s with randCalls := s.randCalls + draws s,
               events := s.events ++ frameAt s s.randCalls data opcode } := by
  cases h1 : s._wsConnected <;> cases h2 : s.clientConnected <;>
    simp [sendWebSocketFrame, frameAt, draws, live, maskKeyAt, emit, randomBytes_snd,
      randomBytes_fst, h1, h2] <;>
    (cases s; simp_all)

theorem sendAudioChunk_eq (data : List Nat) (s : ArduinoASRChat) :
    sendAudioChunk data s =
      { s with randCalls := s.randCalls + draws s,
               events := s.events ++ frameAt s s.randCalls (audioMessage data) 0x02 } := by
  simp [sendAudioChunk, sendWebSocketFrame_eq, audioMessage]

theorem sendEndMarker_eq (s : ArduinoASRChat) :
    sendEndMarker s =
      { s with randCalls := s.randCalls + draws s,
               events := s.events ++ frameAt s s.randCalls endMarkerMessage 0x02 } := by
  simp [sendEndMarker, sendWebSocketFrame_eq, endMarkerMessage]

theorem sendPong_eq (s : ArduinoASRChat) :
    sendPong s =
      { s with randCalls := s.randCalls + draws s,
               events := s.events ++ frameAt s s.randCalls [] 0x0A } := by
  simp [sendPong, sendWebSocketFrame_eq]

theorem stopRecording_idle (s : ArduinoASRChat) (h : s._isRecording = false) :
    stopRecording s = s := by
  simp [stopRecording, h]

theorem stopRecording_eq (s : ArduinoASRChat) (h : s._isRecording = true) :
    stopRecording s =
      { s with
        _sendBufferPos := if s._sendBufferPos > 0 then 0 else s._sendBufferPos,
        _isRecording := false, _shouldStop := true, _recognizedText := s._lastResultText,
        _hasNewResult := true, _endMarkerSent := true,
        randCalls := s.randCalls + (if s._sendBufferPos > 0 then draws s else 0) + draws s,
        events := s.events ++ stopEvents s } := by
  unfold stopRecording stopEvents flushEvents
  simp only [h, sendAudioChunk_eq, sendEndMarker_eq, emit]
  by_cases hp : s._sendBufferPos > 0 <;>
    by_cases hc : s._resultCallback = true ∧ s._lastResultText.length > 0 <;>
    simp [hp, hc, frameAt, draws, live, maskKeyAt]

/-- The wire format below 65536 bytes: on a live connection `sendWebSocketFrame` writes byte
0 = `0x80 | opcode`, then the length field (`0x80 | len` below 126, `0x80 | 126` and two
big-endian bytes from there on), then the four bytes of the mask key, then the payload with byte
`i` replaced by `payload[i] XOR mask_key[i mod 4]`. -/
theorem sendWebSocketFrame_wire_format (data : List Nat) (opcode : Nat) (s : ArduinoASRChat)
    (hws : s._wsConnected = true) (hclient : s.clientConnected = true)
    (hop : opcode < 16) (hlen : data.length < 65536) :
    (randomBytes 4 s).1.length = 4 ∧
    (sendWebSocketFrame data opcode s).events = s.events ++
      [.sent ([0x80 ||| opcode] ++ specLengthField data.length ++ (randomBytes 4 s).1)
        ((List.range data.length).map
          (fun i => data.getD i 0 ^^^ (randomBytes 4 s).1.getD (i % 4) 0))] := by
  refine ⟨randomBytes_length 4 s, ?_⟩
  rw [sendWebSocketFrame_live data opcode s hws hclient, wsFrameHeader_eq _ _ _ hop hlen,
    maskData_eq_map]

/-- Instance of the wire format: a three-byte binary frame sent by a connected controller. -/
theorem sendWebSocketFrame_wire_format_witness :
    (demoIdle._wsConnected = true ∧ demoIdle.clientConnected = true) ∧
    (randomBytes 4 demoIdle).1.length = 4 ∧
    (sendWebSocketFrame [1, 2, 3] 2 demoIdle).events = demoIdle.events ++
      [.sent ([0x80 ||| 2] ++ specLengthField [1, 2, 3].length ++ (randomBytes 4 demoIdle).1)
        ((List.range [1, 2, 3].length).map
          (fun i => [1, 2, 3].getD i 0 ^^^ (randomBytes 4 demoIdle).1.getD (i % 4) 0))] :=
  ⟨⟨rfl, rfl⟩,
    sendWebSocketFrame_wire_format [1, 2, 3] 2 demoIdle rfl rfl (by decide) (by decide)⟩

/-- The header for a payload of 65536 bytes: the first four length bytes are the shifts of the
32-bit `len` by 56, 48, 40 and 32 bits. -/
theorem wsFrameHeader_65536 (overShift : Nat → Nat → Nat) :
    wsFrameHeader overShift 65536 2 =
      [0x82, 0xFF, overShift 65536 56 &&& 0xFF, overShift 65536 48 &&& 0xFF,
        overShift 65536 40 &&& 0xFF, overShift 65536 32 &&& 0xFF, 0, 1, 0, 0] := by
  simp [wsFrameHeader, shiftRightSize, List.range, List.range.loop]
  exact ⟨by decide, by decide⟩

/-- C5, at the failing input: for a payload of 65536 bytes the length bytes `sendWebSocketFrame`
writes after `0x82 0xFF` are the shifts of the 32-bit `len` by 56, 48, 40 and 32 bits, which
the language leaves undefined, followed by 0, 1, 0, 0; the claim wants 0, 0, 0, 0 followed by
0, 1, 0, 0.  On a target whose shifter takes the count modulo 32 a connected controller writes
0, 1, 0, 0, 0, 1, 0, 0. -/
theorem extended_length_over_wide_shifts (overShift : Nat → Nat → Nat) :
    wsFrameHeader overShift 65536 2 =
      [0x82, 0xFF, overShift 65536 56 &&& 0xFF, overShift 65536 48 &&& 0xFF,
        overShift 65536 40 &&& 0xFF, overShift 65536 32 &&& 0xFF, 0, 1, 0, 0] ∧
    [0x80 ||| 2] ++ specLengthField 65536 = [0x82, 0xFF, 0, 0, 0, 0, 0, 1, 0, 0] ∧
    (∃ data, (sendWebSocketFrame (List.replicate 65536 0) 2 demoIdle).events =
      demoIdle.events ++
        [.sent ([0x82, 0xFF, 0, 1, 0, 0, 0, 1, 0, 0] ++ (randomBytes 4 demoIdle).1) data]) := by
  refine ⟨wsFrameHeader_65536 overShift, by decide, ?_⟩
  refine ⟨maskData (randomBytes 4 demoIdle).1 (List.replicate 65536 0), ?_⟩
  rw [sendWebSocketFrame_live _ 2 demoIdle rfl rfl, List.length_replicate,
    wsFrameHeader_65536]
  rfl

/-- C6, as the claim states it, fails: a payload of 65535 bytes gets a header of 4 bytes before
the mask key, not of 10 bytes. -/
theorem header_length_65535_not_10 :
    ¬ ((wsFrameHeader countModulo32 125 2).length = 2 ∧
      (wsFrameHeader countModulo32 126 2).length = 4 ∧
      (wsFrameHeader countModulo32 65535 2).length = 10) := by
  simp [wsFrameHeader]

/-- C6, amended: the header written before the mask key is 2 bytes long for a payload of 125
bytes, 4 bytes long for payloads of 126 and of 65535 bytes, and 10 bytes long for a payload of
65536 bytes. -/
theorem header_length_boundaries (overShift : Nat → Nat → Nat) (opcode : Nat) :
    (wsFrameHeader overShift 125 opcode).length = 2 ∧
    (wsFrameHeader overShift 126 opcode).length = 4 ∧
    (wsFrameHeader overShift 65535 opcode).length = 4 ∧
    (wsFrameHeader overShift 65536 opcode).length = 10 := by
  simp [wsFrameHeader]

/-- The round trip below 65536 bytes: the bytes `sendWebSocketFrame` writes for such a payload,
read back by the inbound parser of `handleWebSocketData`, give FIN set, the same opcode, the
masked flag set, the original length, a complete payload read and, after unmasking, the original
payload; for a non-empty data frame the original payload is what `parseResponse` receives. -/
theorem frame_round_trip (lib : Libraries) (payload : List Nat) (opcode : Nat)
    (s : ArduinoASRChat) (rest : List Nat)
    (hws : s._wsConnected = true) (hclient : s.clientConnected = true)
    (hop : opcode < 16) (hlen : payload.length < 65536) :
    ∃ header data mask_key,
      (sendWebSocketFrame payload opcode s).events = s.events ++ [.sent header data] ∧
      readFrameHeader (header ++ data ++ rest) =
        some (⟨true, opcode, true, payload.length, mask_key⟩, data ++ rest) ∧
      ((data ++ rest).take payload.length).length = payload.length ∧
      maskData mask_key ((data ++ rest).take payload.length) = payload ∧
      (0 < payload.length → opcode = 1 ∨ opcode = 2 → ∀ t : ArduinoASRChat,
        handleWebSocketData lib { t with inbound := header ++ data ++ rest } =
          parseResponse lib payload { t with inbound := rest }) := by
  have hk := randomBytes_length 4 s
  have hd : (maskData (randomBytes 4 s).1 payload).length = payload.length := by
    simp [maskData, maskFrom_length]
  have ht : (maskData (randomBytes 4 s).1 payload ++ rest).take payload.length =
      maskData (randomBytes 4 s).1 payload := by
    rw [← hd]; simp
  have hdrop : (maskData (randomBytes 4 s).1 payload ++ rest).drop payload.length = rest := by
    rw [← hd]; simp
  have hr := readFrameHeader_wsFrameHeader s.overShift payload.length opcode (randomBytes 4 s).1
    (maskData (randomBytes 4 s).1 payload ++ rest) hop hlen hk
  have hlen' : payload.length < 100000 := by omega
  refine ⟨wsFrameHeader s.overShift payload.length opcode ++ (randomBytes 4 s).1,
    maskData (randomBytes 4 s).1 payload, (randomBytes 4 s).1, ?_, ?_, ?_, ?_, ?_⟩
  · rw [sendWebSocketFrame_live payload opcode s hws hclient]
  · simpa [List.append_assoc] using hr
  · rw [ht, hd]
  · rw [ht]; exact maskFrom_involutive _ _ _
  · intro hpos hop12 t
    have hr2 : readFrameHeader
        (wsFrameHeader s.overShift payload.length opcode ++ (randomBytes 4 s).1 ++
        maskData (randomBytes 4 s).1 payload ++ rest) = some (⟨true, opcode, true, payload.length,
          (randomBytes 4 s).1⟩, maskData (randomBytes 4 s).1 payload ++ rest) := by
      simpa [List.append_assoc] using hr
    simp only [handleWebSocketData, hr2]
    simp only [gt_iff_lt, hpos, hlen', and_self, if_true, ht, hd, hdrop, hop12]
    simp [maskData, maskFrom_involutive]

/-- Instance of the round trip: a three-byte binary frame sent by a connected controller. -/
theorem frame_round_trip_witness :
    ∃ header data mask_key,
      (sendWebSocketFrame [1, 2, 3] 2 demoIdle).events = demoIdle.events ++ [.sent header data] ∧
      readFrameHeader (header ++ data ++ []) =
        some (⟨true, 2, true, [1, 2, 3].length, mask_key⟩, data ++ []) ∧
      ((data ++ []).take [1, 2, 3].length).length = [1, 2, 3].length ∧
      maskData mask_key ((data ++ []).take [1, 2, 3].length) = [1, 2, 3] ∧
      (0 < [1, 2, 3].length → (2 : Nat) = 1 ∨ (2 : Nat) = 2 → ∀ t : ArduinoASRChat,
        handleWebSocketData demoLibraries { t with inbound := header ++ data ++ [] } =
          parseResponse demoLibraries [1, 2, 3] { t with inbound := [] }) :=
  frame_round_trip demoLibraries [1, 2, 3] 2 demoIdle [] rfl rfl (by decide) (by decide)

/-- The parser on a header of the third length form whose first four length bytes are `a`, `b`,
`c`, `d`: the length it reads is the big-endian value of all eight bytes. -/
theorem readFrameHeader_extended (a b c d : Nat) (data : List Nat) :
    readFrameHeader ([0x82, 0xFF, a &&& 0xFF, b &&& 0xFF, c &&& 0xFF, d &&& 0xFF, 0, 1, 0, 0] ++
        [0, 1, 2, 3] ++ data) =
      some (⟨true, 2, true,
        bigEndianValue [a &&& 0xFF, b &&& 0xFF, c &&& 0xFF, d &&& 0xFF, 0, 1, 0, 0],
        [0, 1, 2, 3]⟩, data) := by
  have b1 : (255 : Nat) &&& 127 = 127 := by decide
  have b2 : (255 : Nat) &&& 128 = 128 := by decide
  have b3 : (130 : Nat) &&& 128 = 128 := by decide
  have b4 : (130 : Nat) &&& 15 = 2 := by decide
  simp only [and_255]
  simp [readFrameHeader, readInto, List.range, List.range.loop, b1, b2, b3, b4, bigEndianValue]
  simp only [shl8_mod_or_mod]
  have e0 : ∀ x : Nat, (x <<< 8) % 18446744073709551616 = (x % 72057594037927936) * 256 := by
    intro x
    simp only [Nat.shiftLeft_eq]
    omega
  have e1 : ∀ x : Nat, ((x <<< 8) % 18446744073709551616) ||| 1 =
      (x % 72057594037927936) * 256 + 1 := fun x => shl8_mod_or x 1 (by norm_num)
  have e2 : ∀ y : Nat, (y * 256) ||| 1 = y * 256 + 1 := by
    intro y
    have h := shl8_or y 1 (by norm_num)
    simpa [Nat.shiftLeft_eq] using h
  simp only [e1, e0, e2]
  omega

/-- C4, at the failing input: for a payload of 65536 bytes (opcode 2, mask key 0, 1, 2, 3) the
length the inbound parser reads back is the big-endian value of the eight length bytes, the
first four of which are the undefined shifts of the 32-bit `len` by 56, 48, 40 and 32 bits; it
is the original 65536 only if these are 0.  On a target whose shifter takes the count modulo 32
the frame written by a connected controller is read back with length 281474976776192, and
`handleWebSocketData` drops it without reading the payload. -/
theorem long_frame_length_not_read_back :
    (∀ (overShift : Nat → Nat → Nat) (data : List Nat),
      (readFrameHeader (wsFrameHeader overShift 65536 2 ++ [0, 1, 2, 3] ++ data)).map
          (fun r => r.1.payload_len) =
        some (bigEndianValue [overShift 65536 56 &&& 0xFF, overShift 65536 48 &&& 0xFF,
          overShift 65536 40 &&& 0xFF, overShift 65536 32 &&& 0xFF, 0, 1, 0, 0])) ∧
    bigEndianValue [0, 0, 0, 0, 0, 1, 0, 0] = 65536 ∧
    (∃ header data,
      (sendWebSocketFrame (List.replicate 65536 0) 2 demoIdle).events =
        demoIdle.events ++ [.sent header data] ∧
      data.length = 65536 ∧
      (readFrameHeader (header ++ data)).map (fun r => r.1.payload_len) =
        some 281474976776192 ∧
      (∀ (lib : Libraries) (t : ArduinoASRChat),
        handleWebSocketData lib { t with inbound := header ++ data } =
          { t with inbound := data })) := by
  have hk : (randomBytes 4 demoIdle).1 = [0, 1, 2, 3] := by decide
  have hm : wsFrameHeader countModulo32 65536 2 = [0x82, 0xFF, 0, 1, 0, 0, 0, 1, 0, 0] := by
    rw [wsFrameHeader_65536]
    decide
  have hread : ∀ data : List Nat,
      readFrameHeader ([0x82, 0xFF, 0, 1, 0, 0, 0, 1, 0, 0] ++ [0, 1, 2, 3] ++ data) =
        some (⟨true, 2, true, 281474976776192, [0, 1, 2, 3]⟩, data) :=
    fun data => readFrameHeader_extended 0 1 0 0 data
  refine ⟨?_, by decide, ?_⟩
  · intro overShift data
    rw [wsFrameHeader_65536, readFrameHeader_extended]
    rfl
  · refine ⟨[0x82, 0xFF, 0, 1, 0, 0, 0, 1, 0, 0] ++ (randomBytes 4 demoIdle).1,
      maskData (randomBytes 4 demoIdle).1 (List.replicate 65536 0), ?_, ?_, ?_, ?_⟩
    · rw [sendWebSocketFrame_live _ 2 demoIdle rfl rfl, List.length_replicate, ← hm]
      rfl
    · rw [maskData, maskFrom_length, List.length_replicate]
    · rw [hk, hread]
      rfl
    · intro lib t
      rw [hk]
      generalize maskData [0, 1, 2, 3] (List.replicate 65536 0) = data
      have hr := hread data
      simp only [handleWebSocketData, hr]
      simp

/-! ### Stopping a recording -/

theorem string_length_pos_iff (t : String) : t.length > 0 ↔ t ≠ "" := by
  rcases t with ⟨l⟩
  cases l with
  | nil => simp [String.length]
  | cons a l => simp [String.length, String.ext_iff]

theorem resultCalls_append (a b : List Event) :
    resultCalls (a ++ b) = resultCalls a ++ resultCalls b := by
  simp [resultCalls]

theorem resultCalls_frameAt (s : ArduinoASRChat) (n : Nat) (data : List Nat) (opcode : Nat) :
    resultCalls (frameAt s n data opcode) = [] := by
  unfold frameAt
  split <;> simp [resultCalls, Event.resultText]

theorem resultCalls_stopEvents (s : ArduinoASRChat) :
    resultCalls (stopEvents s) =
      if s._resultCallback = true ∧ s._lastResultText ≠ "" then [s._lastResultText]
      else [] := by
  have e1 : resultCalls (flushEvents s) = [] := by
    unfold flushEvents
    split
    · exact resultCalls_frameAt _ _ _ _
    · rfl
  unfold stopEvents
  simp only [resultCalls_append, resultCalls_frameAt, string_length_pos_iff, e1, List.nil_append]
  split <;> rfl

/-- C2: in a recording state `stopRecording` publishes the `_lastResultText` held before the call
as the recognized text, sets `hasNewResult`, and invokes the ResultCallback, if one is registered,
exactly once with that text when the text is non-empty and not at all when it is empty. -/
theorem stopRecording_publishes (s : ArduinoASRChat) (h : s._isRecording = true) :
    (stopRecording s).getRecognizedText = s._lastResultText ∧
    (stopRecording s).hasNewResult = true ∧
    ∃ new, (stopRecording s).events = s.events ++ new ∧
      resultCalls new =
        if s._resultCallback = true ∧ s._lastResultText ≠ "" then [s._lastResultText]
      else [] := by
  rw [stopRecording_eq s h]
  exact ⟨rfl, rfl, stopEvents s, rfl, resultCalls_stopEvents s⟩

/-- Instance of the publication: a recording with last result "hi" is stopped. -/
theorem stopRecording_publishes_witness :
    demoRecording._isRecording = true ∧
    (stopRecording demoRecording).getRecognizedText = "hi" ∧
    (stopRecording demoRecording).hasNewResult = true ∧
    ∃ new, (stopRecording demoRecording).events = demoRecording.events ++ new ∧
      resultCalls new =
        if demoRecording._resultCallback = true ∧ demoRecording._lastResultText ≠ ""
        then [demoRecording._lastResultText] else [] :=
  ⟨rfl, stopRecording_publishes demoRecording rfl⟩

/-! ### Inbound frames -/

/-- C9: a frame whose declared payload length is at least 100000 only consumes its header: nothing
is added to the record (no frame, no callback) and no member of the controller changes. -/
theorem oversized_frame_dropped (lib : Libraries) (s : ArduinoASRChat) (h : FrameHeader)
    (rest : List Nat) (hparse : readFrameHeader s.inbound = some (h, rest))
    (hbig : 100000 ≤ h.payload_len) :
    handleWebSocketData lib s = { s with inbound := rest } := by
  have : ¬ (h.payload_len > 0 ∧ h.payload_len < 100000) := by omega
  simp [handleWebSocketData, hparse, this]

/-- Instance of the drop: an unmasked close frame declaring 100000 bytes of payload. -/
theorem oversized_frame_dropped_witness :
    readFrameHeader ({ demoRecording with
        inbound := [0x88, 127, 0, 0, 0, 0, 0, 1, 134, 160, 3, 232] }).inbound =
      some (⟨true, 8, false, 100000, [0, 0, 0, 0]⟩, [3, 232]) ∧
    handleWebSocketData demoLibraries
        { demoRecording with inbound := [0x88, 127, 0, 0, 0, 0, 0, 1, 134, 160, 3, 232] } =
      { demoRecording with inbound := [3, 232] } :=
  ⟨by decide, oversized_frame_dropped demoLibraries
    { demoRecording with inbound := [0x88, 127, 0, 0, 0, 0, 0, 1, 134, 160, 3, 232] }
    ⟨true, 8, false, 100000, [0, 0, 0, 0]⟩ [3, 232] (by decide) (by decide)⟩

/-- A ping with a payload of 1 to 99999 bytes that can be read completely is answered by
`sendPong`. -/
theorem ping_answered (lib : Libraries) (s : ArduinoASRChat) (h : FrameHeader) (rest : List Nat)
    (hparse : readFrameHeader s.inbound = some (h, rest)) (hop : h.opcode = 9)
    (hpos : 0 < h.payload_len) (hmax : h.payload_len < 100000)
    (hfull : h.payload_len ≤ rest.length) :
    handleWebSocketData lib s = sendPong { s with inbound := rest.drop h.payload_len } := by
  simp [handleWebSocketData, hparse, hop, hpos, hmax, hfull]

/-- A close frame with a payload of 1 to 99999 bytes that can be read completely clears
`_wsConnected` and stops the client. -/
theorem close_disconnects (lib : Libraries) (s : ArduinoASRChat) (h : FrameHeader)
    (rest : List Nat) (hparse : readFrameHeader s.inbound = some (h, rest)) (hop : h.opcode = 8)
    (hpos : 0 < h.payload_len) (hmax : h.payload_len < 100000)
    (hfull : h.payload_len ≤ rest.length) :
    (handleWebSocketData lib s)._wsConnected = false ∧
    (handleWebSocketData lib s).isWebSocketConnected = false := by
  simp [handleWebSocketData, hparse, hop, hpos, hmax, hfull, clientStop, emit,
    isWebSocketConnected]

/-- C7, at the failing input: a ping frame with an empty payload (bytes 0x89 0x00) is consumed
without any reply; the record of events and every member stay as they were. -/
theorem empty_ping_unanswered (lib : Libraries) (s : ArduinoASRChat) :
    handleWebSocketData lib { s with inbound := [0x89, 0x00] } = { s with inbound := [] } := by
  have h : readFrameHeader [0x89, 0x00] = some (⟨true, 9, false, 0, [0, 0, 0, 0]⟩, []) := by
    decide
  simp [handleWebSocketData, h]

/-- C8, at the failing input: a close frame with an empty payload (bytes 0x88 0x00) is consumed
without effect; `_wsConnected` keeps its value. -/
theorem empty_close_ignored (lib : Libraries) (s : ArduinoASRChat) :
    handleWebSocketData lib { s with inbound := [0x88, 0x00] } = { s with inbound := [] } ∧
    (handleWebSocketData lib { s with inbound := [0x88, 0x00] })._wsConnected = s._wsConnected := by
  have h : readFrameHeader [0x88, 0x00] = some (⟨true, 8, false, 0, [0, 0, 0, 0]⟩, []) := by
    decide
  simp [handleWebSocketData, h]

/-! ### Decoded responses -/

theorem reportCode_eq (lib : Libraries) (doc : JsonVariant) (s : ArduinoASRChat) :
    reportCode lib doc s = { s with events := s.events ++ codeLog lib doc } := by
  unfold reportCode codeLog
  by_cases h1 : doc.containsKey "code" = true
  · by_cases h2 : lib.asInt (doc.getMember "code") ≠ 1000 ∧
        lib.asInt (doc.getMember "code") ≠ 1013
    · simp [h1, h2, emit]
    · simp [h1, h2]
  · simp [h1]

theorem parseResponse_decoded (lib : Libraries) (data payload : List Nat) (doc : JsonVariant)
    (s : ArduinoASRChat) (hp : responsePayload data = some payload)
    (hd : lib.deserializeJson payload = some doc) :
    parseResponse lib data s = handleDocument lib doc s := by
  simp [parseResponse, hp, hd]

theorem updateResult_rejected (t : String) (s : ArduinoASRChat) (h : t = "" ∨ t = " ") :
    updateResult t s = s := by
  rcases h with h | h <;> subst h <;> simp [updateResult]

theorem updateResult_new (t : String) (s : ArduinoASRChat) (h1 : t ≠ "") (h2 : t ≠ " ")
    (h3 : t ≠ s._lastResultText) :
    updateResult t s =
      { s with _hasSpeech := true, _lastSpeechTime := s.clock, _sameResultCount := 1,
               _lastResultText := t } := by
  have h0 : t.length > 0 := (string_length_pos_iff t).2 h1
  cases hs : s._hasSpeech <;> simp [updateResult, h0, h2, h3, hs, millis]

theorem updateResult_same (s : ArduinoASRChat) (h1 : s._lastResultText ≠ "")
    (h2 : s._lastResultText ≠ " ")
    (h3 : ¬ (s._sameResultCount + 1 ≥ 10 ∧ s._isRecording = true ∧ s._shouldStop = false)) :
    updateResult s._lastResultText s =
      { s with _hasSpeech := true, _lastSpeechTime := s.clock,
               _sameResultCount := s._sameResultCount + 1 } := by
  have h0 : s._lastResultText.length > 0 := (string_length_pos_iff _).2 h1
  cases hs : s._hasSpeech <;> simp [updateResult, h0, h2, hs, millis] <;> intro a b <;> simp_all

theorem updateResult_stable (s : ArduinoASRChat) (h1 : s._lastResultText ≠ "")
    (h2 : s._lastResultText ≠ " ")
    (h3 : s._sameResultCount + 1 ≥ 10) (h4 : s._isRecording = true) (h5 : s._shouldStop = false) :
    updateResult s._lastResultText s =
      stopRecording { s with
        _hasSpeech := true, _lastSpeechTime := s.clock,
        _sameResultCount := s._sameResultCount + 1 } := by
  have h0 : s._lastResultText.length > 0 := (string_length_pos_iff _).2 h1
  cases hs : s._hasSpeech <;> simp [updateResult, h0, h2, hs, millis, h3, h4, h5]

/-- C10, as the claim states it, fails: a response with code 1001 that also carries
`result[0].text = "hello"` replaces `_lastResultText` ("hi" before) and `_lastSpeechTime`. -/
theorem error_code_with_text_changes_state :
    (∃ payload doc, responsePayload demoErrorWithText = some payload ∧
      demoLibraries.deserializeJson payload = some doc ∧ doc.containsKey "code" = true ∧
      demoLibraries.asInt (doc.getMember "code") = 1001 ∧
      currentText demoLibraries doc = "hello") ∧
    demoRecording._lastResultText = "hi" ∧
    (parseResponse demoLibraries demoErrorWithText demoRecording)._lastResultText = "hello" ∧
    demoRecording._lastSpeechTime = 500 ∧
    (parseResponse demoLibraries demoErrorWithText demoRecording)._lastSpeechTime = 600 := by
  refine ⟨⟨[1, 104, 101, 108, 108, 111], _, by decide, rfl, by decide, by decide, by decide⟩,
    rfl, ?_, rfl, ?_⟩
  · decide
  · decide

/-- C10, amended: a decoded response whose JSON contains a `code` that is neither 1000 nor 1013
and that has no `result` key, or whose `result[0].text` is empty or " ", only adds the error
report to the record: no member of the controller changes and no callback is invoked. -/
theorem error_code_without_text (lib : Libraries) (data payload : List Nat) (doc : JsonVariant)
    (s : ArduinoASRChat) (hp : responsePayload data = some payload)
    (hd : lib.deserializeJson payload = some doc)
    (hcode : doc.containsKey "code" = true)
    (h1000 : lib.asInt (doc.getMember "code") ≠ 1000)
    (h1013 : lib.asInt (doc.getMember "code") ≠ 1013)
    (hres : doc.containsKey "result" = false ∨ currentText lib doc = "" ∨
      currentText lib doc = " ") :
    parseResponse lib data s =
      { s with events := s.events ++ [.serialError (lib.serializeJson doc)] } := by
  rw [parseResponse_decoded lib data payload doc s hp hd]
  have hl : codeLog lib doc = [.serialError (lib.serializeJson doc)] := by
    simp [codeLog, hcode, h1000, h1013]
  simp only [handleDocument, reportCode_eq, hl]
  rcases hres with h | h
  · simp [h]
  · rw [updateResult_rejected _ _ h]
    simp

/-- Instance of the amended claim: a response with code 1001 and no result. -/
theorem error_code_without_text_witness :
    parseResponse demoLibraries demoErrorOnly demoRecording =
      { demoRecording with
        events := demoRecording.events ++
          [.serialError (demoLibraries.serializeJson (.obj [("code", .int (1000 + 1))]))] } :=
  error_code_without_text demoLibraries demoErrorOnly [1] (.obj [("code", .int (1000 + 1))])
    demoRecording (by decide) rfl (by decide) (by decide) (by decide) (Or.inl (by decide))

/-! ### Starting a recording -/

theorem sendFullRequest_eq (lib : Libraries) (s : ArduinoASRChat) :
    sendFullRequest lib s =
      { s with randCalls := s.randCalls + 1 + draws s,
               events := s.events ++ frameAt s (s.randCalls + 1) (configMessage lib s) 0x02 } := by
  simp [sendFullRequest, sendWebSocketFrame_eq, random, configMessage, millis, configDocument,
    draws, live, frameAt, maskKeyAt]

theorem beginSession_eq (lib : Libraries) (s : ArduinoASRChat) (h1 : s._wsConnected = true)
    (h2 : s._isRecording = false) :
    beginSession lib s = (true,
      { s with
        _isRecording := true, _shouldStop := false, _hasSpeech := false, _hasNewResult := false,
        _lastResultText := "", _recognizedText := "", _lastSpeechTime := 0,
        _recordingStartTime := s.clock, _sendBufferPos := 0, _sameResultCount := 0,
        _lastDotTime := s.clock, clock := (s.clock + 50) % 2 ^ 32,
        randCalls := s.randCalls + 1 + draws s,
        events := s.events ++ frameAt s (s.randCalls + 1) (configMessage lib s) 0x02 }) := by
  simp [beginSession, h1, h2, sendFullRequest_eq, delay, millis, draws, live, frameAt, maskKeyAt,
    configMessage, configDocument]

theorem beginSession_true (lib : Libraries) (s : ArduinoASRChat)
    (h : (beginSession lib s).1 = true) : s._wsConnected = true ∧ s._isRecording = false := by
  unfold beginSession at h
  cases h1 : s._wsConnected <;> cases h2 : s._isRecording <;> simp_all

/-- A `startRecording` that returns true ends in `beginSession` from a connected state that is
not recording; without a pending end marker that state is `s` itself. -/
theorem startRecording_true (lib : Libraries) (net : ConnectOutcome) (s : ArduinoASRChat)
    (h : (startRecording lib net s).1 = true) :
    ∃ x : ArduinoASRChat, startRecording lib net s = beginSession lib x ∧
      x._wsConnected = true ∧ x._isRecording = false ∧ x._resultCallback = s._resultCallback ∧
      (s._endMarkerSent = false → x = s) := by
  unfold startRecording at h ⊢
  by_cases he : s._endMarkerSent = true
  · simp only [he, if_true] at h ⊢
    by_cases hc : (connectWebSocket lib net (delay 100 (disconnectWebSocket s))).1 = true
    · simp only [hc, Bool.not_true, Bool.false_eq_true, if_false] at h ⊢
      obtain ⟨a, b⟩ := beginSession_true lib _ h
      refine ⟨_, rfl, a, b, ?_, by simp [he]⟩
      have : (connectWebSocket lib net (delay 100 (disconnectWebSocket s))).2._resultCallback =
          s._resultCallback := by
        unfold connectWebSocket
        cases net <;>
          simp [delay, disconnectWebSocket, clientStop, emit, generateWebSocketKey,
            randomBytes_snd, sendUpgradeRequest] <;>
          split <;> simp <;> split <;> simp
      simpa using this
    · simp [hc] at h
  · simp only [he, if_false] at h ⊢
    obtain ⟨a, b⟩ := beginSession_true lib _ h
    exact ⟨s, rfl, a, b, rfl, fun _ => rfl⟩

theorem startRecording_fresh (lib : Libraries) (net : ConnectOutcome) (s : ArduinoASRChat)
    (h : (startRecording lib net s).1 = true) :
    ∃ now, Fresh now (startRecording lib net s).2 ∧
      (startRecording lib net s).2._resultCallback = s._resultCallback := by
  obtain ⟨x, hx, h1, h2, h3, -⟩ := startRecording_true lib net s h
  rw [hx, beginSession_eq lib x h1 h2]
  exact ⟨x.clock, ⟨rfl, rfl, rfl, rfl, rfl, rfl, rfl, rfl, rfl, rfl⟩, h3⟩

/-! ### The stable-result exit -/

theorem actions_append (a b : List Event) : actions (a ++ b) = actions a ++ actions b := by
  simp [actions]

theorem actions_codeLog (lib : Libraries) (doc : JsonVariant) : actions (codeLog lib doc) = [] := by
  unfold codeLog
  split <;> simp [actions, Event.isLog]

theorem resultCalls_actions (evs : List Event) : resultCalls (actions evs) = resultCalls evs := by
  induction evs with
  | nil => rfl
  | cons e es ih =>
    cases e <;> simp_all [resultCalls, actions, Event.isLog, Event.resultText]

theorem updateResult_repeat (T : String) (x : ArduinoASRChat) (h1 : T ≠ "") (h2 : T ≠ " ")
    (h : T = x._lastResultText)
    (h3 : ¬ (x._sameResultCount + 1 ≥ 10 ∧ x._isRecording = true ∧ x._shouldStop = false)) :
    updateResult T x =
      { x with _hasSpeech := true, _lastSpeechTime := x.clock,
               _sameResultCount := x._sameResultCount + 1 } := by
  subst h
  exact updateResult_same x h1 h2 h3

theorem updateResult_tenth (T : String) (x : ArduinoASRChat) (h1 : T ≠ "") (h2 : T ≠ " ")
    (h : T = x._lastResultText) (h3 : x._sameResultCount + 1 ≥ 10)
    (h4 : x._isRecording = true) (h5 : x._shouldStop = false) :
    updateResult T x =
      stopRecording { x with
        _hasSpeech := true, _lastSpeechTime := x.clock,
        _sameResultCount := x._sameResultCount + 1 } := by
  subst h
  exact updateResult_stable x h1 h2 h3 h4 h5

/-- What `parseResponse` does with a full response carrying the text `T`. -/
theorem parseResponse_text (lib : Libraries) (T : String) (data : List Nat) (s : ArduinoASRChat)
    (h : IsFullResponseWithText lib T data) :
    ∃ doc, parseResponse lib data s = updateResult T (reportCode lib doc s) := by
  obtain ⟨-, payload, doc, hp, hd, hr, ht⟩ := h
  refine ⟨doc, ?_⟩
  rw [parseResponse_decoded lib data payload doc s hp hd]
  simp only [handleDocument, hr, ht, if_true]

theorem counting_step (lib : Libraries) (T : String) (A : List Event) (c : Bool) (k t : Nat)
    (data : List Nat) (s : ArduinoASRChat) (hT : T ≠ "") (hT' : T ≠ " ")
    (hm : IsFullResponseWithText lib T data) (hs : Counting T A c k s) (hk : k < 9) :
    Counting T A c (k + 1) (parseResponse lib data { s with clock := t % 2 ^ 32 }) := by
  obtain ⟨doc, hd⟩ := parseResponse_text lib T data { s with clock := t % 2 ^ 32 } hm
  obtain ⟨h1, h2, h3, h4, h5, h6⟩ := hs
  rw [hd]
  by_cases hk0 : k = 0
  · subst hk0
    simp only [if_true] at h4
    rw [updateResult_new T _ hT hT' (by simpa [reportCode_eq, h4] using hT)]
    refine ⟨?_, ?_, ?_, ?_, ?_, ?_⟩ <;>
      simp [reportCode_eq, actions_append, actions_codeLog, h1, h2, h5, h6]
  · simp only [hk0, if_false] at h4
    rw [updateResult_repeat T _ hT hT' (by simp [reportCode_eq, h4])
      (by simp [reportCode_eq, h3]; omega)]
    refine ⟨?_, ?_, ?_, ?_, ?_, ?_⟩ <;>
      simp [reportCode_eq, actions_append, actions_codeLog, h1, h2, h3, h4, h5, h6, hk0]

theorem counting_stop (lib : Libraries) (T : String) (A : List Event) (c : Bool) (t : Nat)
    (data : List Nat) (s : ArduinoASRChat) (hT : T ≠ "") (hT' : T ≠ " ")
    (hm : IsFullResponseWithText lib T data) (hs : Counting T A c 9 s) :
    ∃ s1 : ArduinoASRChat, s1._isRecording = true ∧ s1._sameResultCount = 10 ∧
      s1._lastResultText = T ∧ actions s1.events = A ∧ s1._resultCallback = c ∧
      parseResponse lib data { s with clock := t % 2 ^ 32 } = stopRecording s1 := by
  obtain ⟨doc, hd⟩ := parseResponse_text lib T data { s with clock := t % 2 ^ 32 } hm
  obtain ⟨h1, h2, h3, h4, h5, h6⟩ := hs
  simp only [Nat.reduceEqDiff, if_false] at h4
  have hu := updateResult_tenth T (reportCode lib doc { s with clock := t % 2 ^ 32 }) hT hT'
    (by simp [reportCode_eq, h4]) (by simp [reportCode_eq, h3]) (by simp [reportCode_eq, h1])
    (by simp [reportCode_eq, h2])
  refine ⟨_, ?_, ?_, ?_, ?_, ?_, hd.trans hu⟩ <;>
    simp [reportCode_eq, actions_append, actions_codeLog, h1, h3, h4, h5, h6]

theorem published_step (lib : Libraries) (T : String) (A : List Event) (t : Nat)
    (data : List Nat) (s : ArduinoASRChat) (hT : T ≠ "") (hT' : T ≠ " ")
    (hm : IsFullResponseWithText lib T data) (hs : Published T A s) :
    Published T A (parseResponse lib data { s with clock := t % 2 ^ 32 }) := by
  obtain ⟨doc, hd⟩ := parseResponse_text lib T data { s with clock := t % 2 ^ 32 } hm
  obtain ⟨h1, h2, h3, h4⟩ := hs
  rw [hd, updateResult_repeat T _ hT hT' (by simp [reportCode_eq, h2])
    (by simp [reportCode_eq, h1])]
  refine ⟨?_, ?_, ?_, ?_⟩ <;>
    simp [reportCode_eq, actions_append, actions_codeLog, h1, h2, h3, h4]

theorem published_feed (lib : Libraries) (T : String) (A : List Event)
    (msgs : List (Nat × List Nat)) (s : ArduinoASRChat) (hT : T ≠ "") (hT' : T ≠ " ")
    (hm : ∀ m ∈ msgs, IsFullResponseWithText lib T m.2) (hs : Published T A s) :
    Published T A (feedResponses lib msgs s) := by
  induction msgs generalizing s with
  | nil => exact hs
  | cons m ms ih =>
    simp only [feedResponses]
    exact ih _ (fun x hx => hm x (List.mem_cons_of_mem _ hx))
      (published_step lib T A m.1 m.2 s hT hT' (hm m (List.mem_cons_self _ _)) hs)

theorem counting_feed (lib : Libraries) (T : String) (A : List Event) (c : Bool)
    (msgs : List (Nat × List Nat)) (hT : T ≠ "") (hT' : T ≠ " ")
    (hm : ∀ m ∈ msgs, IsFullResponseWithText lib T m.2) :
    ∀ (j k : Nat) (s : ArduinoASRChat), Counting T A c k s → k + j ≤ 9 →
      j ≤ msgs.length → Counting T A c (k + j) (feedResponses lib (msgs.take j) s) := by
  induction msgs with
  | nil =>
    intro j k s hs _ hj
    have : j = 0 := by simpa using hj
    subst this
    simpa [feedResponses] using hs
  | cons m ms ih =>
    intro j k s hs hk hj
    cases j with
    | zero => simpa [feedResponses] using hs
    | succ j =>
      simp only [List.take_succ_cons, feedResponses]
      have h1 := counting_step lib T A c k m.1 m.2 s hT hT' (hm m (List.mem_cons_self _ _)) hs
        (by omega)
      have h2 := ih (fun x hx => hm x (List.mem_cons_of_mem _ hx)) j (k + 1) _ h1 (by omega)
        (by simpa using hj)
      have e : k + 1 + j = k + (j + 1) := by omega
      rw [e] at h2
      exact h2

theorem feedResponses_append (lib : Libraries) (a b : List (Nat × List Nat))
    (s : ArduinoASRChat) :
    feedResponses lib (a ++ b) s = feedResponses lib b (feedResponses lib a s) := by
  induction a generalizing s with
  | nil => rfl
  | cons m ms ih => simp [feedResponses, ih]

theorem published_stop (T : String) (s1 : ArduinoASRChat) (h1 : s1._isRecording = true)
    (h2 : s1._lastResultText = T) :
    Published T (actions (stopRecording s1).events) (stopRecording s1) := by
  rw [stopRecording_eq s1 h1]
  exact ⟨rfl, h2, h2, rfl⟩

theorem resultCalls_stop (T : String) (s1 : ArduinoASRChat) (h1 : s1._isRecording = true)
    (h2 : s1._lastResultText = T) (hT : T ≠ "") :
    resultCalls (stopRecording s1).events =
      resultCalls s1.events ++ (if s1._resultCallback = true then [T] else []) := by
  rw [stopRecording_eq s1 h1]
  simp only [resultCalls_append, resultCalls_stopEvents, h2]
  simp [hT]

/-- C1: after a `startRecording` that returned true, let full responses that all carry the same
text `T` (non-empty, not " ") be handed to `parseResponse`, at arbitrary clock values.  After each
of the first 9 the session is still recording and nothing but serial reports has been added to the
record; the state after the 10th is the result of `stopRecording` on a recording state whose count
is 10; after the 10th and every later message the session is not recording, the recognized text is
`T`, no action has been added since the 10th, and the ResultCallback, if registered, has been
invoked exactly once since the start, with `T`. -/
theorem stable_result_exit (lib : Libraries) (net : ConnectOutcome) (s : ArduinoASRChat)
    (T : String) (msgs : List (Nat × List Nat))
    (hstart : (startRecording lib net s).1 = true) (hT : T ≠ "") (hT' : T ≠ " ")
    (hm : ∀ m ∈ msgs, IsFullResponseWithText lib T m.2) :
    (∀ k, k ≤ 9 → k ≤ msgs.length →
      (afterResponses lib net s msgs k)._isRecording = true ∧
      actions (afterResponses lib net s msgs k).events =
        actions (afterResponses lib net s msgs 0).events) ∧
    (10 ≤ msgs.length → ∃ s1 : ArduinoASRChat,
      s1._isRecording = true ∧ s1._sameResultCount = 10 ∧ s1._lastResultText = T ∧
      actions s1.events = actions (afterResponses lib net s msgs 0).events ∧
      afterResponses lib net s msgs 10 = stopRecording s1) ∧
    (∀ k, 10 ≤ k → k ≤ msgs.length →
      (afterResponses lib net s msgs k)._isRecording = false ∧
      (afterResponses lib net s msgs k).getRecognizedText = T ∧
      actions (afterResponses lib net s msgs k).events =
        actions (afterResponses lib net s msgs 10).events ∧
      resultCalls (afterResponses lib net s msgs k).events =
        resultCalls (afterResponses lib net s msgs 0).events ++
          (if s._resultCallback = true then [T] else [])) := by
  simp only [afterResponses, List.take_zero, feedResponses]
  obtain ⟨now, hf, hcb⟩ := startRecording_fresh lib net s hstart
  generalize (startRecording lib net s).2 = s0 at hf hcb ⊢
  obtain ⟨f1, f2, -, -, f5, -, -, -, -, f10⟩ := hf
  have h0 : Counting T (actions s0.events) s._resultCallback 0 s0 :=
    ⟨f1, f2, by simp [f10], by simp [f5], rfl, hcb⟩
  have hcount := counting_feed lib T (actions s0.events) s._resultCallback msgs hT hT' hm
  have hten : 10 ≤ msgs.length → ∃ s1 : ArduinoASRChat,
      s1._isRecording = true ∧ s1._sameResultCount = 10 ∧ s1._lastResultText = T ∧
      actions s1.events = actions s0.events ∧ s1._resultCallback = s._resultCallback ∧
      feedResponses lib (msgs.take 10) s0 = stopRecording s1 := by
    intro hlen
    have h9 := hcount 9 0 s0 h0 (by omega) (by omega)
    have hget : msgs[9]? = some (msgs[9]) := List.getElem?_eq_getElem (by omega)
    have hmem : msgs[9] ∈ msgs := List.getElem_mem _
    obtain ⟨s1, a, b, c, d, e, g⟩ := counting_stop lib T (actions s0.events) s._resultCallback
      (msgs[9]).1 (msgs[9]).2 _ hT hT' (hm _ hmem) (by simpa using h9)
    refine ⟨s1, a, b, c, d, e, ?_⟩
    rw [List.take_succ, hget, feedResponses_append]
    simpa [feedResponses] using g
  refine ⟨?_, ?_, ?_⟩
  · intro k hk hlen
    have h := hcount k 0 s0 h0 (by omega) hlen
    simp only [Nat.zero_add] at h
    exact ⟨h.1, h.2.2.2.2.1⟩
  · intro hlen
    obtain ⟨s1, a, b, c, d, -, g⟩ := hten hlen
    exact ⟨s1, a, b, c, d, g⟩
  · intro k hk hlen
    obtain ⟨s1, a, -, c, d, e, g⟩ := hten (by omega)
    have hsplit : msgs.take k = msgs.take 10 ++ (msgs.take k).drop 10 := by
      have := (List.take_append_drop 10 (msgs.take k)).symm
      rwa [List.take_take, Nat.min_eq_left hk] at this
    have hrest : ∀ m ∈ (msgs.take k).drop 10, IsFullResponseWithText lib T m.2 :=
      fun m hmem => hm m (List.mem_of_mem_take (List.mem_of_mem_drop hmem))
    have hp := published_feed lib T _ ((msgs.take k).drop 10) _ hT hT' hrest
      (published_stop T s1 a c)
    rw [hsplit, feedResponses_append, g]
    obtain ⟨p1, -, p3, p4⟩ := hp
    refine ⟨p1, p3, p4, ?_⟩
    rw [← resultCalls_actions, p4, resultCalls_actions, resultCalls_stop T s1 a c hT, e,
      ← resultCalls_actions s1.events, d, resultCalls_actions]

theorem demoTwelve_text : ∀ m ∈ demoTwelve, IsFullResponseWithText demoLibraries "ok" m.2 := by
  intro m hmem
  obtain ⟨-, rfl⟩ := List.mem_replicate.1 hmem
  exact ⟨by decide, [0, 111, 107], _, by decide, rfl, by decide, by decide⟩

/-- Instance of the stable-result exit: twelve responses with text "ok" after a start from the
connected idle state. -/
theorem stable_result_exit_witness :
    (∀ k, k ≤ 9 → k ≤ demoTwelve.length →
      (afterResponses demoLibraries .timeout demoIdle demoTwelve k)._isRecording = true ∧
      actions (afterResponses demoLibraries .timeout demoIdle demoTwelve k).events =
        actions (afterResponses demoLibraries .timeout demoIdle demoTwelve 0).events) ∧
    (10 ≤ demoTwelve.length → ∃ s1 : ArduinoASRChat,
      s1._isRecording = true ∧ s1._sameResultCount = 10 ∧ s1._lastResultText = "ok" ∧
      actions s1.events =
        actions (afterResponses demoLibraries .timeout demoIdle demoTwelve 0).events ∧
      afterResponses demoLibraries .timeout demoIdle demoTwelve 10 = stopRecording s1) ∧
    (∀ k, 10 ≤ k → k ≤ demoTwelve.length →
      (afterResponses demoLibraries .timeout demoIdle demoTwelve k)._isRecording = false ∧
      (afterResponses demoLibraries .timeout demoIdle demoTwelve k).getRecognizedText = "ok" ∧
      actions (afterResponses demoLibraries .timeout demoIdle demoTwelve k).events =
        actions (afterResponses demoLibraries .timeout demoIdle demoTwelve 10).events ∧
      resultCalls (afterResponses demoLibraries .timeout demoIdle demoTwelve k).events =
        resultCalls (afterResponses demoLibraries .timeout demoIdle demoTwelve 0).events ++
          (if demoIdle._resultCallback = true then ["ok"] else [])) :=
  stable_result_exit demoLibraries .timeout demoIdle "ok" demoTwelve (by decide) (by decide)
    (by decide) demoTwelve_text

/-! ### Sessions: config messages and end markers -/

theorem maskKeyAt_length (s : ArduinoASRChat) (n : Nat) : (maskKeyAt s n).length = 4 := by
  simp [maskKeyAt]

theorem message_sent (header key data : List Nat) (hk : key.length = 4) :
    (Event.sent (header ++ key) (maskData key data)).message = some data := by
  simp [Event.message, hk, maskData, maskFrom_involutive]

theorem configCount_append (a b : List Event) :
    configCount (a ++ b) = configCount a + configCount b := by
  simp [configCount]

theorem endMarkerCount_append (a b : List Event) :
    endMarkerCount (a ++ b) = endMarkerCount a + endMarkerCount b := by
  simp [endMarkerCount]

theorem isConfigMessage_sent (header key data : List Nat) (hk : key.length = 4) :
    (Event.sent (header ++ key) (maskData key data)).isConfigMessage =
      decide (data.getD 1 0 >>> 4 = CLIENT_FULL_REQUEST) := by
  unfold Event.isConfigMessage
  rw [message_sent _ _ _ hk]

theorem isEndMarker_sent (header key data : List Nat) (hk : key.length = 4) :
    (Event.sent (header ++ key) (maskData key data)).isEndMarker =
      decide (data.getD 1 0 >>> 4 = CLIENT_AUDIO_ONLY_REQUEST ∧
        data.getD 1 0 &&& 0x0F = NEG_SEQUENCE) := by
  unfold Event.isEndMarker
  rw [message_sent _ _ _ hk]

theorem configCount_frameAt (s : ArduinoASRChat) (n : Nat) (data : List Nat) (opcode : Nat) :
    configCount (frameAt s n data opcode) =
      if (live s && decide (data.getD 1 0 >>> 4 = CLIENT_FULL_REQUEST)) = true then 1 else 0 := by
  unfold frameAt configCount
  cases hl : live s
  · simp
  · simp only [if_true, List.countP_cons, List.countP_nil,
      isConfigMessage_sent _ _ _ (maskKeyAt_length s n), Bool.true_and, Nat.zero_add]

theorem endMarkerCount_frameAt (s : ArduinoASRChat) (n : Nat) (data : List Nat) (opcode : Nat) :
    endMarkerCount (frameAt s n data opcode) =
      if (live s && decide (data.getD 1 0 >>> 4 = CLIENT_AUDIO_ONLY_REQUEST ∧
        data.getD 1 0 &&& 0x0F = NEG_SEQUENCE)) = true then 1 else 0 := by
  unfold frameAt endMarkerCount
  cases hl : live s
  · simp
  · simp only [if_true, List.countP_cons, List.countP_nil,
      isEndMarker_sent _ _ _ (maskKeyAt_length s n), Bool.true_and, Nat.zero_add]

theorem audio_counts (s : ArduinoASRChat) (n : Nat) (data : List Nat) :
    configCount (frameAt s n (audioMessage data) 0x02) = 0 ∧
    endMarkerCount (frameAt s n (audioMessage data) 0x02) = 0 := by
  have h : (audioMessage data).getD 1 0 = 32 := rfl
  have h1 : decide (32 >>> 4 = CLIENT_FULL_REQUEST) = false := by decide
  have h2 : decide (32 >>> 4 = CLIENT_AUDIO_ONLY_REQUEST ∧ 32 &&& 0x0F = NEG_SEQUENCE) =
      false := by
    decide
  rw [configCount_frameAt, endMarkerCount_frameAt, h, h1, h2]
  simp

theorem endMarker_counts (s : ArduinoASRChat) (n : Nat) :
    configCount (frameAt s n endMarkerMessage 0x02) = 0 ∧
    endMarkerCount (frameAt s n endMarkerMessage 0x02) = if live s = true then 1 else 0 := by
  have h : endMarkerMessage.getD 1 0 = 34 := rfl
  have h1 : decide (34 >>> 4 = CLIENT_FULL_REQUEST) = false := by decide
  have h2 : decide (34 >>> 4 = CLIENT_AUDIO_ONLY_REQUEST ∧ 34 &&& 0x0F = NEG_SEQUENCE) =
      true := by
    decide
  rw [configCount_frameAt, endMarkerCount_frameAt, h, h1, h2]
  simp

theorem pong_counts (s : ArduinoASRChat) (n : Nat) :
    configCount (frameAt s n [] 0x0A) = 0 ∧ endMarkerCount (frameAt s n [] 0x0A) = 0 := by
  have h : ([] : List Nat).getD 1 0 = 0 := rfl
  have h1 : decide (0 >>> 4 = CLIENT_FULL_REQUEST) = false := by decide
  have h2 : decide (0 >>> 4 = CLIENT_AUDIO_ONLY_REQUEST ∧ 0 &&& 0x0F = NEG_SEQUENCE) =
      false := by
    decide
  rw [configCount_frameAt, endMarkerCount_frameAt, h, h1, h2]
  simp

theorem config_counts (lib : Libraries) (s : ArduinoASRChat) (n : Nat) :
    configCount (frameAt s n (configMessage lib s) 0x02) = (if live s = true then 1 else 0) ∧
    endMarkerCount (frameAt s n (configMessage lib s) 0x02) = 0 := by
  have h : (configMessage lib s).getD 1 0 = 16 := rfl
  have h1 : decide (16 >>> 4 = CLIENT_FULL_REQUEST) = true := by decide
  have h2 : decide (16 >>> 4 = CLIENT_AUDIO_ONLY_REQUEST ∧ 16 &&& 0x0F = NEG_SEQUENCE) =
      false := by
    decide
  rw [configCount_frameAt, endMarkerCount_frameAt, h, h1, h2]
  simp

theorem flush_counts (s : ArduinoASRChat) :
    configCount (flushEvents s) = 0 ∧ endMarkerCount (flushEvents s) = 0 := by
  unfold flushEvents
  split
  · exact audio_counts _ _ _
  · exact ⟨rfl, rfl⟩

theorem stopEvents_counts (s : ArduinoASRChat) :
    configCount (stopEvents s) = 0 ∧
    endMarkerCount (stopEvents s) = if live s = true then 1 else 0 := by
  unfold stopEvents
  simp only [configCount_append, endMarkerCount_append, (flush_counts s).1, (flush_counts s).2,
    (endMarker_counts s _).1, (endMarker_counts s _).2]
  split <;> simp [configCount, endMarkerCount, Event.isConfigMessage, Event.isEndMarker,
    Event.message]

theorem Quiet.refl (s : ArduinoASRChat) : Quiet s s :=
  ⟨[], by simp, rfl, by simp [endMarkerCount]⟩

theorem Quiet.trans {s t u : ArduinoASRChat} (h1 : Quiet s t) (h2 : Quiet t u) : Quiet s u := by
  obtain ⟨n1, e1, c1, m1⟩ := h1
  obtain ⟨n2, e2, c2, m2⟩ := h2
  refine ⟨n1 ++ n2, by rw [e2, e1, List.append_assoc], by rw [configCount_append, c1, c2], ?_⟩
  rw [endMarkerCount_append]
  omega

theorem Quiet.of_frames {s t : ArduinoASRChat} (new : List Event)
    (h1 : t.events = s.events ++ new) (hc : configCount new = 0) (he : endMarkerCount new = 0)
    (h2 : t._isRecording = s._isRecording) : Quiet s t :=
  ⟨new, h1, hc, by rw [he, h2]; omega⟩

theorem Quiet.of_eq {s t : ArduinoASRChat} (h1 : t.events = s.events)
    (h2 : t._isRecording = s._isRecording) : Quiet s t :=
  Quiet.of_frames [] (by simp [h1]) rfl rfl h2

theorem Quiet.of_stopped {s t : ArduinoASRChat} (new : List Event)
    (h1 : t.events = s.events ++ new) (hc : configCount new = 0) (he : endMarkerCount new = 0)
    (h2 : t._isRecording = false) : Quiet s t :=
  ⟨new, h1, hc, by rw [he, h2]; simp⟩

theorem quiet_stopRecording (s : ArduinoASRChat) : Quiet s (stopRecording s) := by
  by_cases h : s._isRecording = true
  · rw [stopRecording_eq s h]
    refine ⟨stopEvents s, rfl, (stopEvents_counts s).1, ?_⟩
    rw [(stopEvents_counts s).2, h]
    split <;> simp
  · rw [stopRecording_idle s (by simpa using h)]
    exact Quiet.refl s

theorem quiet_sendAudioChunk_reset (data : List Nat) (s : ArduinoASRChat) :
    Quiet s { sendAudioChunk data s with _sendBufferPos := 0 } := by
  rw [sendAudioChunk_eq]
  exact Quiet.of_frames _ rfl (audio_counts _ _ _).1 (audio_counts _ _ _).2 rfl

theorem quiet_readSamples (n : Nat) (s : ArduinoASRChat) : Quiet s (readSamples n s) := by
  induction n generalizing s with
  | zero => exact Quiet.refl s
  | succ n ih =>
    unfold readSamples
    split
    · exact Quiet.refl s
    · rename_i sample rest hmic
      split
      · dsimp only
        split
        · refine Quiet.trans ?_ (ih _)
          refine Quiet.trans (t := storeSample (toInt16 sample) { s with mic := rest }) ?_
            (quiet_sendAudioChunk_reset _ _)
          exact Quiet.of_eq rfl rfl
        · exact Quiet.trans (Quiet.of_eq rfl rfl) (ih _)
      · exact Quiet.trans (Quiet.of_eq rfl rfl) (ih _)

theorem quiet_processAudioSending (s : ArduinoASRChat) : Quiet s (processAudioSending s) := by
  unfold processAudioSending
  refine Quiet.trans ?_ (quiet_readSamples _ _)
  split <;> exact Quiet.of_eq rfl rfl

theorem quiet_emit_callback (s : ArduinoASRChat) : Quiet s (emit .timeoutNoSpeechCallback s) :=
  Quiet.of_frames [.timeoutNoSpeechCallback] rfl rfl rfl rfl

theorem quiet_checkRecordingTimeout (s : ArduinoASRChat) :
    Quiet s (checkRecordingTimeout s) := by
  unfold checkRecordingTimeout
  split
  · split
    · exact Quiet.trans (quiet_stopRecording s) (quiet_emit_callback _)
    · exact quiet_stopRecording s
  · exact Quiet.refl s

theorem quiet_checkSilence (s : ArduinoASRChat) : Quiet s (checkSilence s) := by
  unfold checkSilence
  split
  · split
    · exact quiet_stopRecording s
    · exact Quiet.refl s
  · exact Quiet.refl s

theorem quiet_updateResult (t : String) (s : ArduinoASRChat) : Quiet s (updateResult t s) := by
  by_cases ht : t = "" ∨ t = " "
  · rw [updateResult_rejected t s ht]
    exact Quiet.refl s
  · have h1 : t ≠ "" := fun h => ht (Or.inl h)
    have h2 : t ≠ " " := fun h => ht (Or.inr h)
    by_cases h : t = s._lastResultText
    · by_cases h3 : s._sameResultCount + 1 ≥ 10 ∧ s._isRecording = true ∧
        s._shouldStop = false
      · rw [updateResult_tenth t s h1 h2 h h3.1 h3.2.1 h3.2.2]
        exact Quiet.trans (Quiet.of_eq rfl rfl) (quiet_stopRecording _)
      · rw [updateResult_repeat t s h1 h2 h h3]
        exact Quiet.of_eq rfl rfl
    · rw [updateResult_new t s h1 h2 h]
      exact Quiet.of_eq rfl rfl

theorem codeLog_counts (lib : Libraries) (doc : JsonVariant) :
    configCount (codeLog lib doc) = 0 ∧ endMarkerCount (codeLog lib doc) = 0 := by
  unfold codeLog
  split <;> simp [configCount, endMarkerCount, Event.isConfigMessage, Event.isEndMarker,
    Event.message]

theorem quiet_handleDocument (lib : Libraries) (doc : JsonVariant) (s : ArduinoASRChat) :
    Quiet s (handleDocument lib doc s) := by
  have h : Quiet s (reportCode lib doc s) := by
    rw [reportCode_eq]
    exact Quiet.of_frames _ rfl (codeLog_counts lib doc).1 (codeLog_counts lib doc).2 rfl
  unfold handleDocument
  simp only
  split
  · exact Quiet.trans h (quiet_updateResult _ _)
  · exact h

theorem quiet_parseResponse (lib : Libraries) (data : List Nat) (s : ArduinoASRChat) :
    Quiet s (parseResponse lib data s) := by
  unfold parseResponse
  split
  · exact Quiet.refl s
  · split
    · exact Quiet.refl s
    · exact quiet_handleDocument lib _ s

theorem quiet_handleWebSocketData (lib : Libraries) (s : ArduinoASRChat) :
    Quiet s (handleWebSocketData lib s) := by
  unfold handleWebSocketData
  split
  · exact Quiet.of_eq rfl rfl
  · simp only
    split
    · split
      · split
        · exact Quiet.trans (Quiet.of_eq rfl rfl) (quiet_parseResponse lib _ _)
        · split
          · exact Quiet.of_frames [.stop] rfl rfl rfl rfl
          · split
            · rw [sendPong_eq]
              exact Quiet.of_frames _ rfl (pong_counts _ _).1 (pong_counts _ _).2 rfl
            · exact Quiet.of_eq rfl rfl
      · exact Quiet.of_eq rfl rfl
    · exact Quiet.of_eq rfl rfl

theorem quiet_drainInbound (lib : Libraries) (fuel : Nat) (s : ArduinoASRChat) :
    Quiet s (drainInbound lib fuel s) := by
  induction fuel generalizing s with
  | zero => exact Quiet.refl s
  | succ n ih =>
    unfold drainInbound
    split
    · exact Quiet.trans (Quiet.trans (quiet_handleWebSocketData lib s) (Quiet.of_eq rfl rfl))
        (ih _)
    · exact Quiet.refl s

theorem quiet_loop (lib : Libraries) (s : ArduinoASRChat) : Quiet s (loop lib s) := by
  have key : ∀ s1 : ArduinoASRChat, Quiet s s1 →
      Quiet s (if s1.inbound ≠ [] then
        (if s1._isRecording = true then handleWebSocketData lib s1
          else drainInbound lib s1.inbound.length s1)
        else s1) := by
    intro s1 h
    split
    · split
      · exact Quiet.trans h (quiet_handleWebSocketData lib _)
      · exact Quiet.trans h (quiet_drainInbound lib _ _)
    · exact h
  unfold loop
  split
  · exact Quiet.refl s
  · split
    · exact Quiet.of_stopped [] (by simp) rfl rfl rfl
    · apply key
      split
      · exact Quiet.trans (quiet_processAudioSending s)
          (Quiet.trans (quiet_checkRecordingTimeout _) (quiet_checkSilence _))
      · exact Quiet.refl s



theorem plain_counts (new : List Event) (h : ∀ e ∈ new, e.message = none) :
    configCount new = 0 ∧ endMarkerCount new = 0 := by
  induction new with
  | nil => exact ⟨rfl, rfl⟩
  | cons e es ih =>
    have he := h e (List.mem_cons_self _ _)
    have := ih (fun x hx => h x (List.mem_cons_of_mem _ hx))
    simp only [configCount, endMarkerCount, List.countP_cons, Event.isConfigMessage,
      Event.isEndMarker, he] at this ⊢
    simpa using this

theorem sendUpgradeRequest_events (lib : Libraries) (s : ArduinoASRChat) :
    ∃ request, (sendUpgradeRequest lib s).events = s.events ++ [.connect, .print request] ∧
      (sendUpgradeRequest lib s)._isRecording = s._isRecording := by
  refine ⟨upgradeRequest (generateWebSocketKey lib
    (emit .connect { s with clientConnected := true, inbound := [] })).1 s, ?_, ?_⟩
  · simp [sendUpgradeRequest, emit, generateWebSocketKey, randomBytes_snd]
  · simp [sendUpgradeRequest, emit, generateWebSocketKey, randomBytes_snd]

/-- Whatever `connectWebSocket` adds to the record, it is no frame. -/
theorem connectWebSocket_events (lib : Libraries) (net : ConnectOutcome) (s : ArduinoASRChat) :
    ∃ new, (connectWebSocket lib net s).2.events = s.events ++ new ∧
      (∀ e ∈ new, e.message = none) ∧
      (connectWebSocket lib net s).2._isRecording = s._isRecording := by
  obtain ⟨request, h1, h2⟩ := sendUpgradeRequest_events lib s
  unfold connectWebSocket
  cases net with
  | sslFailed => exact ⟨[], by simp, by simp, rfl⟩
  | timeout =>
    refine ⟨[.connect, .print request, .stop], ?_, ?_, ?_⟩
    · simp [clientStop, emit, h1]
    · simp [Event.message]
    · simp [clientStop, emit, h2]
  | response text =>
    dsimp only
    split
    · refine ⟨[.connect, .print request], ?_, ?_, ?_⟩
      · simp [h1]
      · simp [Event.message]
      · simp [h2]
    · refine ⟨[.connect, .print request, .stop], ?_, ?_, ?_⟩
      · simp [clientStop, emit, h1]
      · simp [Event.message]
      · simp [clientStop, emit, h2]

theorem quiet_connectWebSocket (lib : Libraries) (net : ConnectOutcome) (s : ArduinoASRChat) :
    Quiet s (connectWebSocket lib net s).2 := by
  obtain ⟨new, h1, h2, h3⟩ := connectWebSocket_events lib net s
  exact Quiet.of_frames new h1 (plain_counts new h2).1 (plain_counts new h2).2 h3

theorem quiet_disconnectWebSocket (s : ArduinoASRChat) : Quiet s (disconnectWebSocket s) := by
  unfold disconnectWebSocket
  split
  · exact Quiet.of_frames [.stop] rfl rfl rfl rfl
  · exact Quiet.refl s

theorem quiet_reconnect (lib : Libraries) (net : ConnectOutcome) (s : ArduinoASRChat) :
    Quiet s (connectWebSocket lib net (delay 100 (disconnectWebSocket s))).2 :=
  Quiet.trans (Quiet.trans (quiet_disconnectWebSocket s) (Quiet.of_eq rfl rfl))
    (quiet_connectWebSocket lib net _)

theorem beginSession_false (lib : Libraries) (s : ArduinoASRChat)
    (h : (beginSession lib s).1 = false) : (beginSession lib s).2 = s := by
  unfold beginSession at h ⊢
  cases h1 : s._wsConnected <;> cases h2 : s._isRecording <;> simp_all

theorem quiet_startRecording_failed (lib : Libraries) (net : ConnectOutcome)
    (s : ArduinoASRChat) (h : (startRecording lib net s).1 = false) :
    Quiet s (startRecording lib net s).2 := by
  unfold startRecording at h ⊢
  by_cases he : s._endMarkerSent = true
  · rw [if_pos he] at h ⊢
    by_cases hc : (connectWebSocket lib net (delay 100 (disconnectWebSocket s))).1 = true
    · have hn : ¬ ((!(connectWebSocket lib net (delay 100 (disconnectWebSocket s))).1) =
          true) := by
        simp [hc]
      rw [if_neg hn] at h ⊢
      rw [beginSession_false lib _ h]
      exact Quiet.trans (quiet_reconnect lib net s) (Quiet.of_eq rfl rfl)
    · have hn : (!(connectWebSocket lib net (delay 100 (disconnectWebSocket s))).1) =
          true := by
        simpa using hc
      rw [if_pos hn]
      exact quiet_reconnect lib net s
  · rw [if_neg he] at h ⊢
    rw [beginSession_false lib _ h]
    exact Quiet.refl s

theorem quiet_step (lib : Libraries) (op : HostOp) (s : ArduinoASRChat)
    (h : startsSession lib op s = false) : Quiet s (step lib op s) := by
  cases op with
  | connectWebSocket net => exact quiet_connectWebSocket lib net s
  | disconnectWebSocket => exact quiet_disconnectWebSocket s
  | startRecording net => exact quiet_startRecording_failed lib net s h
  | stopRecording => exact quiet_stopRecording s
  | loop => exact quiet_loop lib s
  | receive bytes =>
    simp only [step]
    split
    · exact Quiet.of_eq rfl rfl
    · exact Quiet.refl s
  | _ => exact Quiet.of_eq rfl rfl

theorem quiet_runSession (lib : Libraries) (ops : List HostOp) (s : ArduinoASRChat) :
    Quiet s (runSession lib ops s) := by
  induction ops generalizing s with
  | nil => exact Quiet.refl s
  | cons op ops ih =>
    unfold runSession
    split
    · exact Quiet.refl s
    · rename_i h
      exact Quiet.trans (quiet_step lib op s (by simpa using h)) (ih _)

theorem reconnect_plain (lib : Libraries) (net : ConnectOutcome) (s : ArduinoASRChat) :
    ∃ new, (connectWebSocket lib net (delay 100 (disconnectWebSocket s))).2.events =
      s.events ++ new ∧ ∀ e ∈ new, e.message = none := by
  obtain ⟨n2, e2, m2, -⟩ := connectWebSocket_events lib net (delay 100 (disconnectWebSocket s))
  by_cases hw : s._wsConnected = true
  · refine ⟨[.stop] ++ n2, ?_, ?_⟩
    · rw [e2]
      simp [delay, disconnectWebSocket, hw, clientStop, emit]
    · intro e he
      rcases List.mem_append.1 he with h | h
      · rw [List.mem_singleton.1 h]
        rfl
      · exact m2 e h
  · refine ⟨n2, ?_, m2⟩
    rw [e2]
    simp [delay, disconnectWebSocket, hw]

/-- What a `startRecording` that returns true on a live transport adds to the record. -/
theorem startRecording_events (lib : Libraries) (net : ConnectOutcome) (s : ArduinoASRChat)
    (h : (startRecording lib net s).1 = true)
    (hlive : (startRecording lib net s).2.clientConnected = true) :
    ∃ new, (startRecording lib net s).2.events = s.events ++ new ∧ configCount new = 1 ∧
      endMarkerCount new = 0 ∧ (startRecording lib net s).2._isRecording = true := by
  have hq : ∃ x : ArduinoASRChat, startRecording lib net s = beginSession lib x ∧
      x._wsConnected = true ∧ x._isRecording = false ∧
      ∃ new, x.events = s.events ++ new ∧ ∀ e ∈ new, e.message = none := by
    unfold startRecording at h ⊢
    by_cases he : s._endMarkerSent = true
    · rw [if_pos he] at h ⊢
      by_cases hc : (connectWebSocket lib net (delay 100 (disconnectWebSocket s))).1 = true
      · have hn : ¬ ((!(connectWebSocket lib net (delay 100 (disconnectWebSocket s))).1) =
            true) := by
          simp [hc]
        rw [if_neg hn] at h ⊢
        obtain ⟨a, b⟩ := beginSession_true lib _ h
        exact ⟨_, rfl, a, b, reconnect_plain lib net s⟩
      · have hn : (!(connectWebSocket lib net (delay 100 (disconnectWebSocket s))).1) =
            true := by
          simpa using hc
        rw [if_pos hn] at h
        simp at h
    · rw [if_neg he] at h ⊢
      obtain ⟨a, b⟩ := beginSession_true lib _ h
      exact ⟨s, rfl, a, b, [], by simp, by simp⟩
  obtain ⟨x, hx, h1, h2, new, e1, p1⟩ := hq
  rw [hx, beginSession_eq lib x h1 h2] at hlive ⊢
  have hl : live x = true := by
    simp only at hlive
    simp [live, h1, hlive]
  refine ⟨new ++ frameAt x (x.randCalls + 1) (configMessage lib x) 0x02, ?_, ?_, ?_, rfl⟩
  · simp only [e1, List.append_assoc]
  · rw [configCount_append, (plain_counts new p1).1, (config_counts lib x _).1, hl]
    simp
  · rw [endMarkerCount_append, (plain_counts new p1).2, (config_counts lib x _).2]

/-- C3: a recording session runs from a `startRecording` that returns true, on a connected client,
through any later operations of the host and changes of the environment up to the next
`startRecording` that returns true.  What the session adds to the record holds exactly one config
message and at most one end marker.  And in a recording state on a live connection
`stopRecording` transmits exactly one end marker, while a second call right after it changes
nothing at all. -/
theorem one_config_one_end_marker (lib : Libraries) (net : ConnectOutcome) (s : ArduinoASRChat)
    (ops : List HostOp) (r : ArduinoASRChat)
    (hstart : (startRecording lib net s).1 = true)
    (hlive : (startRecording lib net s).2.clientConnected = true) :
    (∃ new, (runSession lib ops (startRecording lib net s).2).events = s.events ++ new ∧
      configCount new = 1 ∧ endMarkerCount new ≤ 1) ∧
    (r._isRecording = true → r._wsConnected = true → r.clientConnected = true →
      (∃ new, (stopRecording r).events = r.events ++ new ∧ endMarkerCount new = 1) ∧
      stopRecording (stopRecording r) = stopRecording r) := by
  constructor
  · obtain ⟨n1, e1, c1, m1, r1⟩ := startRecording_events lib net s hstart hlive
    obtain ⟨n2, e2, c2, m2⟩ := quiet_runSession lib ops (startRecording lib net s).2
    refine ⟨n1 ++ n2, by rw [e2, e1, List.append_assoc], by rw [configCount_append, c1, c2], ?_⟩
    rw [endMarkerCount_append, m1]
    rw [r1] at m2
    simp only [if_true] at m2
    omega
  · intro h1 h2 h3
    refine ⟨⟨stopEvents r, by rw [stopRecording_eq r h1], ?_⟩, ?_⟩
    · rw [(stopEvents_counts r).2]
      simp [live, h2, h3]
    · apply stopRecording_idle
      rw [stopRecording_eq r h1]

/-- Instance of the session property: a start from the connected idle state, then three
microphone values, one `loop` and two calls of `stopRecording`. -/
theorem one_config_one_end_marker_witness :
    (∃ new, (runSession demoLibraries demoSession
        (startRecording demoLibraries .timeout demoIdle).2).events = demoIdle.events ++ new ∧
      configCount new = 1 ∧ endMarkerCount new ≤ 1) ∧
    (demoRecording._isRecording = true → demoRecording._wsConnected = true →
      demoRecording.clientConnected = true →
      (∃ new, (stopRecording demoRecording).events = demoRecording.events ++ new ∧
        endMarkerCount new = 1) ∧
      stopRecording (stopRecording demoRecording) = stopRecording demoRecording) :=
  one_config_one_end_marker demoLibraries .timeout demoIdle demoSession demoRecording
    (by decide) (by decide)

/-! ### The draining loop of `loop` ends -/

theorem stopRecording_inbound (s : ArduinoASRChat) : (stopRecording s).inbound = s.inbound := by
  by_cases h : s._isRecording = true
  · rw [stopRecording_eq s h]
  · rw [stopRecording_idle s (by simpa using h)]

theorem updateResult_inbound (t : String) (s : ArduinoASRChat) :
    (updateResult t s).inbound = s.inbound := by
  by_cases ht : t = "" ∨ t = " "
  · rw [updateResult_rejected t s ht]
  · have h1 : t ≠ "" := fun h => ht (Or.inl h)
    have h2 : t ≠ " " := fun h => ht (Or.inr h)
    by_cases h : t = s._lastResultText
    · by_cases h3 : s._sameResultCount + 1 ≥ 10 ∧ s._isRecording = true ∧
        s._shouldStop = false
      · rw [updateResult_tenth t s h1 h2 h h3.1 h3.2.1 h3.2.2, stopRecording_inbound]
      · rw [updateResult_repeat t s h1 h2 h h3]
    · rw [updateResult_new t s h1 h2 h]

theorem parseResponse_inbound (lib : Libraries) (data : List Nat) (s : ArduinoASRChat) :
    (parseResponse lib data s).inbound = s.inbound := by
  unfold parseResponse
  split
  · rfl
  · split
    · rfl
    · unfold handleDocument
      dsimp only
      split
      · rw [updateResult_inbound, reportCode_eq]
      · rw [reportCode_eq]

theorem readFrameHeader_length (input : List Nat) (h : FrameHeader) (rest : List Nat)
    (hr : readFrameHeader input = some (h, rest)) : rest.length + 2 ≤ input.length := by
  unfold readFrameHeader at hr
  dsimp only at hr
  by_cases h2 : (input.take 2).length ≠ 2
  · rw [if_pos h2] at hr
    cases hr
  · rw [if_neg h2] at hr
    have hlen : 2 ≤ input.length := by
      simp only [List.length_take, ne_eq, Decidable.not_not] at h2
      omega
    simp only [Option.some.injEq, Prod.mk.injEq] at hr
    obtain ⟨-, hrest⟩ := hr
    rw [← hrest]
    split <;> split <;> (try split) <;> simp only [List.length_drop] <;> omega

theorem handleWebSocketData_inbound (lib : Libraries) (s : ArduinoASRChat)
    (h : s.inbound ≠ []) :
    (handleWebSocketData lib s).inbound.length < s.inbound.length := by
  have hpos : 0 < s.inbound.length := List.length_pos.2 h
  unfold handleWebSocketData
  split
  · simp only [List.length_drop]
    omega
  · rename_i hd rest hr
    have hl := readFrameHeader_length _ _ _ hr
    dsimp only
    split
    · split
      · split
        · rw [parseResponse_inbound]
          simp only [List.length_drop]
          omega
        · split
          · simp only [clientStop, emit, List.length_nil]
            omega
          · split
            · rw [sendPong_eq]
              simp only [List.length_drop]
              omega
            · simp only [List.length_drop]
              omega
      · simp only [List.length_drop]
        omega
    · simp only
      omega

/-- The fuel `loop` gives to the draining loop is enough: the loop ends because nothing is left to
read. -/
theorem drainInbound_exhausts (lib : Libraries) (fuel : Nat) (s : ArduinoASRChat)
    (h : s.inbound.length ≤ fuel) : (drainInbound lib fuel s).inbound = [] := by
  induction fuel generalizing s with
  | zero => simpa [drainInbound] using h
  | succ n ih =>
    unfold drainInbound
    split
    · rename_i hne
      apply ih
      have := handleWebSocketData_inbound lib s hne
      simp only [delay]
      omega
    · rename_i hne
      simpa using hne

/-! ### Every reachable state is well formed -/

theorem capacity_eq : capacity = 1600 := by decide

/-- A state that agrees with a well-formed one on the members concerned is well formed. -/
theorem WellFormed.of_same {s t : ArduinoASRChat} (h : WellFormed s)
    (h1 : t._sendBufferPos = s._sendBufferPos) (h2 : t.bufferOverrun = s.bufferOverrun)
    (h3 : t._isRecording = s._isRecording) (h4 : t._endMarkerSent = s._endMarkerSent)
    (h5 : t._hasSpeech = s._hasSpeech) (h6 : t._lastResultText = s._lastResultText)
    (h7 : t._lastSpeechTime = s._lastSpeechTime)
    (h8 : t._sameResultCount = s._sameResultCount) : WellFormed t := by
  unfold WellFormed at h ⊢
  rw [h1, h2, h3, h4, h5, h6, h7, h8]
  exact h

theorem wf_new (apiKey cluster : String) (rng : Nat → Nat) (efuseMac clock : Nat)
    (overShift : Nat → Nat → Nat) :
    WellFormed (new apiKey cluster rng efuseMac clock overShift) := by
  simp [WellFormed, new, capacity_eq]

theorem wf_stopRecording (s : ArduinoASRChat) (h : WellFormed s) :
    WellFormed (stopRecording s) := by
  by_cases hr : s._isRecording = true
  · rw [stopRecording_eq s hr]
    obtain ⟨h1, h2, h3, h4, h5, h6⟩ := h
    refine ⟨?_, ?_, h3, ?_, h5, h6⟩
    · simp only; split <;> omega
    · simp only; split
      · rw [capacity_eq]; decide
      · exact h2
    · simp
  · rw [stopRecording_idle s (by simpa using hr)]
    exact h

theorem wf_emit (e : Event) (s : ArduinoASRChat) (h : WellFormed s) : WellFormed (emit e s) :=
  h.of_same rfl rfl rfl rfl rfl rfl rfl rfl

theorem wf_readSamples (n : Nat) (s : ArduinoASRChat) (h : WellFormed s) :
    WellFormed (readSamples n s) := by
  induction n generalizing s with
  | zero => exact h
  | succ n ih =>
    unfold readSamples
    split
    · exact h
    · rename_i sample rest hmic
      split
      · dsimp only
        obtain ⟨h1, h2, h3, h4, h5, h6⟩ := h
        split
        · apply ih
          rw [sendAudioChunk_eq]
          refine ⟨by simp, by simp [capacity_eq], ?_, h4, h5, h6⟩
          simp [storeSample, h3, h1]
          exact h2
        · rename_i hlt
          apply ih
          refine ⟨?_, ?_, ?_, h4, h5, h6⟩
          · simp [storeSample]; omega
          · simp only [storeSample, ge_iff_le, not_le] at hlt ⊢
            exact hlt
          · simp [storeSample, h3, h1]
            exact h2
      · apply ih
        exact h.of_same rfl rfl rfl rfl rfl rfl rfl rfl

theorem wf_processAudioSending (s : ArduinoASRChat) (h : WellFormed s) :
    WellFormed (processAudioSending s) := by
  unfold processAudioSending
  apply wf_readSamples
  split
  · exact h.of_same rfl rfl rfl rfl rfl rfl rfl rfl
  · exact h

theorem wf_checkRecordingTimeout (s : ArduinoASRChat) (h : WellFormed s) :
    WellFormed (checkRecordingTimeout s) := by
  unfold checkRecordingTimeout
  split
  · split
    · exact wf_emit _ _ (wf_stopRecording s h)
    · exact wf_stopRecording s h
  · exact h

theorem wf_checkSilence (s : ArduinoASRChat) (h : WellFormed s) :
    WellFormed (checkSilence s) := by
  unfold checkSilence
  split
  · split
    · exact wf_stopRecording s h
    · exact h
  · exact h

theorem wf_updateResult (t : String) (s : ArduinoASRChat) (h : WellFormed s) :
    WellFormed (updateResult t s) := by
  by_cases ht : t = "" ∨ t = " "
  · rw [updateResult_rejected t s ht]
    exact h
  · have h1 : t ≠ "" := fun e => ht (Or.inl e)
    have h2 : t ≠ " " := fun e => ht (Or.inr e)
    obtain ⟨w1, w2, w3, w4, w5, w6⟩ := h
    by_cases he : t = s._lastResultText
    · have hc : 1 ≤ s._sameResultCount := w6 (he ▸ h1)
      have hw : WellFormed { s with
          _hasSpeech := true, _lastSpeechTime := s.clock,
          _sameResultCount := s._sameResultCount + 1 } :=
        ⟨w1, w2, w3, w4, by simp, fun _ => by simp only; omega⟩
      by_cases h3 : s._sameResultCount + 1 ≥ 10 ∧ s._isRecording = true ∧
          s._shouldStop = false
      · rw [updateResult_tenth t s h1 h2 he h3.1 h3.2.1 h3.2.2]
        exact wf_stopRecording _ hw
      · rw [updateResult_repeat t s h1 h2 he h3]
        exact hw
    · rw [updateResult_new t s h1 h2 he]
      exact ⟨w1, w2, w3, w4, by simp, by simp⟩

theorem wf_handleDocument (lib : Libraries) (doc : JsonVariant) (s : ArduinoASRChat)
    (h : WellFormed s) : WellFormed (handleDocument lib doc s) := by
  have hr : WellFormed (reportCode lib doc s) := by
    rw [reportCode_eq]
    exact h.of_same rfl rfl rfl rfl rfl rfl rfl rfl
  unfold handleDocument
  dsimp only
  split
  · exact wf_updateResult _ _ hr
  · exact hr

theorem wf_parseResponse (lib : Libraries) (data : List Nat) (s : ArduinoASRChat)
    (h : WellFormed s) : WellFormed (parseResponse lib data s) := by
  unfold parseResponse
  split
  · exact h
  · split
    · exact h
    · exact wf_handleDocument lib _ s h

theorem wf_handleWebSocketData (lib : Libraries) (s : ArduinoASRChat) (h : WellFormed s) :
    WellFormed (handleWebSocketData lib s) := by
  unfold handleWebSocketData
  split
  · exact h.of_same rfl rfl rfl rfl rfl rfl rfl rfl
  · dsimp only
    split
    · split
      · split
        · exact wf_parseResponse lib _ _ (h.of_same rfl rfl rfl rfl rfl rfl rfl rfl)
        · split
          · exact h.of_same rfl rfl rfl rfl rfl rfl rfl rfl
          · split
            · rw [sendPong_eq]
              exact h.of_same rfl rfl rfl rfl rfl rfl rfl rfl
            · exact h.of_same rfl rfl rfl rfl rfl rfl rfl rfl
      · exact h.of_same rfl rfl rfl rfl rfl rfl rfl rfl
    · exact h.of_same rfl rfl rfl rfl rfl rfl rfl rfl

theorem wf_drainInbound (lib : Libraries) (fuel : Nat) (s : ArduinoASRChat)
    (h : WellFormed s) : WellFormed (drainInbound lib fuel s) := by
  induction fuel generalizing s with
  | zero => exact h
  | succ n ih =>
    unfold drainInbound
    split
    · exact ih _ ((wf_handleWebSocketData lib s h).of_same rfl rfl rfl rfl rfl rfl rfl rfl)
    · exact h

theorem wf_loop (lib : Libraries) (s : ArduinoASRChat) (h : WellFormed s) :
    WellFormed (loop lib s) := by
  have key : ∀ s1 : ArduinoASRChat, WellFormed s1 →
      WellFormed (if s1.inbound ≠ [] then
        (if s1._isRecording = true then handleWebSocketData lib s1
          else drainInbound lib s1.inbound.length s1)
        else s1) := by
    intro s1 h1
    split
    · split
      · exact wf_handleWebSocketData lib _ h1
      · exact wf_drainInbound lib _ _ h1
    · exact h1
  unfold loop
  split
  · exact h
  · split
    · obtain ⟨w1, w2, w3, w4, w5, w6⟩ := h
      exact ⟨w1, w2, w3, by simp, w5, w6⟩
    · apply key
      split
      · exact wf_checkSilence _ (wf_checkRecordingTimeout _ (wf_processAudioSending s h))
      · exact h

theorem wf_sendUpgradeRequest (lib : Libraries) (s : ArduinoASRChat) (h : WellFormed s) :
    WellFormed (sendUpgradeRequest lib s) := by
  refine h.of_same ?_ ?_ ?_ ?_ ?_ ?_ ?_ ?_ <;>
    simp [sendUpgradeRequest, emit, generateWebSocketKey, randomBytes_snd]

theorem wf_clientStop (s : ArduinoASRChat) (h : WellFormed s) : WellFormed (clientStop s) :=
  h.of_same rfl rfl rfl rfl rfl rfl rfl rfl

theorem wf_connectWebSocket (lib : Libraries) (net : ConnectOutcome) (s : ArduinoASRChat)
    (h : WellFormed s) : WellFormed (connectWebSocket lib net s).2 := by
  unfold connectWebSocket
  cases net with
  | sslFailed => exact h.of_same rfl rfl rfl rfl rfl rfl rfl rfl
  | timeout => exact wf_clientStop _ (wf_sendUpgradeRequest lib s h)
  | response text =>
    dsimp only
    split
    · obtain ⟨w1, w2, w3, w4, w5, w6⟩ := wf_sendUpgradeRequest lib s h
      exact ⟨w1, w2, w3, fun _ => rfl, w5, w6⟩
    · exact wf_clientStop _ (wf_sendUpgradeRequest lib s h)

theorem wf_disconnectWebSocket (s : ArduinoASRChat) (h : WellFormed s) :
    WellFormed (disconnectWebSocket s) := by
  unfold disconnectWebSocket
  split
  · exact h.of_same rfl rfl rfl rfl rfl rfl rfl rfl
  · exact h

theorem wf_beginSession (lib : Libraries) (s : ArduinoASRChat) (h : WellFormed s)
    (he : s._endMarkerSent = false) : WellFormed (beginSession lib s).2 := by
  by_cases h1 : s._wsConnected = true
  · by_cases h2 : s._isRecording = false
    · rw [beginSession_eq lib s h1 h2]
      obtain ⟨w1, w2, w3, w4, w5, w6⟩ := h
      exact ⟨by simp, by simp [capacity_eq], w3, fun _ => he, by simp, by simp⟩
    · have : (beginSession lib s).2 = s := by
        simp only [Bool.not_eq_false] at h2
        simp [beginSession, h1, h2]
      rw [this]
      exact h
  · have : (beginSession lib s).2 = s := by
      simp only [Bool.not_eq_true] at h1
      simp [beginSession, h1]
    rw [this]
    exact h

theorem wf_startRecording (lib : Libraries) (net : ConnectOutcome) (s : ArduinoASRChat)
    (h : WellFormed s) : WellFormed (startRecording lib net s).2 := by
  have hc : WellFormed (connectWebSocket lib net (delay 100 (disconnectWebSocket s))).2 :=
    wf_connectWebSocket lib net _
      ((wf_disconnectWebSocket s h).of_same rfl rfl rfl rfl rfl rfl rfl rfl)
  unfold startRecording
  split
  · dsimp only
    split
    · exact hc
    · apply wf_beginSession
      · obtain ⟨w1, w2, w3, w4, w5, w6⟩ := hc
        exact ⟨w1, w2, w3, fun _ => rfl, w5, w6⟩
      · rfl
  · rename_i he
    exact wf_beginSession lib s h (by simpa using he)

theorem wf_step (lib : Libraries) (op : HostOp) (s : ArduinoASRChat) (h : WellFormed s) :
    WellFormed (step lib op s) := by
  cases op with
  | connectWebSocket net => exact wf_connectWebSocket lib net s h
  | disconnectWebSocket => exact wf_disconnectWebSocket s h
  | startRecording net => exact wf_startRecording lib net s h
  | stopRecording => exact wf_stopRecording s h
  | loop => exact wf_loop lib s h
  | receive bytes =>
    simp only [step]
    split
    · exact h.of_same rfl rfl rfl rfl rfl rfl rfl rfl
    · exact h
  | _ => exact h.of_same rfl rfl rfl rfl rfl rfl rfl rfl

theorem reachable_wellFormed (lib : Libraries) (s : ArduinoASRChat) (h : Reachable lib s) :
    WellFormed s := by
  induction h with
  | init apiKey cluster rng efuseMac clock overShift => exact wf_new _ _ _ _ _ _
  | step op s _ ih => exact wf_step lib op s ih

theorem reachable_run (lib : Libraries) (ops : List HostOp) (s : ArduinoASRChat)
    (h : Reachable lib s) : Reachable lib (run lib ops s) := by
  induction ops generalizing s with
  | nil => exact h
  | cons op ops ih => exact ih _ (Reachable.step op s h)

/-! ### The staging buffer -/

theorem demoStarted_reachable : Reachable demoLibraries demoStarted :=
  reachable_run demoLibraries demoStartOps demoBoot (Reachable.init _ _ _ _ _ _)

/-- C15: in every state reachable from construction the write cursor of the staging buffer lies
between 0 and the capacity `_sendBatchSize / 2`, which is 1600 samples, and no store into the
buffer has been made at an index outside `0 .. capacity - 1`. -/
theorem staging_cursor_in_bounds (lib : Libraries) (s : ArduinoASRChat)
    (h : Reachable lib s) :
    0 ≤ s._sendBufferPos ∧ s._sendBufferPos ≤ _sendBatchSize / 2 ∧ _sendBatchSize / 2 = 1600 ∧
    s.bufferOverrun = false := by
  obtain ⟨h1, h2, h3, -⟩ := reachable_wellFormed lib s h
  have hc := capacity_eq
  unfold capacity at h2 hc
  exact ⟨h1, by omega, hc, h3⟩

/-- Instance of the cursor bounds: the state after a connection and a start. -/
theorem staging_cursor_in_bounds_witness :
    0 ≤ demoStarted._sendBufferPos ∧ demoStarted._sendBufferPos ≤ _sendBatchSize / 2 ∧
    _sendBatchSize / 2 = 1600 ∧ demoStarted.bufferOverrun = false :=
  staging_cursor_in_bounds demoLibraries demoStarted demoStarted_reachable

theorem toInt16_of_isInt16 (v : Int) (h : IsInt16 v) : toInt16 v = v := by
  unfold toInt16
  obtain ⟨h1, h2⟩ := h
  omega

theorem stagedSamples_storeSample (v : Int) (s : ArduinoASRChat) (h : 0 ≤ s._sendBufferPos) :
    stagedSamples (storeSample v s) = stagedSamples s ++ [v] := by
  unfold stagedSamples storeSample
  have e : (s._sendBufferPos + 1).toNat = s._sendBufferPos.toNat + 1 := by omega
  simp only [e, List.range_succ, List.map_append, List.map_cons, List.map_nil]
  have hp : ((s._sendBufferPos.toNat : Nat) : Int) = s._sendBufferPos := Int.toNat_of_nonneg h
  congr 1
  · apply List.map_congr_left
    intro i hi
    have hi' : i < s._sendBufferPos.toNat := List.mem_range.1 hi
    have : (i : Int) ≠ s._sendBufferPos := by omega
    simp [Function.update, this]
  · rw [hp, Function.update_same]

theorem stagedBytes_flatMap (s : ArduinoASRChat) :
    stagedBytes s = (stagedSamples s).flatMap sampleBytes := by
  unfold stagedBytes stagedSamples
  induction List.range s._sendBufferPos.toNat with
  | nil => rfl
  | cons a l ih => simp only [List.flatMap_cons, List.map_cons, ih]

theorem message_frameAt (s : ArduinoASRChat) (n : Nat) (data : List Nat) (opcode : Nat)
    (hl : live s = true) :
    (frameAt s n data opcode).map Event.message = [some data] := by
  simp only [frameAt, hl, if_true, List.map_cons, List.map_nil,
    message_sent _ _ _ (maskKeyAt_length s n)]

theorem readSamples_cons (n : Nat) (sample : Int) (rest : List Int) (s : ArduinoASRChat)
    (hmic : s.mic = sample :: rest) :
    readSamples (n + 1) s = readSamples n (sampleStep sample rest s) := by
  rw [readSamples]
  split
  · rename_i h
    rw [hmic] at h
    cases h
  · rename_i a b h
    rw [hmic] at h
    obtain ⟨rfl, rfl⟩ := List.cons.inj h
    unfold sampleStep
    dsimp only
    split <;> (try split) <;> rfl

theorem readSamples_nil (n : Nat) (s : ArduinoASRChat) (hmic : s.mic = []) :
    readSamples n s = s := by
  cases n with
  | zero => rfl
  | succ n =>
    rw [readSamples]
    split
    · rfl
    · rename_i a b h
      rw [hmic] at h
      cases h

theorem sampleStep_spec (sample : Int) (rest : List Int) (s : ArduinoASRChat)
    (hl : live s = true) (h0 : 0 ≤ s._sendBufferPos) (h1 : s._sendBufferPos < capacity)
    (hr : IsInt16 sample) :
    ∃ (chunks : List (List Int)) (new : List Event),
      (sampleStep sample rest s).mic = rest ∧
      (sampleStep sample rest s).events = s.events ++ new ∧
      new.map Event.message =
        chunks.map (fun c => some (audioMessage (c.flatMap sampleBytes))) ∧
      chunks.flatten ++ stagedSamples (sampleStep sample rest s) =
        stagedSamples s ++ [sample].filter keptSample ∧
      live (sampleStep sample rest s) = true ∧ 0 ≤ (sampleStep sample rest s)._sendBufferPos ∧
      (sampleStep sample rest s)._sendBufferPos < capacity := by
  have hs2 : stagedSamples (storeSample sample { s with mic := rest }) =
      stagedSamples s ++ [sample] := stagedSamples_storeSample sample _ h0
  unfold sampleStep
  rw [toInt16_of_isInt16 sample hr]
  split
  · rename_i hkeep
    have hk : keptSample sample = true := by simpa [keptSample] using hkeep
    split
    · refine ⟨[stagedSamples s ++ [sample]],
        frameAt (storeSample sample { s with mic := rest })
          (storeSample sample { s with mic := rest }).randCalls
          (audioMessage (stagedBytes (storeSample sample { s with mic := rest }))) 0x02,
        ?_, ?_, ?_, ?_, ?_, ?_, ?_⟩
      · rw [sendAudioChunk_eq]
        rfl
      · rw [sendAudioChunk_eq]
        rfl
      · rw [message_frameAt _ _ _ _ (by exact hl), stagedBytes_flatMap, hs2]
        rfl
      · simp [hk, stagedSamples]
      · rw [sendAudioChunk_eq]
        exact hl
      · simp
      · simp [capacity_eq]
    · rename_i hlt
      refine ⟨[], [], rfl, by simp [storeSample], rfl, ?_, hl, ?_, ?_⟩
      · rw [hs2]
        simp [hk]
      · simp [storeSample]
        omega
      · simp only [storeSample, ge_iff_le, not_le] at hlt ⊢
        exact hlt
  · rename_i hkeep
    have hk : keptSample sample = false := by simpa [keptSample] using hkeep
    exact ⟨[], [], rfl, by simp, rfl, by simp [hk, stagedSamples], hl, h0, h1⟩

theorem readSamples_spec (n : Nat) (s : ArduinoASRChat) (hl : live s = true)
    (h0 : 0 ≤ s._sendBufferPos) (h1 : s._sendBufferPos < capacity)
    (hr : ∀ v ∈ s.mic.take n, IsInt16 v) :
    ∃ (chunks : List (List Int)) (new : List Event),
      (readSamples n s).mic = s.mic.drop n ∧
      (readSamples n s).events = s.events ++ new ∧
      new.map Event.message =
        chunks.map (fun c => some (audioMessage (c.flatMap sampleBytes))) ∧
      chunks.flatten ++ stagedSamples (readSamples n s) =
        stagedSamples s ++ (s.mic.take n).filter keptSample := by
  induction n generalizing s with
  | zero => exact ⟨[], [], by simp [readSamples], by simp [readSamples], rfl, by simp [readSamples]⟩
  | succ n ih =>
    cases hmic : s.mic with
    | nil =>
      rw [readSamples_nil _ s hmic]
      exact ⟨[], [], by simp [hmic], by simp, rfl, by simp⟩
    | cons sample rest =>
      rw [hmic] at hr
      have hsample : IsInt16 sample := hr sample (by simp)
      have hrest : ∀ v ∈ rest.take n, IsInt16 v := fun v hv => hr v (by simp [hv])
      obtain ⟨c1, n1, a1, b1, m1, d1, l1, p1, q1⟩ := sampleStep_spec sample rest s hl h0 h1 hsample
      obtain ⟨c2, n2, a2, b2, m2, d2⟩ := ih (sampleStep sample rest s) l1 p1 q1
        (by rw [a1]; exact hrest)
      rw [readSamples_cons n sample rest s hmic]
      refine ⟨c1 ++ c2, n1 ++ n2, ?_, ?_, ?_, ?_⟩
      · rw [a2, a1]
        rfl
      · rw [b2, b1, List.append_assoc]
      · rw [List.map_append, List.map_append, m1, m2]
      · rw [List.flatten_append, List.append_assoc, d2, ← List.append_assoc, d1, a1]
        simp [List.filter_cons]
        split <;> simp

theorem keptSample_iff (v : Int) : keptSample v = true ↔ v ≠ 0 ∧ v ≠ -1 ∧ v ≠ 1 := by
  simp [keptSample]

/-- C14: one call of `processAudioSending` on a live connection, with the cursor inside the
buffer and 16-bit values at the microphone, consumes the first `_samplesPerRead` values (fewer
when fewer are there); everything it adds to the record is audio chunks, and the samples of these
chunks in order, followed by the samples left staged, are the samples staged before followed by
the consumed values without those equal to 0, -1 or 1, none of which is therefore forwarded. -/
theorem processAudioSending_forwards (s : ArduinoASRChat) (hws : s._wsConnected = true)
    (hclient : s.clientConnected = true) (h0 : 0 ≤ s._sendBufferPos)
    (h1 : s._sendBufferPos < _sendBatchSize / 2)
    (hr : ∀ v ∈ s.mic.take _samplesPerRead.toNat, -32768 ≤ v ∧ v ≤ 32767) :
    ∃ (chunks : List (List Int)) (new : List Event),
      s.mic = s.mic.take _samplesPerRead.toNat ++ (processAudioSending s).mic ∧
      (s.mic.take _samplesPerRead.toNat).length ≤ _samplesPerRead.toNat ∧
      (processAudioSending s).events = s.events ++ new ∧
      new.map Event.message =
        chunks.map (fun c => some (audioMessage (c.flatMap sampleBytes))) ∧
      (∀ c ∈ chunks, (audioMessage (c.flatMap sampleBytes)).drop 8 = c.flatMap sampleBytes) ∧
      chunks.flatten ++ stagedSamples (processAudioSending s) =
        stagedSamples s ++ (s.mic.take _samplesPerRead.toNat).filter keptSample ∧
      (∀ v ∈ (s.mic.take _samplesPerRead.toNat).filter keptSample, v ≠ 0 ∧ v ≠ -1 ∧ v ≠ 1) := by
  have hl : live s = true := by simp [live, hws, hclient]
  have key : ∀ s1 : ArduinoASRChat, live s1 = true → s1._sendBufferPos = s._sendBufferPos →
      s1.mic = s.mic → s1.events = s.events → stagedSamples s1 = stagedSamples s →
      ∃ (chunks : List (List Int)) (new : List Event),
        (readSamples _samplesPerRead.toNat s1).mic = s.mic.drop _samplesPerRead.toNat ∧
        (readSamples _samplesPerRead.toNat s1).events = s.events ++ new ∧
        new.map Event.message =
          chunks.map (fun c => some (audioMessage (c.flatMap sampleBytes))) ∧
        chunks.flatten ++ stagedSamples (readSamples _samplesPerRead.toNat s1) =
          stagedSamples s ++ (s.mic.take _samplesPerRead.toNat).filter keptSample := by
    intro s1 l1 p1 m1 e1 g1
    have := readSamples_spec _samplesPerRead.toNat s1 l1 (by rw [p1]; exact h0)
      (by rw [p1]; exact h1) (by rw [m1]; exact hr)
    rw [m1, e1, g1] at this
    exact this
  have hk : ∃ (chunks : List (List Int)) (new : List Event),
      (processAudioSending s).mic = s.mic.drop _samplesPerRead.toNat ∧
      (processAudioSending s).events = s.events ++ new ∧
      new.map Event.message =
        chunks.map (fun c => some (audioMessage (c.flatMap sampleBytes))) ∧
      chunks.flatten ++ stagedSamples (processAudioSending s) =
        stagedSamples s ++ (s.mic.take _samplesPerRead.toNat).filter keptSample := by
    unfold processAudioSending
    dsimp only
    split
    · exact key _ hl rfl rfl rfl rfl
    · exact key _ hl rfl rfl rfl rfl
  obtain ⟨chunks, new, a, b, c, d⟩ := hk
  refine ⟨chunks, new, ?_, List.length_take_le _ _, b, c, ?_, d, ?_⟩
  · rw [a, List.take_append_drop]
  · intro c _
    simp [audioMessage, lenBytes]
  · intro v hv
    exact (keptSample_iff v).1 (List.mem_filter.1 hv).2

/-- Instance of the forwarding property: six values at the microphone, three of them invalid. -/
theorem processAudioSending_forwards_witness :
    ∃ (chunks : List (List Int)) (new : List Event),
      demoListening.mic =
        demoListening.mic.take _samplesPerRead.toNat ++ (processAudioSending demoListening).mic ∧
      (demoListening.mic.take _samplesPerRead.toNat).length ≤ _samplesPerRead.toNat ∧
      (processAudioSending demoListening).events = demoListening.events ++ new ∧
      new.map Event.message =
        chunks.map (fun c => some (audioMessage (c.flatMap sampleBytes))) ∧
      (∀ c ∈ chunks, (audioMessage (c.flatMap sampleBytes)).drop 8 = c.flatMap sampleBytes) ∧
      chunks.flatten ++ stagedSamples (processAudioSending demoListening) =
        stagedSamples demoListening ++
          (demoListening.mic.take _samplesPerRead.toNat).filter keptSample ∧
      (∀ v ∈ (demoListening.mic.take _samplesPerRead.toNat).filter keptSample,
        v ≠ 0 ∧ v ≠ -1 ∧ v ≠ 1) :=
  processAudioSending_forwards demoListening rfl rfl (by decide) (by decide) (by decide)

/-! ### Starting and stopping, once more -/

/-- C16: `startRecording` called on a controller that is not connected and has no end marker
pending, or, in a reachable state, while a recording is in progress, returns false and leaves the
whole state as it was: nothing is transmitted and no statistic or cursor is reset. -/
theorem startRecording_refused (lib : Libraries) (net : ConnectOutcome) (s : ArduinoASRChat)
    (h : (s._wsConnected = false ∧ s._endMarkerSent = false) ∨
      (Reachable lib s ∧ s._isRecording = true)) :
    startRecording lib net s = (false, s) := by
  rcases h with ⟨h1, h2⟩ | ⟨h1, h2⟩
  · simp [startRecording, beginSession, h1, h2]
  · have he : s._endMarkerSent = false := (reachable_wellFormed lib s h1).2.2.2.1 h2
    cases hw : s._wsConnected <;> simp [startRecording, beginSession, he, h2, hw]

/-- Instances of the refusal: the constructed controller, and a recording in progress. -/
theorem startRecording_refused_witness :
    startRecording demoLibraries .timeout demoBoot = (false, demoBoot) ∧
    (demoStarted._isRecording = true ∧
      startRecording demoLibraries .timeout demoStarted = (false, demoStarted)) :=
  ⟨startRecording_refused demoLibraries .timeout demoBoot (Or.inl ⟨rfl, rfl⟩),
    by decide,
    startRecording_refused demoLibraries .timeout demoStarted
      (Or.inr ⟨demoStarted_reachable, by decide⟩)⟩

theorem timeoutCallCount_append (a b : List Event) :
    timeoutCallCount (a ++ b) = timeoutCallCount a + timeoutCallCount b := by
  simp [timeoutCallCount]

theorem timeoutCallCount_frameAt (s : ArduinoASRChat) (n : Nat) (data : List Nat)
    (opcode : Nat) : timeoutCallCount (frameAt s n data opcode) = 0 := by
  unfold frameAt
  split <;> simp [timeoutCallCount, Event.isTimeoutCallback]

theorem timeoutCallCount_stopEvents (s : ArduinoASRChat) : timeoutCallCount (stopEvents s) = 0 := by
  have e1 : timeoutCallCount (flushEvents s) = 0 := by
    unfold flushEvents
    split
    · exact timeoutCallCount_frameAt _ _ _ _
    · rfl
  unfold stopEvents
  simp only [timeoutCallCount_append, timeoutCallCount_frameAt, e1]
  split <;> rfl

theorem sendUpgradeRequest_fields (lib : Libraries) (s : ArduinoASRChat) :
    (sendUpgradeRequest lib s).clientConnected = true ∧
    (sendUpgradeRequest lib s)._wsConnected = s._wsConnected := by
  simp [sendUpgradeRequest, emit, generateWebSocketKey, randomBytes_snd]

/-- What a `connectWebSocket` that returns true leaves. -/
theorem connectWebSocket_success (lib : Libraries) (net : ConnectOutcome) (s : ArduinoASRChat)
    (h : (connectWebSocket lib net s).1 = true) :
    (∃ request, (connectWebSocket lib net s).2.events = s.events ++ [.connect, .print request]) ∧
    (connectWebSocket lib net s).2._wsConnected = true ∧
    (connectWebSocket lib net s).2.clientConnected = true ∧
    (connectWebSocket lib net s).2._isRecording = s._isRecording := by
  obtain ⟨request, h1, h2⟩ := sendUpgradeRequest_events lib s
  obtain ⟨h3, -⟩ := sendUpgradeRequest_fields lib s
  unfold connectWebSocket at h ⊢
  cases net with
  | sslFailed => simp at h
  | timeout => simp at h
  | response text =>
    dsimp only at h ⊢
    split
    · exact ⟨⟨request, h1⟩, rfl, h3, h2⟩
    · rename_i hn
      rw [if_neg hn] at h
      simp at h

/-- C17: in a reachable state with `_endMarkerSent` set, `startRecording` first disconnects (one
`stop` of the client when `_wsConnected` was set) and then runs `connectWebSocket`, neither of
which transmits a frame.  When the connection succeeds, the record of the connection is the
connect and the upgrade request, `startRecording` returns true, the only thing added after the
connection is the config message, `_endMarkerSent` is false and the session is recording.  When
it fails, `startRecording` returns false, nothing is added after the connection attempt (so no
config message) and the session is not recording. -/
theorem session_reuse (lib : Libraries) (net : ConnectOutcome) (s : ArduinoASRChat)
    (hreach : Reachable lib s) (hend : s._endMarkerSent = true) :
    ∃ pre, (connectWebSocket lib net (delay 100 (disconnectWebSocket s))).2.events =
        s.events ++ (if s._wsConnected = true then [Event.stop] else []) ++ pre ∧
      (∀ e ∈ pre, e.message = none) ∧
      ((connectWebSocket lib net (delay 100 (disconnectWebSocket s))).1 = true →
        (∃ request, pre = [.connect, .print request]) ∧
        (startRecording lib net s).1 = true ∧
        (∃ frame, (startRecording lib net s).2.events =
            (connectWebSocket lib net (delay 100 (disconnectWebSocket s))).2.events ++ [frame] ∧
          frame.isConfigMessage = true) ∧
        (startRecording lib net s).2._endMarkerSent = false ∧
        (startRecording lib net s).2.isRecording = true) ∧
      ((connectWebSocket lib net (delay 100 (disconnectWebSocket s))).1 = false →
        (startRecording lib net s).1 = false ∧
        (startRecording lib net s).2.events =
          s.events ++ (if s._wsConnected = true then [Event.stop] else []) ++ pre ∧
        (startRecording lib net s).2.isRecording = false) := by
  have hidle : s._isRecording = false := by
    have := (reachable_wellFormed lib s hreach).2.2.2.1
    cases hr : s._isRecording
    · rfl
    · rw [this hr] at hend
      cases hend
  have hd : (delay 100 (disconnectWebSocket s)).events =
      s.events ++ (if s._wsConnected = true then [Event.stop] else []) := by
    by_cases hw : s._wsConnected = true <;> simp [delay, disconnectWebSocket, hw, clientStop, emit]
  have hdr : (delay 100 (disconnectWebSocket s))._isRecording = false := by
    by_cases hw : s._wsConnected = true <;>
      simp [delay, disconnectWebSocket, hw, clientStop, emit, hidle]
  obtain ⟨pre, e1, p1, r1⟩ := connectWebSocket_events lib net (delay 100 (disconnectWebSocket s))
  rw [hd] at e1
  rw [hdr] at r1
  refine ⟨pre, e1, p1, ?_, ?_⟩
  · intro hc
    obtain ⟨⟨request, e2⟩, w2, c2, -⟩ := connectWebSocket_success lib net _ hc
    rw [hd] at e2
    have hpre : pre = [.connect, .print request] := by
      have := e1.symm.trans e2
      exact List.append_cancel_left this
    have hstart : startRecording lib net s = beginSession lib
        { (connectWebSocket lib net (delay 100 (disconnectWebSocket s))).2 with
          _endMarkerSent := false } := by
      unfold startRecording
      rw [if_pos hend]
      simp [hc]
    generalize hx : ({ (connectWebSocket lib net (delay 100 (disconnectWebSocket s))).2 with
      _endMarkerSent := false } : ArduinoASRChat) = x at hstart
    have wx : x._wsConnected = true := by rw [← hx]; exact w2
    have cx : x.clientConnected = true := by rw [← hx]; exact c2
    have rx : x._isRecording = false := by rw [← hx]; exact r1
    have ex : x.events =
        (connectWebSocket lib net (delay 100 (disconnectWebSocket s))).2.events := by
      rw [← hx]
    have mx : x._endMarkerSent = false := by rw [← hx]
    have hl : live x = true := by simp [live, wx, cx]
    rw [hstart, beginSession_eq lib x wx rx]
    refine ⟨⟨request, hpre⟩, rfl,
      ⟨.sent (wsFrameHeader x.overShift (configMessage lib x).length 0x02 ++
        maskKeyAt x (x.randCalls + 1)) (maskData (maskKeyAt x (x.randCalls + 1))
        (configMessage lib x)), ?_, ?_⟩, mx, rfl⟩
    · simp only [frameAt, hl, if_true, ex]
    · rw [isConfigMessage_sent _ _ _ (maskKeyAt_length _ _)]
      have h16 : (configMessage lib x).getD 1 0 = 16 := rfl
      rw [h16]
      decide
  · intro hc
    have hstart : startRecording lib net s =
        (false, (connectWebSocket lib net (delay 100 (disconnectWebSocket s))).2) := by
      unfold startRecording
      rw [if_pos hend]
      simp [hc]
    rw [hstart]
    exact ⟨rfl, e1, r1⟩

theorem demoFinished_reachable : Reachable demoLibraries demoFinished :=
  reachable_run demoLibraries demoFinishedOps demoBoot (Reachable.init _ _ _ _ _ _)

/-- Instance of the session reuse: a new start after a finished session, with a server that
accepts the upgrade. -/
theorem session_reuse_witness :
    demoFinished._endMarkerSent = true ∧
    ∃ pre, (connectWebSocket demoLibraries demoAccept
          (delay 100 (disconnectWebSocket demoFinished))).2.events =
        demoFinished.events ++ (if demoFinished._wsConnected = true then [Event.stop] else []) ++
          pre ∧
      (∀ e ∈ pre, e.message = none) ∧
      ((connectWebSocket demoLibraries demoAccept
          (delay 100 (disconnectWebSocket demoFinished))).1 = true →
        (∃ request, pre = [.connect, .print request]) ∧
        (startRecording demoLibraries demoAccept demoFinished).1 = true ∧
        (∃ frame, (startRecording demoLibraries demoAccept demoFinished).2.events =
            (connectWebSocket demoLibraries demoAccept
              (delay 100 (disconnectWebSocket demoFinished))).2.events ++ [frame] ∧
          frame.isConfigMessage = true) ∧
        (startRecording demoLibraries demoAccept demoFinished).2._endMarkerSent = false ∧
        (startRecording demoLibraries demoAccept demoFinished).2.isRecording = true) ∧
      ((connectWebSocket demoLibraries demoAccept
          (delay 100 (disconnectWebSocket demoFinished))).1 = false →
        (startRecording demoLibraries demoAccept demoFinished).1 = false ∧
        (startRecording demoLibraries demoAccept demoFinished).2.events =
          demoFinished.events ++
            (if demoFinished._wsConnected = true then [Event.stop] else []) ++ pre ∧
        (startRecording demoLibraries demoAccept demoFinished).2.isRecording = false) :=
  ⟨by decide, session_reuse demoLibraries demoAccept demoFinished demoFinished_reachable
    (by decide)⟩

theorem connectWebSocket_clock (lib : Libraries) (net : ConnectOutcome) (s : ArduinoASRChat) :
    (connectWebSocket lib net s).2.clock = s.clock := by
  unfold connectWebSocket
  cases net with
  | sslFailed => rfl
  | timeout => simp [clientStop, emit, sendUpgradeRequest, generateWebSocketKey, randomBytes_snd]
  | response text =>
    dsimp only
    split <;> simp [clientStop, emit, sendUpgradeRequest, generateWebSocketKey, randomBytes_snd]

theorem disconnectWebSocket_clock (s : ArduinoASRChat) :
    (disconnectWebSocket s).clock = s.clock := by
  unfold disconnectWebSocket
  split <;> rfl

/-- C18, as the claim states it, fails: `startRecording` called at clock value 600 after a
finished session reconnects, returns true, and leaves 700 in `_recordingStartTime`, the clock
value after the delay of 100 ms that precedes the reconnection. -/
theorem start_time_after_reconnect :
    demoAfterSession._endMarkerSent = true ∧ millis demoAfterSession = 600 ∧
    (startRecording demoLibraries demoAccept demoAfterSession).1 = true ∧
    (startRecording demoLibraries demoAccept demoAfterSession).2._recordingStartTime = 700 := by
  decide

/-- C18, amended: after a `startRecording` that returns true, whatever the state before, there
is no speech, no speech time, no result text, a count of 0, a cursor of 0, no new result and no
recognized text; `_recordingStartTime` is the clock value at the call when no end marker was
pending, and that value plus the 100 ms of the delay before the reconnection when one was; the
session is recording. -/
theorem startRecording_zeroes (lib : Libraries) (net : ConnectOutcome) (s : ArduinoASRChat)
    (h : (startRecording lib net s).1 = true) :
    (startRecording lib net s).2._hasSpeech = false ∧
    (startRecording lib net s).2._lastSpeechTime = 0 ∧
    (startRecording lib net s).2._lastResultText = "" ∧
    (startRecording lib net s).2._sameResultCount = 0 ∧
    (startRecording lib net s).2._sendBufferPos = 0 ∧
    (startRecording lib net s).2.hasNewResult = false ∧
    (startRecording lib net s).2.getRecognizedText = "" ∧
    (startRecording lib net s).2._recordingStartTime =
      (if s._endMarkerSent = true then (s.clock + 100) % 2 ^ 32 else s.clock) ∧
    (startRecording lib net s).2.isRecording = true := by
  have hq : ∃ x : ArduinoASRChat, startRecording lib net s = beginSession lib x ∧
      x._wsConnected = true ∧ x._isRecording = false ∧
      x.clock = (if s._endMarkerSent = true then (s.clock + 100) % 2 ^ 32 else s.clock) := by
    unfold startRecording at h ⊢
    by_cases he : s._endMarkerSent = true
    · rw [if_pos he] at h ⊢
      by_cases hc : (connectWebSocket lib net (delay 100 (disconnectWebSocket s))).1 = true
      · have hn : ¬ ((!(connectWebSocket lib net (delay 100 (disconnectWebSocket s))).1) =
            true) := by
          simp [hc]
        rw [if_neg hn] at h ⊢
        obtain ⟨a, b⟩ := beginSession_true lib _ h
        refine ⟨_, rfl, a, b, ?_⟩
        rw [if_pos he]
        show (connectWebSocket lib net (delay 100 (disconnectWebSocket s))).2.clock = _
        rw [connectWebSocket_clock]
        simp [delay, disconnectWebSocket_clock]
      · have hn : (!(connectWebSocket lib net (delay 100 (disconnectWebSocket s))).1) =
            true := by
          simpa using hc
        rw [if_pos hn] at h
        simp at h
    · rw [if_neg he] at h ⊢
      obtain ⟨a, b⟩ := beginSession_true lib _ h
      exact ⟨s, rfl, a, b, by rw [if_neg he]⟩
  obtain ⟨x, hx, h1, h2, h3⟩ := hq
  rw [hx, beginSession_eq lib x h1 h2]
  exact ⟨rfl, rfl, rfl, rfl, rfl, rfl, rfl, h3, rfl⟩

/-- Instance of the reset: a start after a finished session that had recognized "hi". -/
theorem startRecording_zeroes_witness :
    demoAfterSession.getRecognizedText = "hi" ∧
    (startRecording demoLibraries demoAccept demoAfterSession).2._hasSpeech = false ∧
    (startRecording demoLibraries demoAccept demoAfterSession).2._lastSpeechTime = 0 ∧
    (startRecording demoLibraries demoAccept demoAfterSession).2._lastResultText = "" ∧
    (startRecording demoLibraries demoAccept demoAfterSession).2._sameResultCount = 0 ∧
    (startRecording demoLibraries demoAccept demoAfterSession).2._sendBufferPos = 0 ∧
    (startRecording demoLibraries demoAccept demoAfterSession).2.hasNewResult = false ∧
    (startRecording demoLibraries demoAccept demoAfterSession).2.getRecognizedText = "" ∧
    (startRecording demoLibraries demoAccept demoAfterSession).2._recordingStartTime =
      (if demoAfterSession._endMarkerSent = true then (demoAfterSession.clock + 100) % 2 ^ 32
        else demoAfterSession.clock) ∧
    (startRecording demoLibraries demoAccept demoAfterSession).2.isRecording = true :=
  ⟨by decide, startRecording_zeroes demoLibraries demoAccept demoAfterSession (by decide)⟩

theorem transmissions_append (a b : List Event) :
    transmissions (a ++ b) = transmissions a ++ transmissions b := by
  simp [transmissions]

theorem transmissions_frameAt (s : ArduinoASRChat) (n : Nat) (data : List Nat) (opcode : Nat) :
    transmissions (frameAt s n data opcode) = frameAt s n data opcode := by
  unfold frameAt
  split <;> simp [transmissions, Event.isTransmission]

theorem wsFrameHeader_head (overShift : Nat → Nat → Nat) (len opcode : Nat) (rest : List Nat) :
    (wsFrameHeader overShift len opcode ++ rest).getD 0 0 = (0x80 ||| opcode) % 256 := by
  unfold wsFrameHeader
  split
  · rfl
  · split <;> rfl

theorem opcode_frameAt (s : ArduinoASRChat) (n : Nat) (data : List Nat)
    (hl : live s = true) :
    (frameAt s n data 0x02).map Event.opcode = [some 2] := by
  simp only [frameAt, hl, if_true, List.map_cons, List.map_nil, Event.opcode,
    wsFrameHeader_head]
  rfl

theorem sampleBytes_flatMap_length (l : List Int) :
    (l.flatMap sampleBytes).length = 2 * l.length := by
  induction l with
  | nil => rfl
  | cons a l ih =>
    simp only [List.flatMap_cons, List.length_append, ih, List.length_cons]
    simp [sampleBytes]
    omega

/-- C19: in a recording state with a cursor `p ≥ 0` and a live connection, the transmissions of
`stopRecording` are, in this order: when `p > 0` one audio chunk whose payload is the bytes of
the `p` staged samples (two bytes each), no audio chunk when `p = 0`, and then the end marker,
whose message is `0x11 0x22 0x10 0x00 0x00 0x00 0x00 0x00`; all are binary frames.  Afterwards
the cursor is 0, the session is not recording and `_endMarkerSent` is set. -/
theorem stopRecording_transmits (s : ArduinoASRChat) (hrec : s._isRecording = true)
    (hws : s._wsConnected = true) (hclient : s.clientConnected = true)
    (hpos : 0 ≤ s._sendBufferPos) :
    (∃ new, (stopRecording s).events = s.events ++ new ∧
      (transmissions new).map Event.message =
        (if s._sendBufferPos > 0 then [some (audioMessage (stagedBytes s))] else []) ++
          [some endMarkerMessage] ∧
      (transmissions new).map Event.opcode =
        (if s._sendBufferPos > 0 then [some 2] else []) ++ [some 2]) ∧
    (audioMessage (stagedBytes s)).drop 8 = (stagedSamples s).flatMap sampleBytes ∧
    ((stagedSamples s).length : Int) = s._sendBufferPos ∧
    ((stagedSamples s).flatMap sampleBytes).length = 2 * (stagedSamples s).length ∧
    endMarkerMessage = [0x11, 0x22, 0x10, 0x00, 0x00, 0x00, 0x00, 0x00] ∧
    (stopRecording s)._sendBufferPos = 0 ∧ (stopRecording s).isRecording = false ∧
    (stopRecording s)._endMarkerSent = true := by
  have hl : live s = true := by simp [live, hws, hclient]
  rw [stopRecording_eq s hrec]
  refine ⟨⟨stopEvents s, rfl, ?_, ?_⟩, ?_, ?_, sampleBytes_flatMap_length _, by decide, ?_,
    rfl, rfl⟩
  · unfold stopEvents flushEvents
    simp only [transmissions_append, transmissions_frameAt, List.map_append]
    rw [message_frameAt _ _ _ _ hl]
    have e : ∀ t : String, transmissions (if s._resultCallback = true ∧ t.length > 0 then
        [Event.resultCallback t] else []) = [] := by
      intro t
      split <;> rfl
    rw [e]
    split
    · rw [transmissions_frameAt, message_frameAt _ _ _ _ hl]
      simp
    · simp [transmissions]
  · unfold stopEvents flushEvents
    simp only [transmissions_append, transmissions_frameAt, List.map_append]
    rw [opcode_frameAt _ _ _ hl]
    have e : ∀ t : String, transmissions (if s._resultCallback = true ∧ t.length > 0 then
        [Event.resultCallback t] else []) = [] := by
      intro t
      split <;> rfl
    rw [e]
    split
    · rw [transmissions_frameAt, opcode_frameAt _ _ _ hl]
      simp
    · simp [transmissions]
  · rw [← stagedBytes_flatMap]
    simp [audioMessage, lenBytes]
  · simp only [stagedSamples, List.length_map, List.length_range]
    exact Int.toNat_of_nonneg hpos
  · simp only
    split
    · rfl
    · omega

/-- Instance of the stop: a recording with two staged samples. -/
theorem stopRecording_transmits_witness :
    (∃ new, (stopRecording demoStaged).events = demoStaged.events ++ new ∧
      (transmissions new).map Event.message =
        (if demoStaged._sendBufferPos > 0 then [some (audioMessage (stagedBytes demoStaged))]
          else []) ++ [some endMarkerMessage] ∧
      (transmissions new).map Event.opcode =
        (if demoStaged._sendBufferPos > 0 then [some 2] else []) ++ [some 2]) ∧
    (audioMessage (stagedBytes demoStaged)).drop 8 =
      (stagedSamples demoStaged).flatMap sampleBytes ∧
    ((stagedSamples demoStaged).length : Int) = demoStaged._sendBufferPos ∧
    ((stagedSamples demoStaged).flatMap sampleBytes).length =
      2 * (stagedSamples demoStaged).length ∧
    endMarkerMessage = [0x11, 0x22, 0x10, 0x00, 0x00, 0x00, 0x00, 0x00] ∧
    (stopRecording demoStaged)._sendBufferPos = 0 ∧
    (stopRecording demoStaged).isRecording = false ∧
    (stopRecording demoStaged)._endMarkerSent = true :=
  stopRecording_transmits demoStaged rfl rfl rfl (by decide)

/-! ### The ends of an utterance -/

/-- C11, as the claim states it, fails: with 50000 ms elapsed and a maximum of 50 seconds the
condition of the claim holds with equality, and `checkRecordingTimeout` leaves the session
recording. -/
theorem max_duration_boundary_continues :
    demoAtMaxDuration._isRecording = true ∧
    subU32 (millis demoAtMaxDuration) demoAtMaxDuration._recordingStartTime = 50000 ∧
    toU32 (demoAtMaxDuration._maxSeconds * 1000) = 50000 ∧
    (checkRecordingTimeout demoAtMaxDuration)._isRecording = true := by
  refine ⟨rfl, by decide, by decide, by decide⟩

/-- C11, amended: in a recording state `checkRecordingTimeout` invokes `stopRecording` if and
only if the clock minus `_recordingStartTime` is strictly greater than `_maxSeconds * 1000`;
when it is equal or smaller the state is left as it is. -/
theorem max_duration_exit (s : ArduinoASRChat) (hrec : s._isRecording = true) :
    (subU32 (millis s) s._recordingStartTime > toU32 (s._maxSeconds * 1000) →
      (checkRecordingTimeout s)._isRecording = false ∧
      (checkRecordingTimeout s = stopRecording s ∨
        checkRecordingTimeout s = emit .timeoutNoSpeechCallback (stopRecording s))) ∧
    (subU32 (millis s) s._recordingStartTime ≤ toU32 (s._maxSeconds * 1000) →
      checkRecordingTimeout s = s) := by
  constructor
  · intro h
    unfold checkRecordingTimeout
    rw [if_pos h]
    split
    · exact ⟨by rw [stopRecording_eq s hrec]; rfl, Or.inr rfl⟩
    · exact ⟨by rw [stopRecording_eq s hrec], Or.inl rfl⟩
  · intro h
    unfold checkRecordingTimeout
    rw [if_neg (by omega)]

/-- Instance of the amended claim: the state at the boundary. -/
theorem max_duration_exit_witness :
    demoAtMaxDuration._isRecording = true ∧
    ((subU32 (millis demoAtMaxDuration) demoAtMaxDuration._recordingStartTime >
        toU32 (demoAtMaxDuration._maxSeconds * 1000) →
      (checkRecordingTimeout demoAtMaxDuration)._isRecording = false ∧
      (checkRecordingTimeout demoAtMaxDuration = stopRecording demoAtMaxDuration ∨
        checkRecordingTimeout demoAtMaxDuration =
          emit .timeoutNoSpeechCallback (stopRecording demoAtMaxDuration))) ∧
    (subU32 (millis demoAtMaxDuration) demoAtMaxDuration._recordingStartTime ≤
        toU32 (demoAtMaxDuration._maxSeconds * 1000) →
      checkRecordingTimeout demoAtMaxDuration = demoAtMaxDuration)) :=
  ⟨rfl, max_duration_exit demoAtMaxDuration rfl⟩

/-- C12, at the failing input: a result "ok" is handled by `loop` at the moment the 32-bit clock
reads 0, and `loop` runs again five seconds later.  There is speech, the silence lasts 5000 ms
with a timeout of 1000 ms, and the session is still recording; `checkSilence` leaves the state
as it is at every clock value, because `_lastSpeechTime` is 0. -/
theorem silence_at_clock_zero_never_stops :
    demoWrapped._isRecording = true ∧ demoWrapped._hasSpeech = true ∧
    demoWrapped._lastResultText = "ok" ∧ demoWrapped._lastSpeechTime = 0 ∧
    subU32 (millis demoWrapped) demoWrapped._lastSpeechTime = 5000 ∧
    demoWrapped._silenceDuration = 1000 ∧
    (checkSilence demoWrapped)._isRecording = true ∧
    (∀ now : Nat, checkSilence { demoWrapped with clock := now } =
      { demoWrapped with clock := now }) := by
  have h0 : demoWrapped._lastSpeechTime = 0 := by decide
  refine ⟨by decide, by decide, by decide, h0, by decide, by decide, by decide, ?_⟩
  intro now
  simp [checkSilence, h0]

/-- What `checkSilence` does in a recording state: it invokes `stopRecording` if and only if
there is speech, `_lastSpeechTime` is not 0 and the clock minus `_lastSpeechTime` is at least
`_silenceDuration`.  So after a single result `T` handled at a clock value `t0` that is not 0,
with no result text before, the recording goes on while the clock minus `t0` is below the
timeout and stops with recognized text `T` as soon as it is not. -/
theorem silence_exit (lib : Libraries) (s : ArduinoASRChat) (hrec : s._isRecording = true) :
    ((s._hasSpeech = true ∧ s._lastSpeechTime > 0 ∧
        subU32 (millis s) s._lastSpeechTime ≥ s._silenceDuration) →
      checkSilence s = stopRecording s ∧ (checkSilence s)._isRecording = false) ∧
    (¬ (s._hasSpeech = true ∧ s._lastSpeechTime > 0 ∧
        subU32 (millis s) s._lastSpeechTime ≥ s._silenceDuration) →
      checkSilence s = s) ∧
    (∀ (T : String) (data : List Nat) (t0 now : Nat), s._lastResultText = "" →
      T ≠ "" → T ≠ " " → IsFullResponseWithText lib T data → 0 < t0 % 2 ^ 32 →
      (subU32 now (t0 % 2 ^ 32) < s._silenceDuration →
        checkSilence { parseResponse lib data { s with clock := t0 % 2 ^ 32 } with clock := now } =
          { parseResponse lib data { s with clock := t0 % 2 ^ 32 } with clock := now }) ∧
      (subU32 now (t0 % 2 ^ 32) ≥ s._silenceDuration →
        (checkSilence { parseResponse lib data { s with clock := t0 % 2 ^ 32 } with
            clock := now })._isRecording = false ∧
        (checkSilence { parseResponse lib data { s with clock := t0 % 2 ^ 32 } with
            clock := now }).getRecognizedText = T)) := by
  refine ⟨?_, ?_, ?_⟩
  · intro ⟨h1, h2, h3⟩
    have e : checkSilence s = stopRecording s := by
      unfold checkSilence
      rw [if_pos ⟨h1, h2⟩, if_pos h3]
    exact ⟨e, by rw [e, stopRecording_eq s hrec]⟩
  · intro h
    unfold checkSilence
    by_cases h12 : s._hasSpeech = true ∧ s._lastSpeechTime > 0
    · rw [if_pos h12, if_neg (fun h3 => h ⟨h12.1, h12.2, h3⟩)]
    · rw [if_neg h12]
  · intro T data t0 now hempty hT hT' hmsg ht0
    obtain ⟨doc, hd⟩ := parseResponse_text lib T data { s with clock := t0 % 2 ^ 32 } hmsg
    rw [hd, updateResult_new T _ hT hT' (by simpa [reportCode_eq, hempty] using hT)]
    constructor
    · intro hlt
      unfold checkSilence
      simp only [reportCode_eq, millis, true_and]
      rw [if_pos ht0, if_neg (by omega)]
    · intro hge
      unfold checkSilence
      simp only [reportCode_eq, millis, true_and]
      rw [if_pos ht0, if_pos hge, stopRecording_eq _ (by simpa using hrec)]
      exact ⟨rfl, rfl⟩

/-- Instance of the silence exit: the recording with text "hi" heard at 500 ms, looked at when
the clock reads 1500 with a timeout of 1000 ms. -/
theorem silence_exit_witness :
    ({ demoRecording with clock := 1500 } : ArduinoASRChat)._isRecording = true ∧
    subU32 1500 demoRecording._lastSpeechTime = 1000 ∧
    checkSilence { demoRecording with clock := 1500 } =
      stopRecording { demoRecording with clock := 1500 } ∧
    (checkSilence { demoRecording with clock := 1500 })._isRecording = false :=
  ⟨rfl, by decide, (silence_exit demoLibraries { demoRecording with clock := 1500 } rfl).1
    ⟨by decide, by decide, by decide⟩⟩

/-- C13: let the max-duration condition hold in a reachable recording state.  Without speech
and with a NoSpeechTimeout callback registered, what `checkRecordingTimeout` adds to the record is
what `stopRecording` adds, followed by one invocation of that callback: `stopRecording` has
completed before (the session is not recording, and on a live connection its end marker is among
what it added), it invoked neither callback.  With speech the NoSpeechTimeout callback is not
invoked. -/
theorem no_speech_timeout_callback (lib : Libraries) (s : ArduinoASRChat)
    (hreach : Reachable lib s) (hrec : s._isRecording = true)
    (hfire : subU32 (millis s) s._recordingStartTime > toU32 (s._maxSeconds * 1000)) :
    (s._hasSpeech = false → s._timeoutNoSpeechCallback = true →
      ∃ pre, (checkRecordingTimeout s).events = s.events ++ pre ++ [.timeoutNoSpeechCallback] ∧
        (stopRecording s).events = s.events ++ pre ∧ (stopRecording s).isRecording = false ∧
        timeoutCallCount pre = 0 ∧ resultCalls pre = [] ∧
        (s._wsConnected = true → s.clientConnected = true → endMarkerCount pre = 1)) ∧
    (s._hasSpeech = true →
      ∃ new, (checkRecordingTimeout s).events = s.events ++ new ∧ timeoutCallCount new = 0) := by
  have hstop := stopRecording_eq s hrec
  constructor
  · intro hs hcb
    have htext : s._lastResultText = "" := ((reachable_wellFormed lib s hreach).2.2.2.2.1 hs).1
    refine ⟨stopEvents s, ?_, by rw [hstop], by rw [hstop]; rfl, timeoutCallCount_stopEvents s,
      ?_, ?_⟩
    · unfold checkRecordingTimeout
      rw [if_pos hfire, if_pos ⟨by simp [hs], hcb⟩, hstop]
      rfl
    · rw [resultCalls_stopEvents]
      simp [htext]
    · intro h1 h2
      rw [(stopEvents_counts s).2]
      simp [live, h1, h2]
  · intro hs
    refine ⟨stopEvents s, ?_, timeoutCallCount_stopEvents s⟩
    unfold checkRecordingTimeout
    rw [if_pos hfire, if_neg (by simp [hs]), hstop]

theorem demoSilent_reachable : Reachable demoLibraries demoSilent :=
  reachable_run demoLibraries demoSilentOps demoBoot (Reachable.init _ _ _ _ _ _)

/-- Instance of the no-speech timeout: sixty seconds after a start, nothing recognized. -/
theorem no_speech_timeout_callback_witness :
    (demoSilent._hasSpeech = false → demoSilent._timeoutNoSpeechCallback = true →
      ∃ pre, (checkRecordingTimeout demoSilent).events =
          demoSilent.events ++ pre ++ [.timeoutNoSpeechCallback] ∧
        (stopRecording demoSilent).events = demoSilent.events ++ pre ∧
        (stopRecording demoSilent).isRecording = false ∧
        timeoutCallCount pre = 0 ∧ resultCalls pre = [] ∧
        (demoSilent._wsConnected = true → demoSilent.clientConnected = true →
          endMarkerCount pre = 1)) ∧
    (demoSilent._hasSpeech = true →
      ∃ new, (checkRecordingTimeout demoSilent).events = demoSilent.events ++ new ∧
        timeoutCallCount new = 0) :=
  no_speech_timeout_callback demoLibraries demoSilent demoSilent_reachable (by decide)
    (by decide)

/-! ### Loss of the connection -/

/-- When `loop` finds the client disconnected it clears `_wsConnected` and `_isRecording` and
does nothing else. -/
theorem loop_connection_lost (lib : Libraries) (s : ArduinoASRChat)
    (h1 : s._wsConnected = true) (h2 : s.clientConnected = false) :
    loop lib s = { s with _wsConnected := false, _isRecording := false } := by
  simp [loop, h1, h2]

/-- C20, at the failing input: a close frame with the status 1000 (bytes 0x88 0x02 0x03 0xE8)
clears `_wsConnected` but leaves `isRecording()` as it was; handled by `loop` in a recording
session, the session is disconnected and still recording. -/
theorem close_frame_keeps_recording (lib : Libraries) (s : ArduinoASRChat) :
    (handleWebSocketData lib { s with inbound := demoCloseFrame })._wsConnected = false ∧
    (handleWebSocketData lib { s with inbound := demoCloseFrame }).isRecording =
      s._isRecording ∧
    (demoRecording.isRecording = true ∧
      (loop demoLibraries { demoRecording with inbound := demoCloseFrame }).isWebSocketConnected =
        false ∧
      (loop demoLibraries { demoRecording with inbound := demoCloseFrame }).isRecording =
        true) := by
  have h : readFrameHeader demoCloseFrame = some (⟨true, 8, false, 2, [0, 0, 0, 0]⟩, [3, 232]) := by
    decide
  refine ⟨?_, ?_, by decide, by decide, by decide⟩
  · simp [handleWebSocketData, h, clientStop, emit]
  · simp [handleWebSocketData, h, clientStop, emit, isRecording]

/-! ### The application message of an audio chunk -/

theorem lenBytes_eq_bigEndian (len : Nat) : lenBytes len = bigEndian 4 len := by
  simp only [lenBytes, bigEndian, List.nil_append, List.cons_append, List.singleton_append]
  have e : (0xFF : Nat) = 2 ^ 8 - 1 := by norm_num
  rw [e]
  simp only [Nat.and_pow_two_sub_one_eq_mod, Nat.shiftRight_eq_div_pow]
  congr 1
  · omega
  · congr 1
    omega

theorem bigEndianValue_bigEndian (len : Nat) (h : len < 2 ^ 32) :
    bigEndianValue (bigEndian 4 len) = len := by
  simp only [bigEndian, bigEndianValue, List.nil_append, List.cons_append, List.singleton_append,
    List.foldl_cons, List.foldl_nil]
  omega

theorem bigEndian_length (k n : Nat) : (bigEndian k n).length = k := by
  induction k generalizing n with
  | zero => rfl
  | succ k ih => simp [bigEndian, ih]

/-- C21: for a payload of `len < 2^32` bytes, `sendAudioChunk` hands `sendWebSocketFrame` the
message `0x11 0x20 0x10 0x00`, four bytes, the payload: its length is `len + 8`, the big-endian
value of bytes 4..7 is `len`, and from byte 8 on it is the payload unchanged; on a live
connection that message is what the one frame added to the record carries, as a binary frame.
The staging buffer and its cursor are as before the send. -/
theorem sendAudioChunk_message (data : List Nat) (s : ArduinoASRChat)
    (hlen : data.length < 2 ^ 32) :
    sendAudioChunk data s =
      sendWebSocketFrame ([0x11, 0x20, 0x10, 0x00] ++ bigEndian 4 data.length ++ data) 0x02 s ∧
    ([0x11, 0x20, 0x10, 0x00] ++ bigEndian 4 data.length ++ data).length = data.length + 8 ∧
    bigEndianValue ((([0x11, 0x20, 0x10, 0x00] ++ bigEndian 4 data.length ++ data).drop 4).take 4) =
      data.length ∧
    ([0x11, 0x20, 0x10, 0x00] ++ bigEndian 4 data.length ++ data).drop 8 = data ∧
    (s._wsConnected = true → s.clientConnected = true →
      ∃ frame, (sendAudioChunk data s).events = s.events ++ [frame] ∧
        frame.message = some ([0x11, 0x20, 0x10, 0x00] ++ bigEndian 4 data.length ++ data) ∧
        frame.opcode = some 2) ∧
    (sendAudioChunk data s)._sendBuffer = s._sendBuffer ∧
    (sendAudioChunk data s)._sendBufferPos = s._sendBufferPos := by
  have hm : audioMessage data = [0x11, 0x20, 0x10, 0x00] ++ bigEndian 4 data.length ++ data := by
    rw [audioMessage, lenBytes_eq_bigEndian]
    rfl
  have hl := bigEndian_length 4 data.length
  refine ⟨?_, ?_, ?_, ?_, ?_, ?_, ?_⟩
  · rw [← hm]
    rfl
  · simp [hl]
    omega
  · have e : (([0x11, 0x20, 0x10, 0x00] ++ bigEndian 4 data.length ++ data).drop 4).take 4 =
        bigEndian 4 data.length := by
      simp [hl]
    rw [e, bigEndianValue_bigEndian _ hlen]
  · simp [hl]
  · intro h1 h2
    have hlive : live s = true := by simp [live, h1, h2]
    rw [sendAudioChunk_eq, hm.symm]
    refine ⟨Event.sent
      (wsFrameHeader s.overShift (audioMessage data).length 0x02 ++ maskKeyAt s s.randCalls)
      (maskData (maskKeyAt s s.randCalls) (audioMessage data)), ?_, ?_, ?_⟩
    · simp [frameAt, hlive]
    · exact message_sent _ _ _ (maskKeyAt_length s _)
    · have := opcode_frameAt s s.randCalls (audioMessage data) hlive
      simpa [frameAt, hlive] using this
  · rw [sendAudioChunk_eq]
  · rw [sendAudioChunk_eq]

/-- Instance of the message layout: a payload of three bytes on a connected controller. -/
theorem sendAudioChunk_message_witness :
    sendAudioChunk [1, 2, 3] demoIdle =
      sendWebSocketFrame
        ([0x11, 0x20, 0x10, 0x00] ++ bigEndian 4 [1, 2, 3].length ++ [1, 2, 3]) 0x02 demoIdle ∧
    ([0x11, 0x20, 0x10, 0x00] ++ bigEndian 4 [1, 2, 3].length ++ [1, 2, 3]).length =
      [1, 2, 3].length + 8 ∧
    bigEndianValue
        ((([0x11, 0x20, 0x10, 0x00] ++ bigEndian 4 [1, 2, 3].length ++ [1, 2, 3]).drop 4).take
          4) =
      [1, 2, 3].length ∧
    ([0x11, 0x20, 0x10, 0x00] ++ bigEndian 4 [1, 2, 3].length ++ [1, 2, 3]).drop 8 = [1, 2, 3] ∧
    (demoIdle._wsConnected = true → demoIdle.clientConnected = true →
      ∃ frame, (sendAudioChunk [1, 2, 3] demoIdle).events = demoIdle.events ++ [frame] ∧
        frame.message =
          some ([0x11, 0x20, 0x10, 0x00] ++ bigEndian 4 [1, 2, 3].length ++ [1, 2, 3]) ∧
        frame.opcode = some 2) ∧
    (sendAudioChunk [1, 2, 3] demoIdle)._sendBuffer = demoIdle._sendBuffer ∧
    (sendAudioChunk [1, 2, 3] demoIdle)._sendBufferPos = demoIdle._sendBufferPos :=
  sendAudioChunk_message [1, 2, 3] demoIdle (by decide)

/-! ### The JSON region of an inbound message -/

theorem responsePayload_of_header (data : List Nat) (hs ty : Nat)
    (hhs : data.getD 0 0 &&& 0x0f = hs) (hty : data.getD 1 0 >>> 4 = ty)
    (h4 : ¬ data.length < 4) (hh : ¬ data.length < hs * 4) :
    responsePayload data =
      (if ty = SERVER_FULL_RESPONSE ∧ data.length - hs * 4 > 4 then
        some ((data.drop (hs * 4)).drop 4)
      else if ty = SERVER_ACK ∧ data.length - hs * 4 ≥ 8 then some ((data.drop (hs * 4)).drop 8)
      else if ty = SERVER_ERROR_RESPONSE ∧ data.length - hs * 4 ≥ 8 then
        some ((data.drop (hs * 4)).drop 8)
      else some (data.drop (hs * 4))) := by
  unfold responsePayload
  rw [if_neg h4]
  simp only [hhs, hty]
  rw [if_neg hh]

theorem responsePayload_short (data : List Nat)
    (h : data.length < 4 ∨ data.length < (data.getD 0 0 &&& 0x0f) * 4) :
    responsePayload data = none := by
  unfold responsePayload
  by_cases h4 : data.length < 4
  · rw [if_pos h4]
  · rw [if_neg h4]
    dsimp only
    rw [if_pos (h.resolve_left h4)]

theorem responseRegion_of_header (data : List Nat) (hs ty : Nat)
    (hhs : data.getD 0 0 &&& 0x0f = hs) (hty : data.getD 1 0 >>> 4 = ty)
    (h4 : ¬ data.length < 4) (hh : ¬ data.length < hs * 4) :
    responseRegion data =
      (if ty = SERVER_FULL_RESPONSE ∧ subU32 data.length (hs * 4) > 4 then
        some (hs * 4 + 4, subU32 (subU32 data.length (hs * 4)) 4)
      else if ty = SERVER_ACK ∧ subU32 data.length (hs * 4) ≥ 8 then
        some (hs * 4 + 8, subU32 (subU32 data.length (hs * 4)) 8)
      else if ty = SERVER_ERROR_RESPONSE ∧ subU32 data.length (hs * 4) ≥ 8 then
        some (hs * 4 + 8, subU32 (subU32 data.length (hs * 4)) 8)
      else some (hs * 4, subU32 data.length (hs * 4))) := by
  unfold responseRegion
  rw [if_neg h4]
  simp only [hhs, hty]
  rw [if_neg hh]

theorem responseRegion_short (data : List Nat)
    (h : data.length < 4 ∨ data.length < (data.getD 0 0 &&& 0x0f) * 4) :
    responseRegion data = none := by
  unfold responseRegion
  by_cases h4 : data.length < 4
  · rw [if_pos h4]
  · rw [if_neg h4]
    dsimp only
    rw [if_pos (h.resolve_left h4)]

theorem subU32_exact (a b : Nat) (ha : a < 2 ^ 32) (hb : b ≤ a) : subU32 a b = a - b := by
  unfold subU32
  omega

/-- The region `responseRegion` computes, when the message is long enough for its header. -/
theorem responseRegion_long (data : List Nat) (hlen : data.length < 2 ^ 32)
    (h4 : ¬ data.length < 4) (hh : ¬ data.length < (data.getD 0 0 &&& 0x0f) * 4) :
    ∃ offset, offset ≤ data.length ∧
      responseRegion data = some (offset, data.length - offset) ∧
      responsePayload data = some (data.drop offset) := by
  generalize hhs : data.getD 0 0 &&& 0x0f = hs at hh
  generalize hty : data.getD 1 0 >>> 4 = ty
  rw [responseRegion_of_header data hs ty hhs hty h4 hh,
    responsePayload_of_header data hs ty hhs hty h4 hh,
    subU32_exact _ _ hlen (by omega)]
  by_cases c1 : ty = SERVER_FULL_RESPONSE ∧ data.length - hs * 4 > 4
  · rw [if_pos c1, if_pos c1, subU32_exact _ _ (by omega) (by omega), List.drop_drop]
    exact ⟨hs * 4 + 4, by omega, by congr 2, rfl⟩
  · rw [if_neg c1, if_neg c1]
    by_cases c2 : ty = SERVER_ACK ∧ data.length - hs * 4 ≥ 8
    · rw [if_pos c2, if_pos c2, subU32_exact _ _ (by omega) (by omega), List.drop_drop]
      exact ⟨hs * 4 + 8, by omega, by congr 2, rfl⟩
    · rw [if_neg c2, if_neg c2]
      by_cases c3 : ty = SERVER_ERROR_RESPONSE ∧ data.length - hs * 4 ≥ 8
      · rw [if_pos c3, if_pos c3, subU32_exact _ _ (by omega) (by omega), List.drop_drop]
        exact ⟨hs * 4 + 8, by omega, by congr 2, rfl⟩
      · rw [if_neg c3, if_neg c3]
        exact ⟨hs * 4, by omega, rfl, rfl⟩

/-- C22, as the claim states it, fails: of a SERVER_FULL_RESPONSE with a header of 4 bytes and
a payload of exactly 4 bytes the JSON parser is handed these 4 bytes, not the message without
its first 8 bytes (nothing); of a SERVER_ACK with a payload of 3 bytes it is handed the 3
bytes. -/
theorem full_response_short_payload_not_skipped :
    4 ≤ demoShortFullResponse.length ∧
    4 * (demoShortFullResponse.getD 0 0 &&& 0x0f) ≤ demoShortFullResponse.length ∧
    demoShortFullResponse.getD 0 0 &&& 0x0f = 1 ∧
    demoShortFullResponse.getD 1 0 >>> 4 = SERVER_FULL_RESPONSE ∧
    responsePayload demoShortFullResponse = some [0, 0, 0, 0] ∧
    demoShortFullResponse.drop (4 * 1 + 4) = [] ∧
    demoShortAck.getD 0 0 &&& 0x0f = 1 ∧ demoShortAck.getD 1 0 >>> 4 = SERVER_ACK ∧
    responsePayload demoShortAck = some [1, 2, 3] ∧ demoShortAck.drop (4 * 1 + 8) = [] := by
  decide

/-- C22, amended: for a message of at least 4 bytes and at least `4 * header_size` bytes, the
bytes handed to the JSON parser are the message without its first `4 * header_size + 4` bytes
when `msg_type` is SERVER_FULL_RESPONSE and more than 4 bytes follow the header, without its
first `4 * header_size + 8` bytes when `msg_type` is SERVER_ACK or SERVER_ERROR_RESPONSE and at
least 8 bytes follow the header, and without its first `4 * header_size` bytes in every other
case; `parseResponse` goes on with what the parser makes of these bytes. -/
theorem responsePayload_skips (lib : Libraries) (data : List Nat) (s : ArduinoASRChat)
    (h4 : 4 ≤ data.length) (hh : 4 * (data.getD 0 0 &&& 0x0f) ≤ data.length) :
    (data.getD 1 0 >>> 4 = SERVER_FULL_RESPONSE →
      4 * (data.getD 0 0 &&& 0x0f) + 4 < data.length →
      responsePayload data = some (data.drop (4 * (data.getD 0 0 &&& 0x0f) + 4))) ∧
    (data.getD 1 0 >>> 4 = SERVER_ACK ∨ data.getD 1 0 >>> 4 = SERVER_ERROR_RESPONSE →
      4 * (data.getD 0 0 &&& 0x0f) + 8 ≤ data.length →
      responsePayload data = some (data.drop (4 * (data.getD 0 0 &&& 0x0f) + 8))) ∧
    (¬ (data.getD 1 0 >>> 4 = SERVER_FULL_RESPONSE ∧
          4 * (data.getD 0 0 &&& 0x0f) + 4 < data.length) →
      ¬ ((data.getD 1 0 >>> 4 = SERVER_ACK ∨ data.getD 1 0 >>> 4 = SERVER_ERROR_RESPONSE) ∧
          4 * (data.getD 0 0 &&& 0x0f) + 8 ≤ data.length) →
      responsePayload data = some (data.drop (4 * (data.getD 0 0 &&& 0x0f)))) ∧
    (∀ payload, responsePayload data = some payload →
      parseResponse lib data s =
        match lib.deserializeJson payload with
        | none => s
        | some doc => handleDocument lib doc s) := by
  generalize hhs : data.getD 0 0 &&& 0x0f = hs at hh ⊢
  generalize hty : data.getD 1 0 >>> 4 = ty
  have h4' : ¬ data.length < 4 := by omega
  have hh' : ¬ data.length < hs * 4 := by omega
  have base := responsePayload_of_header data hs ty hhs hty h4' hh'
  have hmul : hs * 4 = 4 * hs := Nat.mul_comm _ _
  refine ⟨?_, ?_, ?_, ?_⟩
  · intro h1 h2
    rw [base, if_pos ⟨h1, by omega⟩, List.drop_drop, hmul]
  · intro h1 h2
    have hne : SERVER_ACK ≠ SERVER_FULL_RESPONSE := by decide
    have hne2 : SERVER_ERROR_RESPONSE ≠ SERVER_FULL_RESPONSE := by decide
    have hnf : ¬ (ty = SERVER_FULL_RESPONSE ∧ data.length - hs * 4 > 4) := by
      rintro ⟨a, -⟩
      rcases h1 with h1 | h1
      · exact hne (h1.symm.trans a)
      · exact hne2 (h1.symm.trans a)
    rw [base, if_neg hnf]
    have hlen : data.length - hs * 4 ≥ 8 := by omega
    rcases h1 with h1 | h1
    · rw [if_pos ⟨h1, hlen⟩, List.drop_drop, hmul]
    · have hna : SERVER_ERROR_RESPONSE ≠ SERVER_ACK := by decide
      rw [if_neg (fun a => hna (h1.symm.trans a.1)), if_pos ⟨h1, hlen⟩, List.drop_drop, hmul]
  · intro h1 h2
    have a1 : ¬ (ty = SERVER_FULL_RESPONSE ∧ data.length - hs * 4 > 4) :=
      fun a => h1 ⟨a.1, by omega⟩
    have a2 : ¬ (ty = SERVER_ACK ∧ data.length - hs * 4 ≥ 8) :=
      fun a => h2 ⟨Or.inl a.1, by omega⟩
    have a3 : ¬ (ty = SERVER_ERROR_RESPONSE ∧ data.length - hs * 4 ≥ 8) :=
      fun a => h2 ⟨Or.inr a.1, by omega⟩
    rw [base, if_neg a1, if_neg a2, if_neg a3, hmul]
  · intro payload hp
    cases hd : lib.deserializeJson payload <;> simp [parseResponse, hp, hd]

/-- Instance of the amended claim: the full response with text "ok". -/
theorem responsePayload_skips_witness :
    responsePayload demoOkResponse = some [0, 111, 107] ∧
    ((demoOkResponse.getD 1 0 >>> 4 = SERVER_FULL_RESPONSE →
      4 * (demoOkResponse.getD 0 0 &&& 0x0f) + 4 < demoOkResponse.length →
      responsePayload demoOkResponse =
        some (demoOkResponse.drop (4 * (demoOkResponse.getD 0 0 &&& 0x0f) + 4))) ∧
    (demoOkResponse.getD 1 0 >>> 4 = SERVER_ACK ∨
        demoOkResponse.getD 1 0 >>> 4 = SERVER_ERROR_RESPONSE →
      4 * (demoOkResponse.getD 0 0 &&& 0x0f) + 8 ≤ demoOkResponse.length →
      responsePayload demoOkResponse =
        some (demoOkResponse.drop (4 * (demoOkResponse.getD 0 0 &&& 0x0f) + 8))) ∧
    (¬ (demoOkResponse.getD 1 0 >>> 4 = SERVER_FULL_RESPONSE ∧
          4 * (demoOkResponse.getD 0 0 &&& 0x0f) + 4 < demoOkResponse.length) →
      ¬ ((demoOkResponse.getD 1 0 >>> 4 = SERVER_ACK ∨
            demoOkResponse.getD 1 0 >>> 4 = SERVER_ERROR_RESPONSE) ∧
          4 * (demoOkResponse.getD 0 0 &&& 0x0f) + 8 ≤ demoOkResponse.length) →
      responsePayload demoOkResponse =
        some (demoOkResponse.drop (4 * (demoOkResponse.getD 0 0 &&& 0x0f)))) ∧
    (∀ payload, responsePayload demoOkResponse = some payload →
      parseResponse demoLibraries demoOkResponse demoRecording =
        match demoLibraries.deserializeJson payload with
        | none => demoRecording
        | some doc => handleDocument demoLibraries doc demoRecording)) :=
  ⟨by decide,
    responsePayload_skips demoLibraries demoOkResponse demoRecording (by decide) (by decide)⟩

/-- C27: for a buffer of `len < 2^32` bytes, `parseResponse` reads `data[0]` and `data[1]`
only when `len ≥ 4`; it hands no region to the JSON parser, and returns with the state as it
was, exactly when `len < 4` or `len < 4 * header_size`; otherwise the offset of the region and
its length, computed with `size_t` subtractions, add up to `len` (no subtraction wraps), and
the region is what the list model `responsePayload` hands over. -/
theorem parseResponse_in_bounds (data : List Nat) (hlen : data.length < 2 ^ 32) :
    (∀ i ∈ headerReads data, i < data.length) ∧
    (data.length < 4 → headerReads data = []) ∧
    (responseRegion data = none ↔
      data.length < 4 ∨ data.length < 4 * (data.getD 0 0 &&& 0x0f)) ∧
    (responseRegion data = none →
      responsePayload data = none ∧
      ∀ (lib : Libraries) (s : ArduinoASRChat), parseResponse lib data s = s) ∧
    (∀ offset payload_len, responseRegion data = some (offset, payload_len) →
      offset + payload_len = data.length ∧
      responsePayload data = some ((data.drop offset).take payload_len)) := by
  have key : data.length < 4 ∨ data.length < (data.getD 0 0 &&& 0x0f) * 4 ∨
      ∃ offset, offset ≤ data.length ∧
        responseRegion data = some (offset, data.length - offset) ∧
        responsePayload data = some (data.drop offset) := by
    by_cases h4 : data.length < 4
    · exact Or.inl h4
    · by_cases hh : data.length < (data.getD 0 0 &&& 0x0f) * 4
      · exact Or.inr (Or.inl hh)
      · exact Or.inr (Or.inr (responseRegion_long data hlen h4 hh))
  have hshort : data.length < 4 ∨ data.length < (data.getD 0 0 &&& 0x0f) * 4 →
      responseRegion data = none ∧ responsePayload data = none :=
    fun h => ⟨responseRegion_short data h, responsePayload_short data h⟩
  refine ⟨?_, ?_, ?_, ?_, ?_⟩
  · intro i hi
    unfold headerReads at hi
    split at hi
    · simp at hi
    · simp at hi
      omega
  · intro h
    simp [headerReads, h]
  · constructor
    · intro hn
      rcases key with h | h | ⟨offset, -, hr, -⟩
      · exact Or.inl h
      · exact Or.inr (by omega)
      · rw [hr] at hn
        exact absurd hn (by simp)
    · intro h
      exact (hshort (h.imp_right (fun h => by omega))).1
  · intro hn
    have hp : responsePayload data = none := by
      rcases key with h | h | ⟨offset, -, hr, -⟩
      · exact (hshort (Or.inl h)).2
      · exact (hshort (Or.inr h)).2
      · rw [hr] at hn
        exact absurd hn (by simp)
    refine ⟨hp, ?_⟩
    intro lib s
    simp [parseResponse, hp]
  · intro offset payload_len h
    rcases key with h4 | h4 | ⟨off, hle, hr, hp⟩
    · rw [(hshort (Or.inl h4)).1] at h
      exact absurd h (by simp)
    · rw [(hshort (Or.inr h4)).1] at h
      exact absurd h (by simp)
    · rw [hr] at h
      simp only [Option.some.injEq, Prod.mk.injEq] at h
      obtain ⟨rfl, rfl⟩ := h
      refine ⟨by omega, ?_⟩
      rw [hp, List.take_of_length_le]
      rw [List.length_drop]

/-- Instance of the bounds: the full response with text "ok", 11 bytes, region 8..10. -/
theorem parseResponse_in_bounds_witness :
    responseRegion demoOkResponse = some (8, 3) ∧
    ((∀ i ∈ headerReads demoOkResponse, i < demoOkResponse.length) ∧
    (demoOkResponse.length < 4 → headerReads demoOkResponse = []) ∧
    (responseRegion demoOkResponse = none ↔
      demoOkResponse.length < 4 ∨
        demoOkResponse.length < 4 * (demoOkResponse.getD 0 0 &&& 0x0f)) ∧
    (responseRegion demoOkResponse = none →
      responsePayload demoOkResponse = none ∧
      ∀ (lib : Libraries) (s : ArduinoASRChat), parseResponse lib demoOkResponse s = s) ∧
    (∀ offset payload_len, responseRegion demoOkResponse = some (offset, payload_len) →
      offset + payload_len = demoOkResponse.length ∧
      responsePayload demoOkResponse =
        some ((demoOkResponse.drop offset).take payload_len))) :=
  ⟨by decide, parseResponse_in_bounds demoOkResponse (by decide)⟩

/-! ### The statistics of an utterance -/

theorem demoHeard_reachable : Reachable demoLibraries demoHeard :=
  reachable_run demoLibraries demoHeardOps demoBoot (Reachable.init _ _ _ _ _ _)

/-- C23: in every reachable state a non-empty `_lastResultText` comes with a
`_sameResultCount` of at least 1. -/
theorem result_text_counted (lib : Libraries) (s : ArduinoASRChat) (h : Reachable lib s)
    (ht : s._lastResultText ≠ "") : s._sameResultCount ≥ 1 :=
  (reachable_wellFormed lib s h).2.2.2.2.2 ht

/-- Instance of the count: the state after a result "ok" handled by `loop`. -/
theorem result_text_counted_witness :
    demoHeard._lastResultText = "ok" ∧ demoHeard._sameResultCount ≥ 1 :=
  ⟨by decide, result_text_counted demoLibraries demoHeard demoHeard_reachable (by decide)⟩

/-- C24: in every reachable state without speech `_lastSpeechTime` is 0 and `_lastResultText`
is empty, and `checkSilence` leaves such a state as it is at every clock value, so it never
stops the recording. -/
theorem no_speech_no_silence_timer (lib : Libraries) (s : ArduinoASRChat) (h : Reachable lib s)
    (hs : s._hasSpeech = false) :
    s._lastSpeechTime = 0 ∧ s._lastResultText = "" ∧
    ∀ now : Nat, checkSilence { s with clock := now } = { s with clock := now } := by
  obtain ⟨h1, h2⟩ := (reachable_wellFormed lib s h).2.2.2.2.1 hs
  refine ⟨h2, h1, ?_⟩
  intro now
  simp [checkSilence, hs]

/-- Instance of the disabled silence timer: the state right after a start. -/
theorem no_speech_no_silence_timer_witness :
    demoStarted._isRecording = true ∧
    demoStarted._lastSpeechTime = 0 ∧ demoStarted._lastResultText = "" ∧
    ∀ now : Nat, checkSilence { demoStarted with clock := now } =
      { demoStarted with clock := now } :=
  ⟨by decide, no_speech_no_silence_timer demoLibraries demoStarted demoStarted_reachable
    (by decide)⟩

theorem stopRecording_stats (s : ArduinoASRChat) :
    (stopRecording s)._hasSpeech = s._hasSpeech ∧
    (stopRecording s)._lastSpeechTime = s._lastSpeechTime ∧
    (stopRecording s)._lastResultText = s._lastResultText ∧
    (stopRecording s)._sameResultCount = s._sameResultCount := by
  by_cases h : s._isRecording = true
  · rw [stopRecording_eq s h]
    exact ⟨rfl, rfl, rfl, rfl⟩
  · rw [stopRecording_idle s (by simpa using h)]
    exact ⟨rfl, rfl, rfl, rfl⟩

theorem updateResult_stats (T : String) (x : ArduinoASRChat) (h1 : T ≠ "") (h2 : T ≠ " ") :
    (updateResult T x)._hasSpeech = true ∧
    (updateResult T x)._lastSpeechTime = x.clock ∧
    (T = x._lastResultText →
      (updateResult T x)._sameResultCount = x._sameResultCount + 1 ∧
      (updateResult T x)._lastResultText = x._lastResultText) ∧
    (T ≠ x._lastResultText →
      (updateResult T x)._sameResultCount = 1 ∧ (updateResult T x)._lastResultText = T) := by
  by_cases h : T = x._lastResultText
  · by_cases h3 : x._sameResultCount + 1 ≥ 10 ∧ x._isRecording = true ∧ x._shouldStop = false
    · rw [updateResult_tenth T x h1 h2 h h3.1 h3.2.1 h3.2.2]
      obtain ⟨a, b, c, d⟩ := stopRecording_stats
        { x with _hasSpeech := true, _lastSpeechTime := x.clock,
                 _sameResultCount := x._sameResultCount + 1 }
      rw [a, b, c, d]
      exact ⟨rfl, rfl, fun _ => ⟨rfl, rfl⟩, fun hn => absurd h hn⟩
    · rw [updateResult_repeat T x h1 h2 h h3]
      exact ⟨rfl, rfl, fun _ => ⟨rfl, rfl⟩, fun hn => absurd h hn⟩
  · rw [updateResult_new T x h1 h2 h]
    exact ⟨rfl, rfl, fun hn => absurd hn h, fun _ => ⟨rfl, rfl⟩⟩

theorem parseResponse_carries (lib : Libraries) (T : String) (data : List Nat)
    (s : ArduinoASRChat) (h : CarriesText lib T data) :
    ∃ doc, parseResponse lib data s =
      updateResult T { s with events := s.events ++ codeLog lib doc } := by
  obtain ⟨payload, doc, hp, hd, hr, ht⟩ := h
  refine ⟨doc, ?_⟩
  rw [parseResponse_decoded lib data payload doc s hp hd]
  simp only [handleDocument, hr, ht, if_true, reportCode_eq]

/-- C25: for every state and every message that carries an accepted text `T` (not empty, not
one space), `parseResponse` sets `_hasSpeech` and sets `_lastSpeechTime` to the clock; when `T`
is `_lastResultText` it adds exactly 1 to `_sameResultCount` and keeps the text, otherwise it
sets the count to 1 and the text to `T`.  So after a different accepted text `U` in between,
`T` is counted from 1 again, whatever the count was. -/
theorem result_update_rule (lib : Libraries) (T : String) (data : List Nat) (s : ArduinoASRChat)
    (h : CarriesText lib T data) (h1 : T ≠ "") (h2 : T ≠ " ") :
    (parseResponse lib data s)._hasSpeech = true ∧
    (parseResponse lib data s)._lastSpeechTime = millis s ∧
    (T = s._lastResultText →
      (parseResponse lib data s)._sameResultCount = s._sameResultCount + 1 ∧
      (parseResponse lib data s)._lastResultText = s._lastResultText) ∧
    (T ≠ s._lastResultText →
      (parseResponse lib data s)._sameResultCount = 1 ∧
      (parseResponse lib data s)._lastResultText = T) ∧
    (∀ (U : String) (between : List Nat), CarriesText lib U between → U ≠ "" → U ≠ " " →
      U ≠ T →
      (parseResponse lib data (parseResponse lib between s))._sameResultCount = 1 ∧
      (parseResponse lib data (parseResponse lib between s))._lastResultText = T) := by
  have main : ∀ (V : String) (d : List Nat) (x : ArduinoASRChat), CarriesText lib V d →
      V ≠ "" → V ≠ " " →
      (parseResponse lib d x)._hasSpeech = true ∧
      (parseResponse lib d x)._lastSpeechTime = x.clock ∧
      (V = x._lastResultText →
        (parseResponse lib d x)._sameResultCount = x._sameResultCount + 1 ∧
        (parseResponse lib d x)._lastResultText = x._lastResultText) ∧
      (V ≠ x._lastResultText →
        (parseResponse lib d x)._sameResultCount = 1 ∧
        (parseResponse lib d x)._lastResultText = V) := by
    intro V d x hc hv1 hv2
    obtain ⟨doc, hd⟩ := parseResponse_carries lib V d x hc
    rw [hd]
    exact updateResult_stats V { x with events := x.events ++ codeLog lib doc } hv1 hv2
  obtain ⟨a, b, c, d⟩ := main T data s h h1 h2
  refine ⟨a, b, c, d, ?_⟩
  intro U between hU hU1 hU2 hne
  obtain ⟨-, -, cU, dU⟩ := main U between s hU hU1 hU2
  have hlast : (parseResponse lib between s)._lastResultText = U := by
    by_cases e : U = s._lastResultText
    · rw [(cU e).2, ← e]
    · exact (dU e).2
  obtain ⟨-, -, -, d2⟩ := main T data (parseResponse lib between s) h h1 h2
  exact d2 (by rw [hlast]; exact fun e => hne e.symm)

theorem demoOkResponse_carries : CarriesText demoLibraries "ok" demoOkResponse :=
  ⟨[0, 111, 107], _, by decide, rfl, by decide, by decide⟩

/-- Instance of the update rule: the text "ok" arriving in a recording that holds "hi". -/
theorem result_update_rule_witness :
    demoRecording._lastResultText = "hi" ∧
    (parseResponse demoLibraries demoOkResponse demoRecording)._sameResultCount = 1 ∧
    (parseResponse demoLibraries demoOkResponse demoRecording)._lastResultText = "ok" :=
  ⟨rfl, (result_update_rule demoLibraries "ok" demoOkResponse demoRecording
    demoOkResponse_carries (by decide) (by decide)).2.2.2.1 (by decide)⟩

/-- C26, as the claim states it, fails: a text of two spaces, which is empty after trimming,
arriving in a state without speech sets `_hasSpeech`, becomes `_lastResultText` and is counted;
so does a text of one tab. -/
theorem two_spaces_treated_as_speech :
    demoStarted._hasSpeech = false ∧ demoStarted._lastResultText = "" ∧
    (∃ payload doc, responsePayload demoTwoSpaces = some payload ∧
      demoLibraries.deserializeJson payload = some doc ∧
      currentText demoLibraries doc = "  ") ∧
    "  ".data.all Char.isWhitespace = true ∧
    (parseResponse demoLibraries demoTwoSpaces demoStarted)._hasSpeech = true ∧
    (parseResponse demoLibraries demoTwoSpaces demoStarted)._lastResultText = "  " ∧
    (parseResponse demoLibraries demoTwoSpaces demoStarted)._sameResultCount = 1 ∧
    (parseResponse demoLibraries demoTab demoStarted)._hasSpeech = true ∧
    (parseResponse demoLibraries demoTab demoStarted)._lastResultText = "\t" := by
  refine ⟨by decide, by decide, ⟨[0, 32, 32], _, by decide, rfl, by decide⟩, by decide, by decide,
    by decide, by decide, by decide, by decide⟩

/-- C26, amended: a result whose `result[0].text` is empty or is exactly one space is not
treated as speech: `parseResponse` leaves `_hasSpeech`, `_lastSpeechTime`, `_lastResultText`
and `_sameResultCount` unchanged, does not stop the recording and invokes no ResultCallback. -/
theorem blank_text_not_speech (lib : Libraries) (data payload : List Nat) (doc : JsonVariant)
    (s : ArduinoASRChat) (hp : responsePayload data = some payload)
    (hd : lib.deserializeJson payload = some doc)
    (ht : currentText lib doc = "" ∨ currentText lib doc = " ") :
    (parseResponse lib data s)._hasSpeech = s._hasSpeech ∧
    (parseResponse lib data s)._lastSpeechTime = s._lastSpeechTime ∧
    (parseResponse lib data s)._lastResultText = s._lastResultText ∧
    (parseResponse lib data s)._sameResultCount = s._sameResultCount ∧
    (parseResponse lib data s).isRecording = s.isRecording ∧
    resultCalls (parseResponse lib data s).events = resultCalls s.events := by
  rw [parseResponse_decoded lib data payload doc s hp hd]
  simp only [handleDocument, reportCode_eq]
  have hl : resultCalls (s.events ++ codeLog lib doc) = resultCalls s.events := by
    unfold codeLog
    split <;> simp [resultCalls, Event.resultText]
  split
  · rw [updateResult_rejected _ _ ht]
    exact ⟨rfl, rfl, rfl, rfl, rfl, hl⟩
  · exact ⟨rfl, rfl, rfl, rfl, rfl, hl⟩

/-- Instance of the amended claim: a text of one space right after a start. -/
theorem blank_text_not_speech_witness :
    (parseResponse demoLibraries demoOneSpace demoStarted)._hasSpeech = demoStarted._hasSpeech ∧
    (parseResponse demoLibraries demoOneSpace demoStarted)._lastSpeechTime =
      demoStarted._lastSpeechTime ∧
    (parseResponse demoLibraries demoOneSpace demoStarted)._lastResultText =
      demoStarted._lastResultText ∧
    (parseResponse demoLibraries demoOneSpace demoStarted)._sameResultCount =
      demoStarted._sameResultCount ∧
    (parseResponse demoLibraries demoOneSpace demoStarted).isRecording =
      demoStarted.isRecording ∧
    resultCalls (parseResponse demoLibraries demoOneSpace demoStarted).events =
      resultCalls demoStarted.events :=
  blank_text_not_speech demoLibraries demoOneSpace [0, 32] _ demoStarted (by decide) rfl
    (Or.inr (by decide))

end ArduinoASRChat
